import Mathlib

/-!
# openMittsu: the group-message consistency and delivery engine

A shallow embedding of `src/dataproviders/SimpleMessageCenter.cpp`.

* The object state (`m_storage`, `m_messageQueue`, `m_optionMaster`,
  `m_networkSentMessageAcceptor`) is an explicit record that every method
  takes and returns.
* Every call on a collaborator (a storage query, a storage mutation, a call
  on the transport acceptor, a call on the deferred message queue), every
  emitted signal and every call from one method of the class to another is
  appended, in program order, to `trace`.  The two availability probes
  `m_storage.hasDatabase()` and `m_networkSentMessageAcceptor->isConnected()`
  and the reads of the option master are not recorded.
* The storage back end, the clock and the EXIF codec are collaborators whose
  code is outside the sources; they are parameters (`Env`).
-/

namespace openmittsu

/-! ## Protocol values -/

abbrev ContactId := Nat
abbrev MessageId := Nat
abbrev MessageTime := Nat
abbrev QString := String
abbrev QByteArray := List Nat

/-- A group identifier: the owning contact plus a locally unique suffix. -/
structure GroupId where
  owner : ContactId
  groupId : Nat
deriving DecidableEq, Repr

def GroupId.getOwner (group : GroupId) : ContactId := group.owner

structure Location where
  code : Nat
deriving DecidableEq, Repr

/-- The enumerators of `messages::GroupMessageType` that the sources name
(`SimpleMessageCenter.cpp` and `DatabaseGroupMessageCursor.cpp`). -/
inductive GroupMessageType
  | AUDIO
  | FILE
  | IMAGE
  | LEAVE
  | LOCATION
  | SET_IMAGE
  | SET_TITLE
  | SYNC_REQUEST
  | TEXT
  | VIDEO
deriving DecidableEq, Repr

inductive ReceiptType
  | RECEIVED
  | SEEN
  | AGREE
  | DISAGREE
deriving DecidableEq, Repr

/-- The payload of a deferred message: the `QVariant` the handlers build from
a text, a byte sequence, a location, or nothing. -/
inductive QVariant
  | null
  | string (s : QString)
  | byteArray (b : QByteArray)
  | location (l : Location)
deriving DecidableEq, Repr

/-- Reading a payload back as text.  A payload of another kind reads as the
empty text here; the conversions Qt would apply between kinds are not
modelled. -/
def QVariant.toString : QVariant → QString
  | .string s => s
  | _ => ""

def QVariant.toByteArray : QVariant → QByteArray
  | .byteArray b => b
  | _ => []

def QVariant.toLocation : QVariant → Location
  | .location l => l
  | _ => ⟨0⟩

def QVariant.isNull : QVariant → Bool
  | .null => true
  | _ => false

/-- The test `canConvert<QString>()`, for the payloads modelled: a text
converts; the conversions Qt would apply between kinds are not modelled. -/
def QVariant.canConvertString : QVariant → Bool
  | .string _ => true
  | _ => false

/-- The test `canConvert<QByteArray>()`, for the payloads modelled: a byte
sequence converts; the conversions Qt would apply between kinds are not
modelled. -/
def QVariant.canConvertByteArray : QVariant → Bool
  | .byteArray _ => true
  | _ => false

/-- The record `MessageQueue::ReceivedGroupMessage`, built by the handlers
with these seven arguments in this order. -/
structure ReceivedGroupMessage where
  group : GroupId
  sender : ContactId
  messageId : MessageId
  timeSent : MessageTime
  timeReceived : MessageTime
  messageType : GroupMessageType
  content : QVariant
deriving DecidableEq, Repr

structure MediaFileItem where
  available : Bool
  data : QByteArray
deriving DecidableEq

def MediaFileItem.isAvailable (m : MediaFileItem) : Bool := m.available
def MediaFileItem.getData (m : MediaFileItem) : QByteArray := m.data

/-- The fields of `database::GroupData` that `resendGroupSetup` reads. -/
structure GroupData where
  members : Finset ContactId
  title : QString
  hasImage : Bool
  image : MediaFileItem
deriving DecidableEq

/-! ## Calls on collaborators -/

/-- The `const` queries of the storage interface used by the engine. -/
inductive StorageQuery
  | getSelfContact
  | hasContact (identity : ContactId)
  | hasGroup (group : GroupId)
  | isDeleteted (group : GroupId)
  | getGroupMembers (group : GroupId) (excludeSelfContact : Bool)
  | getGroupData (group : GroupId) (flag : Bool)
deriving DecidableEq

set_option maxHeartbeats 4000000 in
/-- The mutating calls of the storage interface used by the engine, with the
arguments in the order of `DatabaseWrapper.h`. -/
inductive StorageCall
  | storeSentContactMessageText (receiver : ContactId) (timeCreated : MessageTime) (isQueued : Bool) (message : QString)
  | storeSentContactMessageImage (receiver : ContactId) (timeCreated : MessageTime) (isQueued : Bool) (image : QByteArray) (caption : QString)
  | storeSentContactMessageLocation (receiver : ContactId) (timeCreated : MessageTime) (isQueued : Bool) (location : Location)
  | storeSentContactMessageReceiptReceived (receiver : ContactId) (timeCreated : MessageTime) (isQueued : Bool) (referredMessageId : MessageId)
  | storeSentContactMessageReceiptSeen (receiver : ContactId) (timeCreated : MessageTime) (isQueued : Bool) (referredMessageId : MessageId)
  | storeSentContactMessageReceiptAgree (receiver : ContactId) (timeCreated : MessageTime) (isQueued : Bool) (referredMessageId : MessageId)
  | storeSentContactMessageReceiptDisagree (receiver : ContactId) (timeCreated : MessageTime) (isQueued : Bool) (referredMessageId : MessageId)
  | storeSentContactMessageNotificationTypingStarted (receiver : ContactId) (timeCreated : MessageTime) (isQueued : Bool)
  | storeSentContactMessageNotificationTypingStopped (receiver : ContactId) (timeCreated : MessageTime) (isQueued : Bool)
  | storeSentGroupMessageText (group : GroupId) (timeCreated : MessageTime) (isQueued : Bool) (message : QString)
  | storeSentGroupMessageImage (group : GroupId) (timeCreated : MessageTime) (isQueued : Bool) (image : QByteArray) (caption : QString)
  | storeSentGroupMessageLocation (group : GroupId) (timeCreated : MessageTime) (isQueued : Bool) (location : Location)
  | storeSentGroupCreation (group : GroupId) (timeCreated : MessageTime) (isQueued : Bool) (members : Finset ContactId) (apply : Bool)
  | storeSentGroupSetImage (group : GroupId) (timeCreated : MessageTime) (isQueued : Bool) (image : QByteArray) (apply : Bool)
  | storeSentGroupSetTitle (group : GroupId) (timeCreated : MessageTime) (isQueued : Bool) (groupTitle : QString) (apply : Bool)
  | storeSentGroupSyncRequest (group : GroupId) (timeCreated : MessageTime) (isQueued : Bool)
  | storeSentGroupLeave (group : GroupId) (timeCreated : MessageTime) (isQueued : Bool) (apply : Bool)
  | storeReceivedContactMessageText (sender : ContactId) (messageId : MessageId) (timeSent timeReceived : MessageTime) (message : QString)
  | storeReceivedContactMessageImage (sender : ContactId) (messageId : MessageId) (timeSent timeReceived : MessageTime) (image : QByteArray) (caption : QString)
  | storeReceivedContactMessageLocation (sender : ContactId) (messageId : MessageId) (timeSent timeReceived : MessageTime) (location : Location)
  | storeReceivedContactMessageReceiptReceived (sender : ContactId) (messageId : MessageId) (timeSent : MessageTime) (referredMessageId : MessageId)
  | storeReceivedContactMessageReceiptSeen (sender : ContactId) (messageId : MessageId) (timeSent : MessageTime) (referredMessageId : MessageId)
  | storeReceivedContactMessageReceiptAgree (sender : ContactId) (messageId : MessageId) (timeSent : MessageTime) (referredMessageId : MessageId)
  | storeReceivedContactMessageReceiptDisagree (sender : ContactId) (messageId : MessageId) (timeSent : MessageTime) (referredMessageId : MessageId)
  | storeReceivedContactTypingNotificationTyping (sender : ContactId) (messageId : MessageId) (timeSent : MessageTime)
  | storeReceivedContactTypingNotificationStopped (sender : ContactId) (messageId : MessageId) (timeSent : MessageTime)
  | storeReceivedGroupMessageText (group : GroupId) (sender : ContactId) (messageId : MessageId) (timeSent timeReceived : MessageTime) (message : QString)
  | storeReceivedGroupMessageImage (group : GroupId) (sender : ContactId) (messageId : MessageId) (timeSent timeReceived : MessageTime) (image : QByteArray) (caption : QString)
  | storeReceivedGroupMessageLocation (group : GroupId) (sender : ContactId) (messageId : MessageId) (timeSent timeReceived : MessageTime) (location : Location)
  | storeReceivedGroupCreation (group : GroupId) (sender : ContactId) (messageId : MessageId) (timeSent timeReceived : MessageTime) (members : Finset ContactId)
  | storeReceivedGroupSetImage (group : GroupId) (sender : ContactId) (messageId : MessageId) (timeSent timeReceived : MessageTime) (image : QByteArray)
  | storeReceivedGroupSetTitle (group : GroupId) (sender : ContactId) (messageId : MessageId) (timeSent timeReceived : MessageTime) (groupTitle : QString)
  | storeReceivedGroupSyncRequest (group : GroupId) (sender : ContactId) (messageId : MessageId) (timeSent timeReceived : MessageTime)
  | storeReceivedGroupLeave (group : GroupId) (sender : ContactId) (messageId : MessageId) (timeSent timeReceived : MessageTime)
  | storeMessageSendFailedContact (receiver : ContactId) (messageId : MessageId)
  | storeMessageSendDoneContact (receiver : ContactId) (messageId : MessageId)
  | storeMessageSendFailedGroup (group : GroupId) (messageId : MessageId)
  | storeMessageSendDoneGroup (group : GroupId) (messageId : MessageId)
  | storeNewContact (contact : ContactId) (publicKey : Nat)
  | storeNewGroup (groupId : GroupId) (members : Finset ContactId) (isAwaitingSync : Bool)
  | sendAllWaitingMessages
deriving DecidableEq

/-- The calls on the transport acceptor (`NetworkSentMessageAcceptor`). -/
inductive TransportCall
  | processSentContactMessageText (receiver : ContactId) (messageId : MessageId) (sentTime : MessageTime) (text : QString)
  | processSentContactMessageImage (receiver : ContactId) (messageId : MessageId) (sentTime : MessageTime) (image : QByteArray) (caption : QString)
  | processSentContactMessageLocation (receiver : ContactId) (messageId : MessageId) (sentTime : MessageTime) (location : Location)
  | processSentContactMessageTypingStarted (receiver : ContactId) (messageId : MessageId) (sentTime : MessageTime)
  | processSentContactMessageTypingStopped (receiver : ContactId) (messageId : MessageId) (sentTime : MessageTime)
  | processSentContactMessageReceiptReceived (receiver : ContactId) (messageId : MessageId) (sentTime : MessageTime) (receiptedMessageId : MessageId)
  | processSentContactMessageReceiptSeen (receiver : ContactId) (messageId : MessageId) (sentTime : MessageTime) (receiptedMessageId : MessageId)
  | processSentContactMessageReceiptAgree (receiver : ContactId) (messageId : MessageId) (sentTime : MessageTime) (receiptedMessageId : MessageId)
  | processSentContactMessageReceiptDisagree (receiver : ContactId) (messageId : MessageId) (sentTime : MessageTime) (receiptedMessageId : MessageId)
  | processSentGroupLeave (group : GroupId) (recipients : Finset ContactId) (messageId : MessageId) (sentTime : MessageTime) (self : ContactId)
  | processSentGroupSyncRequest (group : GroupId) (recipients : Finset ContactId) (messageId : MessageId) (sentTime : MessageTime)
  | processSentGroupCreation (group : GroupId) (recipients : Finset ContactId) (messageId : MessageId) (sentTime : MessageTime) (members : Finset ContactId)
  | processSentGroupSetTitle (group : GroupId) (recipients : Finset ContactId) (messageId : MessageId) (sentTime : MessageTime) (title : QString)
  | processSentGroupSetImage (group : GroupId) (recipients : Finset ContactId) (messageId : MessageId) (sentTime : MessageTime) (image : QByteArray)
  | processSentGroupMessageText (group : GroupId) (recipients : Finset ContactId) (messageId : MessageId) (sentTime : MessageTime) (text : QString)
  | processSentGroupMessageImage (group : GroupId) (recipients : Finset ContactId) (messageId : MessageId) (sentTime : MessageTime) (image : QByteArray) (caption : QString)
  | processSentGroupMessageLocation (group : GroupId) (recipients : Finset ContactId) (messageId : MessageId) (sentTime : MessageTime) (location : Location)
  | sendMessageReceivedAcknowledgement (sender : ContactId) (messageId : MessageId)
deriving DecidableEq

/-- The calls on the member `m_messageQueue`. -/
inductive QueueCall
  | storeGroupMessage (entry : ReceivedGroupMessage)
  | getAndRemoveQueuedMessages (group : GroupId)
  | hasMessageForGroup (group : GroupId)
deriving DecidableEq

/-- The signals the class emits. -/
inductive Signal
  | messageChanged (uuid : QString)
  | newUnreadMessageAvailableContact (contact : ContactId)
  | newUnreadMessageAvailableGroup (group : GroupId)
deriving DecidableEq

/-- A call from one method of `SimpleMessageCenter` to another, recorded at the
call site with the arguments passed. -/
inductive MethodCall
  | sendReceipt (receiver : ContactId) (receiptedMessageId : MessageId) (receiptType : ReceiptType)
  | sendSyncRequest (group : GroupId)
  | sendGroupCreation (group : GroupId) (members recipients : Finset ContactId) (applyOperationInDatabase : Bool)
  | sendGroupTitle (group : GroupId) (title : QString) (recipients : Finset ContactId) (applyOperationInDatabase : Bool)
  | sendGroupImage (group : GroupId) (image : QByteArray) (recipients : Finset ContactId) (applyOperationInDatabase : Bool)
  | sendGroupCreationPublic (group : GroupId) (members : Finset ContactId)
  | sendGroupTitlePublic (group : GroupId) (title : QString)
  | sendGroupImagePublic (group : GroupId) (image : QByteArray)
  | tryResendingMessagesToNetwork
  | resendGroupSetup (group : GroupId) (recipients : Finset ContactId)
  | requestSyncForGroupIfApplicable (group : GroupId)
  | checkAndFixGroupMembership (group : GroupId) (sender : ContactId)
  | processReceivedGroupMessageText (group : GroupId) (sender : ContactId) (messageId : MessageId) (timeSent timeReceived : MessageTime) (message : QString)
  | processReceivedGroupMessageImage (group : GroupId) (sender : ContactId) (messageId : MessageId) (timeSent timeReceived : MessageTime) (image : QByteArray)
  | processReceivedGroupMessageLocation (group : GroupId) (sender : ContactId) (messageId : MessageId) (timeSent timeReceived : MessageTime) (location : Location)
  | processReceivedGroupSetImage (group : GroupId) (sender : ContactId) (messageId : MessageId) (timeSent timeReceived : MessageTime) (image : QByteArray)
  | processReceivedGroupSetTitle (group : GroupId) (sender : ContactId) (messageId : MessageId) (timeSent timeReceived : MessageTime) (groupTitle : QString)
  | processReceivedGroupSyncRequest (group : GroupId) (sender : ContactId) (messageId : MessageId) (timeSent timeReceived : MessageTime)
  | processReceivedGroupLeave (group : GroupId) (sender : ContactId) (messageId : MessageId) (timeSent timeReceived : MessageTime)
deriving DecidableEq

inductive Event
  | query (q : StorageQuery)
  | storage (c : StorageCall)
  | transport (c : TransportCall)
  | queue (c : QueueCall)
  | signal (s : Signal)
  | call (c : MethodCall)
deriving DecidableEq

/-! ## Collaborators -/

/-- Modelled from the spec: the storage collaborator (the `Database` behind
`DatabaseWrapper`, whose code is outside the sources).  Its answers to the
`const` queries, the state a mutating call leaves and the message id a
`storeSent*` call returns are parameters; `σ` is the type of its state. -/
structure Database (σ : Type) where
  getSelfContact : σ → ContactId
  hasContact : σ → ContactId → Bool
  hasGroup : σ → GroupId → Bool
  isDeleteted : σ → GroupId → Bool
  getGroupMembers : σ → GroupId → Bool → Finset ContactId
  getGroupData : σ → GroupId → Bool → GroupData
  perform : σ → StorageCall → σ
  messageIdOf : σ → StorageCall → MessageId

/-- The collaborators of the engine: the storage back end, the clock behind
`MessageTime::now()` (its successive readings) and the EXIF codec used by
`parseCaptionFromImage` and `embedCaptionIntoImage`. -/
structure Env (σ : Type) extends Database σ where
  timeAt : Nat → MessageTime
  exifCaption : QByteArray → QString
  exifEmbed : QByteArray → QString → QByteArray

/-- The `DatabaseWrapper` member: whether it currently holds a database
(`hasDatabase()`) and the state of that database. -/
structure DatabaseWrapper (σ : Type) where
  hasDatabase : Bool
  database : σ

/-- The two boolean options the engine reads from the option master. -/
structure OptionMaster where
  BOOLEAN_SEND_TYPING_NOTIFICATION : Bool
  BOOLEAN_TRUST_OTHERS : Bool
deriving DecidableEq

structure NetworkSentMessageAcceptor where
  connected : Bool
deriving DecidableEq

def NetworkSentMessageAcceptor.isConnected (a : NetworkSentMessageAcceptor) : Bool := a.connected

/-! ## The deferred message queue -/

/-- Modelled from the spec: the deferred message queue (`MessageQueue`, whose
code is outside the sources), kept as the list of its entries in arrival
order; the per-group list of a group is the sublist of its entries. -/
abbrev MessageQueue := List ReceivedGroupMessage

/-- Modelled from the spec: `storeGroupMessage` appends the entry, without
deduplication. -/
def MessageQueue.storeGroupMessage (q : MessageQueue) (entry : ReceivedGroupMessage) : MessageQueue :=
  q ++ [entry]

/-- Modelled from the spec: `getAndRemoveQueuedMessages` detaches and returns
all entries of `group`, in insertion order; the entries of other groups
stay. -/
def MessageQueue.getAndRemoveQueuedMessages (q : MessageQueue) (group : GroupId) :
    List ReceivedGroupMessage × MessageQueue :=
  (q.filter (fun m => decide (m.group = group)), q.filter (fun m => !decide (m.group = group)))

/-- Modelled from the spec: `hasMessageForGroup` is a non-destructive
existence check. -/
def MessageQueue.hasMessageForGroup (q : MessageQueue) (group : GroupId) : Bool :=
  q.any (fun m => decide (m.group = group))

/-! ## The message center -/

/-- The state of a `SimpleMessageCenter` object together with the record of
the calls it has made (`trace`) and the number of clock readings taken
(`ticks`). -/
structure SimpleMessageCenter (σ : Type) where
  m_optionMaster : OptionMaster
  m_networkSentMessageAcceptor : Option NetworkSentMessageAcceptor
  m_storage : DatabaseWrapper σ
  m_messageQueue : MessageQueue
  ticks : Nat
  trace : List Event

namespace SimpleMessageCenter

variable {σ : Type}

def log (mc : SimpleMessageCenter σ) (e : Event) : SimpleMessageCenter σ :=
  { mc with trace := mc.trace ++ [e] }

/-- A `const` query on `m_storage`: recorded, the state is left as it is. -/
def ask (mc : SimpleMessageCenter σ) (q : StorageQuery) : SimpleMessageCenter σ :=
  mc.log (.query q)

/-- A mutating call on `m_storage`. -/
def store (env : Env σ) (mc : SimpleMessageCenter σ) (c : StorageCall) : SimpleMessageCenter σ :=
  { mc with
    m_storage := { mc.m_storage with database := env.perform mc.m_storage.database c }
    trace := mc.trace ++ [.storage c] }

/-- The message id a `storeSent*` call on `m_storage` returns. -/
def sentId (env : Env σ) (mc : SimpleMessageCenter σ) (c : StorageCall) : MessageId :=
  env.messageIdOf mc.m_storage.database c

def send (mc : SimpleMessageCenter σ) (c : TransportCall) : SimpleMessageCenter σ :=
  mc.log (.transport c)

def emit (mc : SimpleMessageCenter σ) (s : Signal) : SimpleMessageCenter σ :=
  mc.log (.signal s)

def enter (mc : SimpleMessageCenter σ) (c : MethodCall) : SimpleMessageCenter σ :=
  mc.log (.call c)

/-- The static `MessageTime::now()`: the current reading of the clock. -/
def now (env : Env σ) (mc : SimpleMessageCenter σ) : MessageTime :=
  env.timeAt mc.ticks

/-- The clock moving on to its next reading, after `MessageTime::now()` was
read. -/
def tick (mc : SimpleMessageCenter σ) : SimpleMessageCenter σ :=
  { mc with ticks := mc.ticks + 1 }

/-- The database state behind `m_storage`. -/
def db (mc : SimpleMessageCenter σ) : σ := mc.m_storage.database

/-- The local `willQueue` every send method computes: `true`, reset to `false`
when the acceptor is null or not connected. -/
def willQueue (mc : SimpleMessageCenter σ) : Bool :=
  match mc.m_networkSentMessageAcceptor with
  | none => false
  | some a => a.isConnected

/-- The block `if (m_networkSentMessageAcceptor != nullptr)
sendMessageReceivedAcknowledgement(sender, messageId)` of the inbound
handlers. -/
def acknowledge (mc : SimpleMessageCenter σ) (sender : ContactId) (messageId : MessageId) :
    SimpleMessageCenter σ :=
  match mc.m_networkSentMessageAcceptor with
  | none => mc
  | some _ => mc.send (.sendMessageReceivedAcknowledgement sender messageId)

/-- The statement `m_messageQueue.storeGroupMessage(entry)`. -/
def defer (mc : SimpleMessageCenter σ) (entry : ReceivedGroupMessage) : SimpleMessageCenter σ :=
  { mc with
    m_messageQueue := mc.m_messageQueue.storeGroupMessage entry
    trace := mc.trace ++ [.queue (.storeGroupMessage entry)] }

/-- The statement `m_messageQueue.getAndRemoveQueuedMessages(group)`, as far as
the queue is concerned: the entries of `group` are detached. -/
def drain (mc : SimpleMessageCenter σ) (group : GroupId) : SimpleMessageCenter σ :=
  { mc with
    m_messageQueue := (mc.m_messageQueue.getAndRemoveQueuedMessages group).2
    trace := mc.trace ++ [.queue (.getAndRemoveQueuedMessages group)] }

def openTabForIncomingMessageContact (mc : SimpleMessageCenter σ) (contact : ContactId) :
    SimpleMessageCenter σ :=
  mc.emit (.newUnreadMessageAvailableContact contact)

def openTabForIncomingMessage (mc : SimpleMessageCenter σ) (group : GroupId) :
    SimpleMessageCenter σ :=
  mc.emit (.newUnreadMessageAvailableGroup group)

def parseCaptionFromImage (env : Env σ) (image : QByteArray) : QString :=
  env.exifCaption image

def embedCaptionIntoImage (env : Env σ) (image : QByteArray) (caption : QString) : QByteArray :=
  if caption.isEmpty then image else env.exifEmbed image caption

/-! ### Outbound group operations -/

def sendSyncRequest (env : Env σ) (group : GroupId) (mc : SimpleMessageCenter σ) :
    Bool × SimpleMessageCenter σ :=
  if mc.m_storage.hasDatabase then
    (false, mc)
  else
    let mc := mc.ask .getSelfContact
    if env.getSelfContact mc.db = group.getOwner then
      (false, mc)
    else
      let willQueue := mc.willQueue
      let sentTime := mc.now env
      let mc := mc.tick
      let stored := StorageCall.storeSentGroupSyncRequest group sentTime willQueue
      let messageId := mc.sentId env stored
      let mc := mc.store env stored
      let mc := if willQueue then
          mc.send (.processSentGroupSyncRequest group {group.getOwner} messageId sentTime)
        else mc
      (true, mc)

/-- The overload `sendGroupCreation(group, members, recipients,
applyOperationInDatabase)`. -/
def sendGroupCreation (env : Env σ) (group : GroupId) (members recipients : Finset ContactId)
    (applyOperationInDatabase : Bool) (mc : SimpleMessageCenter σ) : Bool × SimpleMessageCenter σ :=
  if mc.m_storage.hasDatabase then
    (false, mc)
  else
    let mc := mc.ask .getSelfContact
    if env.getSelfContact mc.db ≠ group.getOwner then
      (false, mc)
    else
      let willQueue := mc.willQueue
      let sentTime := mc.now env
      let mc := mc.tick
      let stored := StorageCall.storeSentGroupCreation group sentTime willQueue members applyOperationInDatabase
      let messageId := mc.sentId env stored
      let mc := mc.store env stored
      let mc := if willQueue then
          mc.send (.processSentGroupCreation group recipients messageId sentTime members)
        else mc
      (true, mc)

/-- The overload `sendGroupTitle(group, title, recipients,
applyOperationInDatabase)`. -/
def sendGroupTitle (env : Env σ) (group : GroupId) (title : QString) (recipients : Finset ContactId)
    (applyOperationInDatabase : Bool) (mc : SimpleMessageCenter σ) : Bool × SimpleMessageCenter σ :=
  if mc.m_storage.hasDatabase then
    (false, mc)
  else
    let mc := mc.ask .getSelfContact
    if env.getSelfContact mc.db ≠ group.getOwner then
      (false, mc)
    else
      let willQueue := mc.willQueue
      let sentTime := mc.now env
      let mc := mc.tick
      let stored := StorageCall.storeSentGroupSetTitle group sentTime willQueue title applyOperationInDatabase
      let messageId := mc.sentId env stored
      let mc := mc.store env stored
      let mc := if willQueue then
          mc.send (.processSentGroupSetTitle group recipients messageId sentTime title)
        else mc
      (true, mc)

/-- The overload `sendGroupImage(group, image, recipients,
applyOperationInDatabase)`. -/
def sendGroupImage (env : Env σ) (group : GroupId) (image : QByteArray) (recipients : Finset ContactId)
    (applyOperationInDatabase : Bool) (mc : SimpleMessageCenter σ) : Bool × SimpleMessageCenter σ :=
  if mc.m_storage.hasDatabase then
    (false, mc)
  else
    let mc := mc.ask .getSelfContact
    if env.getSelfContact mc.db ≠ group.getOwner then
      (false, mc)
    else
      let willQueue := mc.willQueue
      let sentTime := mc.now env
      let mc := mc.tick
      let stored := StorageCall.storeSentGroupSetImage group sentTime willQueue image applyOperationInDatabase
      let messageId := mc.sentId env stored
      let mc := mc.store env stored
      let mc := if willQueue then
          mc.send (.processSentGroupSetImage group recipients messageId sentTime image)
        else mc
      (true, mc)

/-- The overload `resendGroupSetup(group, recipients)`. -/
def resendGroupSetup (env : Env σ) (group : GroupId) (recipients : Finset ContactId)
    (mc : SimpleMessageCenter σ) : SimpleMessageCenter σ :=
  if mc.m_storage.hasDatabase then
    mc
  else
    let mc := mc.ask (.getGroupData group true)
    let groupData := env.getGroupData mc.db group true
    let mc := (sendGroupCreation env group groupData.members recipients false
      (mc.enter (.sendGroupCreation group groupData.members recipients false))).2
    let mc := (sendGroupTitle env group groupData.title recipients false
      (mc.enter (.sendGroupTitle group groupData.title recipients false))).2
    if groupData.hasImage then
      if groupData.image.isAvailable then
        (sendGroupImage env group groupData.image.getData recipients false
          (mc.enter (.sendGroupImage group groupData.image.getData recipients false))).2
      else mc
    else mc

/-! ### Membership resolution -/

def requestSyncForGroupIfApplicable (env : Env σ) (group : GroupId) (mc : SimpleMessageCenter σ) :
    SimpleMessageCenter σ :=
  let mc := mc.log (.queue (.hasMessageForGroup group))
  if !mc.m_messageQueue.hasMessageForGroup group then
    (sendSyncRequest env group (mc.enter (.sendSyncRequest group))).2
  else mc

def checkAndFixGroupMembership (env : Env σ) (group : GroupId) (sender : ContactId)
    (mc : SimpleMessageCenter σ) : Bool × SimpleMessageCenter σ :=
  if mc.m_storage.hasDatabase then
    (false, mc)
  else
    let mc := mc.ask (.hasGroup group)
    if !env.hasGroup mc.db group then
      let mc := mc.ask .getSelfContact
      let mc := if group.getOwner ≠ env.getSelfContact mc.db then
          requestSyncForGroupIfApplicable env group (mc.enter (.requestSyncForGroupIfApplicable group))
        else mc
      if mc.m_optionMaster.BOOLEAN_TRUST_OTHERS then
        let mc := mc.ask (.isDeleteted group)
        let deleted := env.isDeleteted mc.db group
        let mc := if deleted then mc.ask (.getGroupMembers group false) else mc
        let groupMembers : Finset ContactId :=
          if deleted then env.getGroupMembers mc.db group false else ∅
        let mc := mc.ask .getSelfContact
        let groupMembers := insert (env.getSelfContact mc.db) groupMembers
        let groupMembers := insert sender groupMembers
        let mc := mc.store env (.storeNewGroup group groupMembers true)
        (true, mc)
      else
        (false, mc)
    else
      let mc := mc.ask (.getGroupMembers group false)
      if sender ∈ env.getGroupMembers mc.db group false then
        (true, mc)
      else
        let mc := mc.ask .getSelfContact
        if group.getOwner = env.getSelfContact mc.db then
          (false, mc)
        else
          let mc := requestSyncForGroupIfApplicable env group
            (mc.enter (.requestSyncForGroupIfApplicable group))
          if mc.m_optionMaster.BOOLEAN_TRUST_OTHERS then
            let mc := mc.ask (.getGroupMembers group false)
            let groupMembers := env.getGroupMembers mc.db group false
            let mc := mc.ask .getSelfContact
            let groupMembers := insert (env.getSelfContact mc.db) groupMembers
            let groupMembers := insert sender groupMembers
            let mc := mc.store env (.storeNewGroup group groupMembers true)
            (true, mc)
          else
            (false, mc)

/-! ### Inbound group handlers -/

def processReceivedGroupMessageText (env : Env σ) (group : GroupId) (sender : ContactId)
    (messageId : MessageId) (timeSent timeReceived : MessageTime) (message : QString)
    (mc : SimpleMessageCenter σ) : SimpleMessageCenter σ :=
  if mc.m_storage.hasDatabase then
    mc
  else
    let checked := checkAndFixGroupMembership env group sender
      (mc.enter (.checkAndFixGroupMembership group sender))
    let mc := checked.2
    if !checked.1 then
      mc.defer ⟨group, sender, messageId, timeSent, timeReceived, .TEXT, .string message⟩
    else
      let mc := mc.openTabForIncomingMessage group
      let mc := mc.store env
        (.storeReceivedGroupMessageText group sender messageId timeSent timeReceived message)
      mc.acknowledge sender messageId

def processReceivedGroupMessageImage (env : Env σ) (group : GroupId) (sender : ContactId)
    (messageId : MessageId) (timeSent timeReceived : MessageTime) (image : QByteArray)
    (mc : SimpleMessageCenter σ) : SimpleMessageCenter σ :=
  if mc.m_storage.hasDatabase then
    mc
  else
    let checked := checkAndFixGroupMembership env group sender
      (mc.enter (.checkAndFixGroupMembership group sender))
    let mc := checked.2
    if !checked.1 then
      mc.defer ⟨group, sender, messageId, timeSent, timeReceived, .IMAGE, .byteArray image⟩
    else
      let caption := parseCaptionFromImage env image
      let mc := mc.openTabForIncomingMessage group
      let mc := mc.store env
        (.storeReceivedGroupMessageImage group sender messageId timeSent timeReceived image caption)
      mc.acknowledge sender messageId

def processReceivedGroupMessageLocation (env : Env σ) (group : GroupId) (sender : ContactId)
    (messageId : MessageId) (timeSent timeReceived : MessageTime) (location : Location)
    (mc : SimpleMessageCenter σ) : SimpleMessageCenter σ :=
  if mc.m_storage.hasDatabase then
    mc
  else
    let checked := checkAndFixGroupMembership env group sender
      (mc.enter (.checkAndFixGroupMembership group sender))
    let mc := checked.2
    if !checked.1 then
      mc.defer ⟨group, sender, messageId, timeSent, timeReceived, .LOCATION, .location location⟩
    else
      let mc := mc.openTabForIncomingMessage group
      let mc := mc.store env
        (.storeReceivedGroupMessageLocation group sender messageId timeSent timeReceived location)
      mc.acknowledge sender messageId

def processReceivedGroupSetImage (env : Env σ) (group : GroupId) (sender : ContactId)
    (messageId : MessageId) (timeSent timeReceived : MessageTime) (image : QByteArray)
    (mc : SimpleMessageCenter σ) : SimpleMessageCenter σ :=
  if mc.m_storage.hasDatabase then
    mc
  else if sender ≠ group.getOwner then
    mc
  else
    let checked := checkAndFixGroupMembership env group sender
      (mc.enter (.checkAndFixGroupMembership group sender))
    let mc := checked.2
    if !checked.1 then
      mc.defer ⟨group, sender, messageId, timeSent, timeReceived, .SET_IMAGE, .byteArray image⟩
    else
      let mc := mc.store env
        (.storeReceivedGroupSetImage group sender messageId timeSent timeReceived image)
      mc.acknowledge sender messageId

def processReceivedGroupSetTitle (env : Env σ) (group : GroupId) (sender : ContactId)
    (messageId : MessageId) (timeSent timeReceived : MessageTime) (groupTitle : QString)
    (mc : SimpleMessageCenter σ) : SimpleMessageCenter σ :=
  if mc.m_storage.hasDatabase then
    mc
  else if sender ≠ group.getOwner then
    mc
  else
    let checked := checkAndFixGroupMembership env group sender
      (mc.enter (.checkAndFixGroupMembership group sender))
    let mc := checked.2
    if !checked.1 then
      mc.defer ⟨group, sender, messageId, timeSent, timeReceived, .SET_TITLE, .string groupTitle⟩
    else
      let mc := mc.store env
        (.storeReceivedGroupSetTitle group sender messageId timeSent timeReceived groupTitle)
      mc.acknowledge sender messageId

def processReceivedGroupSyncRequest (env : Env σ) (group : GroupId) (sender : ContactId)
    (messageId : MessageId) (timeSent timeReceived : MessageTime)
    (mc : SimpleMessageCenter σ) : SimpleMessageCenter σ :=
  if mc.m_storage.hasDatabase then
    mc
  else if sender = group.getOwner then
    mc
  else
    let mc := mc.ask .getSelfContact
    if group.getOwner ≠ env.getSelfContact mc.db then
      mc
    else
      let checked := checkAndFixGroupMembership env group sender
        (mc.enter (.checkAndFixGroupMembership group sender))
      let mc := checked.2
      if !checked.1 then
        mc.defer ⟨group, sender, messageId, timeSent, timeReceived, .SYNC_REQUEST, .null⟩
      else
        let mc := mc.store env
          (.storeReceivedGroupSyncRequest group sender messageId timeSent timeReceived)
        let mc := mc.acknowledge sender messageId
        resendGroupSetup env group {sender} (mc.enter (.resendGroupSetup group {sender}))

def processReceivedGroupLeave (env : Env σ) (group : GroupId) (sender : ContactId)
    (messageId : MessageId) (timeSent timeReceived : MessageTime)
    (mc : SimpleMessageCenter σ) : SimpleMessageCenter σ :=
  if mc.m_storage.hasDatabase then
    mc
  else
    let checked := checkAndFixGroupMembership env group sender
      (mc.enter (.checkAndFixGroupMembership group sender))
    let mc := checked.2
    if !checked.1 then
      mc.defer ⟨group, sender, messageId, timeSent, timeReceived, .LEAVE, .null⟩
    else
      let mc := mc.store env
        (.storeReceivedGroupLeave group sender messageId timeSent timeReceived)
      mc.acknowledge sender messageId

/-- The body of the replay loop of `processReceivedGroupCreation` for one
queued entry: the `switch` over `it->messageType`.  `none` stands for the
`default` branch, which throws `InternalErrorException`. -/
def replayEntry (env : Env σ) (it : ReceivedGroupMessage) (mc : SimpleMessageCenter σ) :
    Option (SimpleMessageCenter σ) :=
  match it.messageType with
  | .IMAGE =>
    some (processReceivedGroupMessageImage env it.group it.sender it.messageId it.timeSent
      it.timeReceived it.content.toByteArray
      (mc.enter (.processReceivedGroupMessageImage it.group it.sender it.messageId it.timeSent
        it.timeReceived it.content.toByteArray)))
  | .LEAVE =>
    some (processReceivedGroupLeave env it.group it.sender it.messageId it.timeSent it.timeReceived
      (mc.enter (.processReceivedGroupLeave it.group it.sender it.messageId it.timeSent
        it.timeReceived)))
  | .LOCATION =>
    some (processReceivedGroupMessageLocation env it.group it.sender it.messageId it.timeSent
      it.timeReceived it.content.toLocation
      (mc.enter (.processReceivedGroupMessageLocation it.group it.sender it.messageId it.timeSent
        it.timeReceived it.content.toLocation)))
  | .SET_IMAGE =>
    some (processReceivedGroupSetImage env it.group it.sender it.messageId it.timeSent
      it.timeReceived it.content.toByteArray
      (mc.enter (.processReceivedGroupSetImage it.group it.sender it.messageId it.timeSent
        it.timeReceived it.content.toByteArray)))
  | .SET_TITLE =>
    some (processReceivedGroupSetTitle env it.group it.sender it.messageId it.timeSent
      it.timeReceived it.content.toString
      (mc.enter (.processReceivedGroupSetTitle it.group it.sender it.messageId it.timeSent
        it.timeReceived it.content.toString)))
  | .SYNC_REQUEST =>
    some (processReceivedGroupSyncRequest env it.group it.sender it.messageId it.timeSent
      it.timeReceived
      (mc.enter (.processReceivedGroupSyncRequest it.group it.sender it.messageId it.timeSent
        it.timeReceived)))
  | .TEXT =>
    some (processReceivedGroupMessageText env it.group it.sender it.messageId it.timeSent
      it.timeReceived it.content.toString
      (mc.enter (.processReceivedGroupMessageText it.group it.sender it.messageId it.timeSent
        it.timeReceived it.content.toString)))
  | _ => none

/-- The replay loop of `processReceivedGroupCreation` over the drained
snapshot `queuedMessages`.  The flag of the result is `true` when the loop
was left by the `InternalErrorException` of the `default` branch; the state is
the one reached at that point. -/
def replayQueuedMessages (env : Env σ) :
    List ReceivedGroupMessage → SimpleMessageCenter σ → SimpleMessageCenter σ × Bool
  | [], mc => (mc, false)
  | it :: rest, mc =>
    match replayEntry env it mc with
    | some mc => replayQueuedMessages env rest mc
    | none => (mc, true)

/-- The handler `processReceivedGroupCreation`.  The flag of the result is
`true` when the call ends with `InternalErrorException`. -/
def processReceivedGroupCreation (env : Env σ) (group : GroupId) (sender : ContactId)
    (messageId : MessageId) (timeSent timeReceived : MessageTime) (members : Finset ContactId)
    (mc : SimpleMessageCenter σ) : SimpleMessageCenter σ × Bool :=
  if mc.m_storage.hasDatabase then
    (mc, false)
  else if sender ≠ group.getOwner then
    (mc, false)
  else
    let mc := mc.store env
      (.storeReceivedGroupCreation group sender messageId timeSent timeReceived members)
    let mc := mc.acknowledge sender messageId
    let queuedMessages := (mc.m_messageQueue.getAndRemoveQueuedMessages group).1
    let mc := mc.drain group
    replayQueuedMessages env queuedMessages mc

/-! ### Outbound contact operations -/

def sendText (env : Env σ) (receiver : ContactId) (text : QString) (mc : SimpleMessageCenter σ) :
    Bool × SimpleMessageCenter σ :=
  if mc.m_storage.hasDatabase then
    (false, mc)
  else
    let mc := mc.ask (.hasContact receiver)
    if !env.hasContact mc.db receiver then
      (false, mc)
    else
      let willQueue := mc.willQueue
      let sentTime := mc.now env
      let mc := mc.tick
      let stored := StorageCall.storeSentContactMessageText receiver sentTime willQueue text
      let messageId := mc.sentId env stored
      let mc := mc.store env stored
      let mc := if willQueue then
          mc.send (.processSentContactMessageText receiver messageId sentTime text)
        else mc
      (true, mc)

def sendImage (env : Env σ) (receiver : ContactId) (image : QByteArray) (caption : QString)
    (mc : SimpleMessageCenter σ) : Bool × SimpleMessageCenter σ :=
  if mc.m_storage.hasDatabase then
    (false, mc)
  else
    let mc := mc.ask (.hasContact receiver)
    if !env.hasContact mc.db receiver then
      (false, mc)
    else
      let imageBytes := embedCaptionIntoImage env image caption
      let willQueue := mc.willQueue
      let sentTime := mc.now env
      let mc := mc.tick
      let stored := StorageCall.storeSentContactMessageImage receiver sentTime willQueue imageBytes
        caption
      let messageId := mc.sentId env stored
      let mc := mc.store env stored
      let mc := if willQueue then
          mc.send (.processSentContactMessageImage receiver messageId sentTime imageBytes caption)
        else mc
      (true, mc)

def sendLocation (env : Env σ) (receiver : ContactId) (location : Location)
    (mc : SimpleMessageCenter σ) : Bool × SimpleMessageCenter σ :=
  if mc.m_storage.hasDatabase then
    (false, mc)
  else
    let mc := mc.ask (.hasContact receiver)
    if !env.hasContact mc.db receiver then
      (false, mc)
    else
      let willQueue := mc.willQueue
      let sentTime := mc.now env
      let mc := mc.tick
      let stored := StorageCall.storeSentContactMessageLocation receiver sentTime willQueue location
      let messageId := mc.sentId env stored
      let mc := mc.store env stored
      let mc := if willQueue then
          mc.send (.processSentContactMessageLocation receiver messageId sentTime location)
        else mc
      (true, mc)

/-- The method `sendUserTypingStatus`.  Its first test, `m_optionMaster ==
nullptr`, never holds: the constructor throws on a null option master. -/
def sendUserTypingStatus (env : Env σ) (receiver : ContactId) (isTyping : Bool)
    (mc : SimpleMessageCenter σ) : SimpleMessageCenter σ :=
  if !mc.m_optionMaster.BOOLEAN_SEND_TYPING_NOTIFICATION then
    mc
  else if mc.m_storage.hasDatabase then
    mc
  else
    let mc := mc.ask (.hasContact receiver)
    if !env.hasContact mc.db receiver then
      mc
    else
      let willQueue := mc.willQueue
      let sentTime := mc.now env
      let mc := mc.tick
      let stored := if isTyping then
          StorageCall.storeSentContactMessageNotificationTypingStarted receiver sentTime willQueue
        else
          StorageCall.storeSentContactMessageNotificationTypingStopped receiver sentTime willQueue
      let messageId := mc.sentId env stored
      let mc := mc.store env stored
      if willQueue then
        if isTyping then
          mc.send (.processSentContactMessageTypingStarted receiver messageId sentTime)
        else
          mc.send (.processSentContactMessageTypingStopped receiver messageId sentTime)
      else mc

/-- The overload `sendReceipt(ContactId, MessageId, ReceiptType)`. -/
def sendReceipt (env : Env σ) (receiver : ContactId) (receiptedMessageId : MessageId)
    (receiptType : ReceiptType) (mc : SimpleMessageCenter σ) : Bool × SimpleMessageCenter σ :=
  if mc.m_storage.hasDatabase then
    (false, mc)
  else
    let mc := mc.ask (.hasContact receiver)
    if !env.hasContact mc.db receiver then
      (false, mc)
    else
      let willQueue := mc.willQueue
      let sentTime := mc.now env
      let mc := mc.tick
      let stored := match receiptType with
        | .RECEIVED => StorageCall.storeSentContactMessageReceiptReceived receiver sentTime willQueue
            receiptedMessageId
        | .SEEN => StorageCall.storeSentContactMessageReceiptSeen receiver sentTime willQueue
            receiptedMessageId
        | .AGREE => StorageCall.storeSentContactMessageReceiptAgree receiver sentTime willQueue
            receiptedMessageId
        | .DISAGREE => StorageCall.storeSentContactMessageReceiptDisagree receiver sentTime willQueue
            receiptedMessageId
      let messageId := mc.sentId env stored
      let mc := mc.store env stored
      let mc := if willQueue then
          match receiptType with
          | .RECEIVED => mc.send
              (.processSentContactMessageReceiptReceived receiver messageId sentTime receiptedMessageId)
          | .SEEN => mc.send
              (.processSentContactMessageReceiptSeen receiver messageId sentTime receiptedMessageId)
          | .AGREE => mc.send
              (.processSentContactMessageReceiptAgree receiver messageId sentTime receiptedMessageId)
          | .DISAGREE => mc.send
              (.processSentContactMessageReceiptDisagree receiver messageId sentTime receiptedMessageId)
        else mc
      (true, mc)

/-- The overload `sendReceipt(GroupId, MessageId, ReceiptType)`. -/
def sendReceiptGroup (env : Env σ) (group : GroupId) (_receiptedMessageId : MessageId)
    (receiptType : ReceiptType) (mc : SimpleMessageCenter σ) : Bool × SimpleMessageCenter σ :=
  if mc.m_storage.hasDatabase then
    (false, mc)
  else
    let mc := mc.ask (.hasGroup group)
    if !env.hasGroup mc.db group then
      (false, mc)
    else
      match receiptType with
      | .SEEN => (true, mc)
      | _ => (false, mc)

/-! ### Outbound group operations, public overloads -/

/-- The method `sendLeave`.  The two storage queries among the arguments of
`processSentGroupLeave` are recorded in the order written. -/
def sendLeave (env : Env σ) (group : GroupId) (mc : SimpleMessageCenter σ) :
    Bool × SimpleMessageCenter σ :=
  if mc.m_storage.hasDatabase then
    (false, mc)
  else
    let mc := mc.ask .getSelfContact
    if env.getSelfContact mc.db = group.getOwner then
      (false, mc)
    else
      let willQueue := mc.willQueue
      let sentTime := mc.now env
      let mc := mc.tick
      let stored := StorageCall.storeSentGroupLeave group sentTime willQueue true
      let messageId := mc.sentId env stored
      let mc := mc.store env stored
      let mc := if willQueue then
          let mc := mc.ask (.getGroupMembers group true)
          let mc := mc.ask .getSelfContact
          mc.send (.processSentGroupLeave group (env.getGroupMembers mc.db group true) messageId
            sentTime (env.getSelfContact mc.db))
        else mc
      (true, mc)

/-- The overload `sendGroupCreation(group, members)`. -/
def sendGroupCreationPublic (env : Env σ) (group : GroupId) (members : Finset ContactId)
    (mc : SimpleMessageCenter σ) : Bool × SimpleMessageCenter σ :=
  if mc.m_storage.hasDatabase then
    (false, mc)
  else
    let mc := mc.ask .getSelfContact
    if env.getSelfContact mc.db ≠ group.getOwner then
      (false, mc)
    else
      let mc := mc.ask (.getGroupMembers group true)
      let recipients := env.getGroupMembers mc.db group true
      sendGroupCreation env group members recipients true
        (mc.enter (.sendGroupCreation group members recipients true))

/-- The overload `sendGroupTitle(group, title)`. -/
def sendGroupTitlePublic (env : Env σ) (group : GroupId) (title : QString)
    (mc : SimpleMessageCenter σ) : Bool × SimpleMessageCenter σ :=
  if mc.m_storage.hasDatabase then
    (false, mc)
  else
    let mc := mc.ask .getSelfContact
    if env.getSelfContact mc.db ≠ group.getOwner then
      (false, mc)
    else
      let mc := mc.ask (.getGroupMembers group true)
      let recipients := env.getGroupMembers mc.db group true
      sendGroupTitle env group title recipients true
        (mc.enter (.sendGroupTitle group title recipients true))

/-- The overload `sendGroupImage(group, image)`. -/
def sendGroupImagePublic (env : Env σ) (group : GroupId) (image : QByteArray)
    (mc : SimpleMessageCenter σ) : Bool × SimpleMessageCenter σ :=
  if mc.m_storage.hasDatabase then
    (false, mc)
  else
    let mc := mc.ask .getSelfContact
    if env.getSelfContact mc.db ≠ group.getOwner then
      (false, mc)
    else
      let mc := mc.ask (.getGroupMembers group true)
      let recipients := env.getGroupMembers mc.db group true
      sendGroupImage env group image recipients true
        (mc.enter (.sendGroupImage group image recipients true))

/-- The overload `sendText(GroupId, QString)`. -/
def sendTextGroup (env : Env σ) (group : GroupId) (text : QString) (mc : SimpleMessageCenter σ) :
    Bool × SimpleMessageCenter σ :=
  if mc.m_storage.hasDatabase then
    (false, mc)
  else
    let mc := mc.ask (.hasGroup group)
    if !env.hasGroup mc.db group then
      (false, mc)
    else
      let willQueue := mc.willQueue
      let sentTime := mc.now env
      let mc := mc.tick
      let stored := StorageCall.storeSentGroupMessageText group sentTime willQueue text
      let messageId := mc.sentId env stored
      let mc := mc.store env stored
      let mc := if willQueue then
          let mc := mc.ask (.getGroupMembers group true)
          mc.send (.processSentGroupMessageText group (env.getGroupMembers mc.db group true)
            messageId sentTime text)
        else mc
      (true, mc)

/-- The overload `sendImage(GroupId, QByteArray, QString)`. -/
def sendImageGroup (env : Env σ) (group : GroupId) (image : QByteArray) (caption : QString)
    (mc : SimpleMessageCenter σ) : Bool × SimpleMessageCenter σ :=
  if mc.m_storage.hasDatabase then
    (false, mc)
  else
    let mc := mc.ask (.hasGroup group)
    if !env.hasGroup mc.db group then
      (false, mc)
    else
      let imageBytes := embedCaptionIntoImage env image caption
      let willQueue := mc.willQueue
      let sentTime := mc.now env
      let mc := mc.tick
      let stored := StorageCall.storeSentGroupMessageImage group sentTime willQueue imageBytes caption
      let messageId := mc.sentId env stored
      let mc := mc.store env stored
      let mc := if willQueue then
          let mc := mc.ask (.getGroupMembers group true)
          mc.send (.processSentGroupMessageImage group (env.getGroupMembers mc.db group true)
            messageId sentTime imageBytes caption)
        else mc
      (true, mc)

/-- The overload `sendLocation(GroupId, Location)`. -/
def sendLocationGroup (env : Env σ) (group : GroupId) (location : Location)
    (mc : SimpleMessageCenter σ) : Bool × SimpleMessageCenter σ :=
  if mc.m_storage.hasDatabase then
    (false, mc)
  else
    let mc := mc.ask (.hasGroup group)
    if !env.hasGroup mc.db group then
      (false, mc)
    else
      let willQueue := mc.willQueue
      let sentTime := mc.now env
      let mc := mc.tick
      let stored := StorageCall.storeSentGroupMessageLocation group sentTime willQueue location
      let messageId := mc.sentId env stored
      let mc := mc.store env stored
      let mc := if willQueue then
          let mc := mc.ask (.getGroupMembers group true)
          mc.send (.processSentGroupMessageLocation group (env.getGroupMembers mc.db group true)
            messageId sentTime location)
        else mc
      (true, mc)

/-- The overload `resendGroupSetup(group)`. -/
def resendGroupSetupAll (env : Env σ) (group : GroupId) (mc : SimpleMessageCenter σ) :
    SimpleMessageCenter σ :=
  if mc.m_storage.hasDatabase then
    mc
  else
    let mc := mc.ask (.getGroupMembers group true)
    let recipients := env.getGroupMembers mc.db group true
    resendGroupSetup env group recipients (mc.enter (.resendGroupSetup group recipients))

/-! ### Flushing queued outbound messages -/

def tryResendingMessagesToNetwork (env : Env σ) (mc : SimpleMessageCenter σ) :
    SimpleMessageCenter σ :=
  match mc.m_networkSentMessageAcceptor with
  | none => mc
  | some a =>
    if a.isConnected && mc.m_storage.hasDatabase then
      mc.store env .sendAllWaitingMessages
    else mc

def setNetworkSentMessageAcceptor (env : Env σ)
    (newNetworkSentMessageAcceptor : Option NetworkSentMessageAcceptor)
    (mc : SimpleMessageCenter σ) : SimpleMessageCenter σ :=
  let mc := { mc with m_networkSentMessageAcceptor := newNetworkSentMessageAcceptor }
  match newNetworkSentMessageAcceptor with
  | none => mc
  | some _ => tryResendingMessagesToNetwork env (mc.enter .tryResendingMessagesToNetwork)

/-! ### Inbound contact handlers -/

def processReceivedContactMessageText (env : Env σ) (sender : ContactId) (messageId : MessageId)
    (timeSent timeReceived : MessageTime) (message : QString) (mc : SimpleMessageCenter σ) :
    SimpleMessageCenter σ :=
  if mc.m_storage.hasDatabase then
    mc
  else
    let mc := mc.ask (.hasContact sender)
    let mc := mc.openTabForIncomingMessageContact sender
    let mc := mc.store env
      (.storeReceivedContactMessageText sender messageId timeSent timeReceived message)
    let mc := mc.acknowledge sender messageId
    (sendReceipt env sender messageId .RECEIVED (mc.enter (.sendReceipt sender messageId .RECEIVED))).2

def processReceivedContactMessageImage (env : Env σ) (sender : ContactId) (messageId : MessageId)
    (timeSent timeReceived : MessageTime) (image : QByteArray) (mc : SimpleMessageCenter σ) :
    SimpleMessageCenter σ :=
  if mc.m_storage.hasDatabase then
    mc
  else
    let caption := parseCaptionFromImage env image
    let mc := mc.openTabForIncomingMessageContact sender
    let mc := mc.store env
      (.storeReceivedContactMessageImage sender messageId timeSent timeReceived image caption)
    let mc := mc.acknowledge sender messageId
    (sendReceipt env sender messageId .RECEIVED (mc.enter (.sendReceipt sender messageId .RECEIVED))).2

def processReceivedContactMessageLocation (env : Env σ) (sender : ContactId) (messageId : MessageId)
    (timeSent timeReceived : MessageTime) (location : Location) (mc : SimpleMessageCenter σ) :
    SimpleMessageCenter σ :=
  if mc.m_storage.hasDatabase then
    mc
  else
    let mc := mc.openTabForIncomingMessageContact sender
    let mc := mc.store env
      (.storeReceivedContactMessageLocation sender messageId timeSent timeReceived location)
    let mc := mc.acknowledge sender messageId
    (sendReceipt env sender messageId .RECEIVED (mc.enter (.sendReceipt sender messageId .RECEIVED))).2

def processReceivedContactMessageReceiptReceived (env : Env σ) (sender : ContactId)
    (messageId : MessageId) (timeSent : MessageTime) (referredMessageId : MessageId)
    (mc : SimpleMessageCenter σ) : SimpleMessageCenter σ :=
  if mc.m_storage.hasDatabase then
    mc
  else
    let mc := mc.store env
      (.storeReceivedContactMessageReceiptReceived sender messageId timeSent referredMessageId)
    mc.acknowledge sender messageId

def processReceivedContactMessageReceiptSeen (env : Env σ) (sender : ContactId)
    (messageId : MessageId) (timeSent : MessageTime) (referredMessageId : MessageId)
    (mc : SimpleMessageCenter σ) : SimpleMessageCenter σ :=
  if mc.m_storage.hasDatabase then
    mc
  else
    let mc := mc.store env
      (.storeReceivedContactMessageReceiptSeen sender messageId timeSent referredMessageId)
    mc.acknowledge sender messageId

def processReceivedContactMessageReceiptAgree (env : Env σ) (sender : ContactId)
    (messageId : MessageId) (timeSent : MessageTime) (referredMessageId : MessageId)
    (mc : SimpleMessageCenter σ) : SimpleMessageCenter σ :=
  if mc.m_storage.hasDatabase then
    mc
  else
    let mc := mc.openTabForIncomingMessageContact sender
    let mc := mc.store env
      (.storeReceivedContactMessageReceiptAgree sender messageId timeSent referredMessageId)
    mc.acknowledge sender messageId

def processReceivedContactMessageReceiptDisagree (env : Env σ) (sender : ContactId)
    (messageId : MessageId) (timeSent : MessageTime) (referredMessageId : MessageId)
    (mc : SimpleMessageCenter σ) : SimpleMessageCenter σ :=
  if mc.m_storage.hasDatabase then
    mc
  else
    let mc := mc.openTabForIncomingMessageContact sender
    let mc := mc.store env
      (.storeReceivedContactMessageReceiptDisagree sender messageId timeSent referredMessageId)
    mc.acknowledge sender messageId

def processReceivedContactTypingNotificationTyping (env : Env σ) (sender : ContactId)
    (messageId : MessageId) (timeSent : MessageTime) (mc : SimpleMessageCenter σ) :
    SimpleMessageCenter σ :=
  if mc.m_storage.hasDatabase then
    mc
  else
    let mc := mc.store env (.storeReceivedContactTypingNotificationTyping sender messageId timeSent)
    mc.acknowledge sender messageId

def processReceivedContactTypingNotificationStopped (env : Env σ) (sender : ContactId)
    (messageId : MessageId) (timeSent : MessageTime) (mc : SimpleMessageCenter σ) :
    SimpleMessageCenter σ :=
  if mc.m_storage.hasDatabase then
    mc
  else
    let mc := mc.store env (.storeReceivedContactTypingNotificationStopped sender messageId timeSent)
    mc.acknowledge sender messageId

/-! ### Notifications from the transport and from storage -/

def databaseOnMessageChanged (uuid : QString) (mc : SimpleMessageCenter σ) :
    SimpleMessageCenter σ :=
  mc.emit (.messageChanged uuid)

/-- The overload `onMessageSendFailed(ContactId, MessageId)`. -/
def onMessageSendFailedContact (env : Env σ) (receiver : ContactId) (messageId : MessageId)
    (mc : SimpleMessageCenter σ) : SimpleMessageCenter σ :=
  if mc.m_storage.hasDatabase then
    mc
  else
    mc.store env (.storeMessageSendFailedContact receiver messageId)

/-- The overload `onMessageSendDone(ContactId, MessageId)`. -/
def onMessageSendDoneContact (env : Env σ) (receiver : ContactId) (messageId : MessageId)
    (mc : SimpleMessageCenter σ) : SimpleMessageCenter σ :=
  if mc.m_storage.hasDatabase then
    mc
  else
    mc.store env (.storeMessageSendDoneContact receiver messageId)

/-- The overload `onMessageSendFailed(GroupId, MessageId)`. -/
def onMessageSendFailedGroup (env : Env σ) (group : GroupId) (messageId : MessageId)
    (mc : SimpleMessageCenter σ) : SimpleMessageCenter σ :=
  if mc.m_storage.hasDatabase then
    mc
  else
    mc.store env (.storeMessageSendFailedGroup group messageId)

/-- The overload `onMessageSendDone(GroupId, MessageId)`. -/
def onMessageSendDoneGroup (env : Env σ) (group : GroupId) (messageId : MessageId)
    (mc : SimpleMessageCenter σ) : SimpleMessageCenter σ :=
  if mc.m_storage.hasDatabase then
    mc
  else
    mc.store env (.storeMessageSendDoneGroup group messageId)

def onFoundNewContact (env : Env σ) (newContact : ContactId) (publicKey : Nat)
    (mc : SimpleMessageCenter σ) : SimpleMessageCenter σ :=
  if mc.m_storage.hasDatabase then
    mc
  else
    mc.store env (.storeNewContact newContact publicKey)

def onFoundNewGroup (env : Env σ) (groupId : GroupId) (members : Finset ContactId)
    (mc : SimpleMessageCenter σ) : SimpleMessageCenter σ :=
  if mc.m_storage.hasDatabase then
    mc
  else
    mc.store env (.storeNewGroup groupId members false)

/-! ### Creating a group -/

/-- The loop `while (m_storage.hasGroup(groupId)) groupId =
createRandomGroupId(selfContactId)` of `createNewGroupAndInformMembers`.  The
successive results of `GroupId::createRandomGroupId(selfContactId)` are the
groups owned by `selfContactId` with the ids `randomGroupIds n`, `randomGroupIds
(n + 1)`, ...; `fuel` bounds the number of draws looked at, and the first
component is `none` when all of them were groups known to storage, the loop
then still running. -/
def drawFreshGroupId (env : Env σ) (selfContactId : ContactId) (randomGroupIds : Nat → Nat) :
    Nat → Nat → SimpleMessageCenter σ → Option GroupId × SimpleMessageCenter σ
  | 0, _, mc => (none, mc)
  | fuel + 1, n, mc =>
    let groupId : GroupId := ⟨selfContactId, randomGroupIds n⟩
    let mc := mc.ask (.hasGroup groupId)
    if env.hasGroup mc.db groupId then
      drawFreshGroupId env selfContactId randomGroupIds fuel (n + 1) mc
    else
      (some groupId, mc)

/-- The method `createNewGroupAndInformMembers`.  The first component is the
`bool` returned, or `none` when the loop drawing a fresh group id is still
running after `fuel` draws; the state is the one reached then. -/
def createNewGroupAndInformMembers (env : Env σ) (randomGroupIds : Nat → Nat) (fuel : Nat)
    (members : Finset ContactId) (addSelfContact : Bool) (groupTitle groupImage : QVariant)
    (mc : SimpleMessageCenter σ) : Option Bool × SimpleMessageCenter σ :=
  if mc.m_storage.hasDatabase then
    (some false, mc)
  else
    let mc := mc.ask .getSelfContact
    let selfContactId := env.getSelfContact mc.db
    let drawn := drawFreshGroupId env selfContactId randomGroupIds fuel 0 mc
    match drawn.1 with
    | none => (none, drawn.2)
    | some groupId =>
      let mc := drawn.2
      let groupMembers := if addSelfContact then insert selfContactId members else members
      let mc := mc.store env (.storeNewGroup groupId groupMembers false)
      let mc := (sendGroupCreationPublic env groupId groupMembers
        (mc.enter (.sendGroupCreationPublic groupId groupMembers))).2
      let mc := if !groupTitle.isNull && groupTitle.canConvertString then
          (sendGroupTitlePublic env groupId groupTitle.toString
            (mc.enter (.sendGroupTitlePublic groupId groupTitle.toString))).2
        else mc
      let mc := if !groupImage.isNull && groupImage.canConvertByteArray then
          (sendGroupImagePublic env groupId groupImage.toByteArray
            (mc.enter (.sendGroupImagePublic groupId groupImage.toByteArray))).2
        else mc
      (some true, mc)

end SimpleMessageCenter

/-! ## A concrete storage back end, for running the engine on inputs -/

/-- One row of the group table of `MemoryDb`. -/
structure GroupRow where
  group : GroupId
  members : Finset ContactId
  isDeleted : Bool
  isAwaitingSync : Bool
  title : QString
deriving DecidableEq

/-- The state of a small in-memory storage back end. -/
structure MemoryDb where
  self : ContactId
  contacts : List ContactId
  groups : List GroupRow
  stored : Nat
deriving DecidableEq

namespace MemoryDb

def row (s : MemoryDb) (group : GroupId) : Option GroupRow :=
  s.groups.find? (fun r => decide (r.group = group))

def members (s : MemoryDb) (group : GroupId) : Finset ContactId :=
  match s.row group with
  | some r => r.members
  | none => ∅

def setGroup (s : MemoryDb) (group : GroupId) (members : Finset ContactId) (isAwaitingSync : Bool) :
    MemoryDb :=
  { s with
    groups := ⟨group, members, false, isAwaitingSync, (match s.row group with
        | some r => r.title
        | none => "")⟩ :: s.groups.filter (fun r => !decide (r.group = group))
    stored := s.stored + 1 }

/-- Modelled from the spec: the one effect on group records the design
states, for `storeNewGroup` and for a received CREATION: the group becomes
known with the given members, awaiting sync or not.  Every other mutating
call only counts as one more stored record here. -/
def perform (s : MemoryDb) : StorageCall → MemoryDb
  | .storeNewGroup group members isAwaitingSync => s.setGroup group members isAwaitingSync
  | .storeReceivedGroupCreation group _ _ _ _ members => s.setGroup group members false
  | _ => { s with stored := s.stored + 1 }

end MemoryDb

/-- Modelled from the spec: a storage back end over `MemoryDb`, with the
queries of the storage interface answered from its tables; the id of a sent
message is the number of records stored so far. -/
def memoryDatabase : Database MemoryDb where
  getSelfContact s := s.self
  hasContact s c := decide (c ∈ s.contacts)
  hasGroup s g := match s.row g with
    | some r => !r.isDeleted
    | none => false
  isDeleteted s g := match s.row g with
    | some r => r.isDeleted
    | none => false
  getGroupMembers s g excludeSelfContact :=
    if excludeSelfContact then (s.members g).erase s.self else s.members g
  getGroupData s g _ := ⟨s.members g, (match s.row g with
    | some r => r.title
    | none => ""), false, ⟨false, []⟩⟩
  perform := MemoryDb.perform
  messageIdOf s _ := s.stored

/-- The collaborators used to run the engine on inputs: the in-memory storage
back end, a clock that reads `1000, 1001, ...`, and a codec that finds no
caption and leaves images as they are. -/
def memoryEnv : Env MemoryDb where
  toDatabase := memoryDatabase
  timeAt n := 1000 + n
  exifCaption _ := ""
  exifEmbed image _ := image

/-- A message center over the in-memory back end with an empty deferred
queue, no transport acceptor and nothing recorded yet. -/
def freshCenter (hasDatabase trustOthers : Bool) (db : MemoryDb) : SimpleMessageCenter MemoryDb where
  m_optionMaster := ⟨false, trustOthers⟩
  m_networkSentMessageAcceptor := none
  m_storage := ⟨hasDatabase, db⟩
  m_messageQueue := []
  ticks := 0
  trace := []

end openmittsu


/-! ## The design's resolver, and the vocabulary of the statements -/

namespace openmittsu

open SimpleMessageCenter

/-- The two answers of the design's membership resolver. -/
inductive Decision
  | ADMIT
  | DEFER
deriving DecidableEq, Repr

/-- The algorithm `resolve(group, sender)` of the design (section 4.2), line
by line, over the same state.  `storage unavailable` is `hasDatabase()` being
false, `request sync (throttled)` is `requestSyncForGroupIfApplicable`, and
`storage.storeNewGroup` is the storage call of that name. -/
def resolve {σ : Type} (env : Env σ) (group : GroupId) (sender : ContactId)
    (mc : SimpleMessageCenter σ) : Decision × SimpleMessageCenter σ :=
  if mc.m_storage.hasDatabase = false then
    (.DEFER, mc)
  else if env.hasGroup mc.db group = false then
    let mc := if env.getSelfContact mc.db ≠ group.getOwner then
        requestSyncForGroupIfApplicable env group mc
      else mc
    if mc.m_optionMaster.BOOLEAN_TRUST_OTHERS then
      let members := if env.isDeleteted mc.db group then env.getGroupMembers mc.db group false else ∅
      let members := members ∪ {env.getSelfContact mc.db, sender}
      (.ADMIT, mc.store env (.storeNewGroup group members true))
    else
      (.DEFER, mc)
  else
    if sender ∈ env.getGroupMembers mc.db group false then
      (.ADMIT, mc)
    else
      if env.getSelfContact mc.db = group.getOwner then
        (.DEFER, mc)
      else
        let mc := requestSyncForGroupIfApplicable env group mc
        if mc.m_optionMaster.BOOLEAN_TRUST_OTHERS then
          let members := env.getGroupMembers mc.db group false ∪ {env.getSelfContact mc.db, sender}
          (.ADMIT, mc.store env (.storeNewGroup group members true))
        else
          (.DEFER, mc)

/-- The calls recorded between the state `before` and the later state
`after`. -/
def callsSince {σ : Type} (before after : SimpleMessageCenter σ) : List Event :=
  after.trace.drop before.trace.length

def Event.isStoreNewGroup : Event → Bool
  | .storage (.storeNewGroup _ _ _) => true
  | _ => false

/-- A mutating call on storage. -/
def Event.isStorageCall : Event → Bool
  | .storage _ => true
  | _ => false

/-- A call on storage, query or mutation. -/
def Event.isStorageAccess : Event → Bool
  | .storage _ => true
  | .query _ => true
  | _ => false

/-! ### Inputs used below -/

/-- The group `G`, owned by contact `2`. -/
def groupG : GroupId := ⟨2, 7⟩

/-- A group owned by contact `1`, the self contact of the databases below. -/
def groupOwn : GroupId := ⟨1, 8⟩

/-- A database of self contact `1` that knows `groupG` with members `1, 2, 3`. -/
def dbKnown : MemoryDb := ⟨1, [2, 3], [⟨groupG, {1, 2, 3}, false, false, "G"⟩], 0⟩

/-- A database of self contact `1` that knows no group. -/
def dbEmpty : MemoryDb := ⟨1, [2, 3], [], 0⟩

/-! ### The deferred queue along a record of calls -/

/-- The deferred queue after one recorded call: a recorded
`storeGroupMessage` appends, a recorded `getAndRemoveQueuedMessages` detaches
the entries of its group, every other call leaves the queue as it is. -/
def queueStep (q : MessageQueue) : Event → MessageQueue
  | .queue (.storeGroupMessage entry) => q.storeGroupMessage entry
  | .queue (.getAndRemoveQueuedMessages group) => (q.getAndRemoveQueuedMessages group).2
  | _ => q

/-- The deferred queue after a sequence of recorded calls, starting from
`q`. -/
def queueAfter (q : MessageQueue) (evs : List Event) : MessageQueue :=
  evs.foldl queueStep q

/-- The recorded calls by which a sync request for `group` is issued: the call
of `sendSyncRequest(group)`, the storing of the sent request and its handing
to the transport. -/
def Event.isSyncRequestFor (group : GroupId) : Event → Bool
  | .call (.sendSyncRequest g) => decide (g = group)
  | .storage (.storeSentGroupSyncRequest g _ _) => decide (g = group)
  | .transport (.processSentGroupSyncRequest g _ _ _) => decide (g = group)
  | _ => false

/-- Along the recorded calls `evs`, started with the deferred queue `q`, every
call that issues a sync request for `group` is made at a moment when the
queue holds no entry for `group`. -/
def syncOnlyWhenNothingQueued (group : GroupId) : MessageQueue → List Event → Prop
  | _, [] => True
  | q, e :: evs =>
    (e.isSyncRequestFor group = true → q.hasMessageForGroup group = false) ∧
      syncOnlyWhenNothingQueued group (queueStep q e) evs

/-- The entry a recorded `storeGroupMessage` call appends. -/
def Event.deferred? : Event → Option ReceivedGroupMessage
  | .queue (.storeGroupMessage entry) => some entry
  | _ => none

/-- The handler invocation a recorded call stands for, if it is the call of
one of the inbound group handlers. -/
def Event.replayed? : Event → Option MethodCall
  | .call (.processReceivedGroupMessageText g s i ts tr m) =>
    some (.processReceivedGroupMessageText g s i ts tr m)
  | .call (.processReceivedGroupMessageImage g s i ts tr m) =>
    some (.processReceivedGroupMessageImage g s i ts tr m)
  | .call (.processReceivedGroupMessageLocation g s i ts tr m) =>
    some (.processReceivedGroupMessageLocation g s i ts tr m)
  | .call (.processReceivedGroupSetImage g s i ts tr m) =>
    some (.processReceivedGroupSetImage g s i ts tr m)
  | .call (.processReceivedGroupSetTitle g s i ts tr m) =>
    some (.processReceivedGroupSetTitle g s i ts tr m)
  | .call (.processReceivedGroupSyncRequest g s i ts tr) =>
    some (.processReceivedGroupSyncRequest g s i ts tr)
  | .call (.processReceivedGroupLeave g s i ts tr) =>
    some (.processReceivedGroupLeave g s i ts tr)
  | _ => none

/-- The handler invocation the design prescribes for a deferred entry: the
handler of the entry's message type, with the entry's group, sender, message
id, times and the payload of the kind that type carries.  `none` for an entry
whose type is not one of the seven deferred types or whose payload is of
another kind. -/
def ReceivedGroupMessage.handlerCall (m : ReceivedGroupMessage) : Option MethodCall :=
  match m.messageType, m.content with
  | .TEXT, .string text =>
    some (.processReceivedGroupMessageText m.group m.sender m.messageId m.timeSent m.timeReceived text)
  | .IMAGE, .byteArray image =>
    some (.processReceivedGroupMessageImage m.group m.sender m.messageId m.timeSent m.timeReceived image)
  | .LOCATION, .location location =>
    some (.processReceivedGroupMessageLocation m.group m.sender m.messageId m.timeSent
      m.timeReceived location)
  | .SET_IMAGE, .byteArray image =>
    some (.processReceivedGroupSetImage m.group m.sender m.messageId m.timeSent m.timeReceived image)
  | .SET_TITLE, .string title =>
    some (.processReceivedGroupSetTitle m.group m.sender m.messageId m.timeSent m.timeReceived title)
  | .SYNC_REQUEST, .null =>
    some (.processReceivedGroupSyncRequest m.group m.sender m.messageId m.timeSent m.timeReceived)
  | .LEAVE, .null =>
    some (.processReceivedGroupLeave m.group m.sender m.messageId m.timeSent m.timeReceived)
  | _, _ => none

/-- What a call made by a handler for `group` may be: not a drain of the
queue, not the call of an inbound handler, and if it appends to the queue, the
entry is one of `group` and is a deferred message the design knows a handler
for. -/
def Event.quiet (group : GroupId) (e : Event) : Bool :=
  match e with
  | .queue (.storeGroupMessage entry) =>
    decide (entry.group = group) && (entry.handlerCall).isSome
  | .queue (.getAndRemoveQueuedMessages _) => false
  | e => (e.replayed?).isNone

/-! ### Inbound traffic -/

/-- An inbound group message as the transport hands it to the engine: one
constructor per inbound group handler, with the handler's arguments. -/
inductive InboundGroupMessage
  | text (group : GroupId) (sender : ContactId) (messageId : MessageId)
      (timeSent timeReceived : MessageTime) (message : QString)
  | image (group : GroupId) (sender : ContactId) (messageId : MessageId)
      (timeSent timeReceived : MessageTime) (image : QByteArray)
  | location (group : GroupId) (sender : ContactId) (messageId : MessageId)
      (timeSent timeReceived : MessageTime) (location : Location)
  | creation (group : GroupId) (sender : ContactId) (messageId : MessageId)
      (timeSent timeReceived : MessageTime) (members : Finset ContactId)
  | setImage (group : GroupId) (sender : ContactId) (messageId : MessageId)
      (timeSent timeReceived : MessageTime) (image : QByteArray)
  | setTitle (group : GroupId) (sender : ContactId) (messageId : MessageId)
      (timeSent timeReceived : MessageTime) (groupTitle : QString)
  | syncRequest (group : GroupId) (sender : ContactId) (messageId : MessageId)
      (timeSent timeReceived : MessageTime)
  | leave (group : GroupId) (sender : ContactId) (messageId : MessageId)
      (timeSent timeReceived : MessageTime)

/-- The transport delivering one inbound group message: the call of the
handler for it.  An `InternalErrorException` leaving
`processReceivedGroupCreation` ends that call; the state it reached stays. -/
def deliver {σ : Type} (env : Env σ) : InboundGroupMessage → SimpleMessageCenter σ →
    SimpleMessageCenter σ
  | .text g s i ts tr m, mc => processReceivedGroupMessageText env g s i ts tr m mc
  | .image g s i ts tr m, mc => processReceivedGroupMessageImage env g s i ts tr m mc
  | .location g s i ts tr m, mc => processReceivedGroupMessageLocation env g s i ts tr m mc
  | .creation g s i ts tr m, mc => (processReceivedGroupCreation env g s i ts tr m mc).1
  | .setImage g s i ts tr m, mc => processReceivedGroupSetImage env g s i ts tr m mc
  | .setTitle g s i ts tr m, mc => processReceivedGroupSetTitle env g s i ts tr m mc
  | .syncRequest g s i ts tr, mc => processReceivedGroupSyncRequest env g s i ts tr mc
  | .leave g s i ts tr, mc => processReceivedGroupLeave env g s i ts tr mc

/-- The transport delivering a sequence of inbound group messages, one after
the other. -/
def deliverAll {σ : Type} (env : Env σ) : List InboundGroupMessage → SimpleMessageCenter σ →
    SimpleMessageCenter σ
  | [], mc => mc
  | m :: rest, mc => deliverAll env rest (deliver env m mc)

/-- What a call made while a CREATION for `group` replays the drained entries
may be: as `quiet`, or the call of an inbound handler. -/
def Event.calm (group : GroupId) (e : Event) : Bool :=
  e.quiet group || (e.replayed?).isSome

/-- The state `mc'` is reached from `mc` with exactly the calls `evs` recorded
in between: the record of calls has grown by `evs`, the deferred queue is what
those calls leave of it, every sync request among them was issued with
nothing queued for its group, and the storage flag, the options and the
acceptor are as before. -/
def Recorded {σ : Type} (mc mc' : SimpleMessageCenter σ) (evs : List Event) : Prop :=
  mc'.trace = mc.trace ++ evs ∧
    mc'.m_messageQueue = queueAfter mc.m_messageQueue evs ∧
    (∀ G, syncOnlyWhenNothingQueued G mc.m_messageQueue evs) ∧
    mc'.m_storage.hasDatabase = mc.m_storage.hasDatabase ∧
    mc'.m_optionMaster = mc.m_optionMaster ∧
    mc'.m_networkSentMessageAcceptor = mc.m_networkSentMessageAcceptor

/-- The state `mc'` is reached from `mc` by the work of a handler for `group`:
by recorded calls that are all `quiet` for `group`. -/
def Proceeds {σ : Type} (group : GroupId) (mc mc' : SimpleMessageCenter σ) : Prop :=
  ∃ evs, Recorded mc mc' evs ∧ ∀ e ∈ evs, e.quiet group = true

/-! ### Applying deferred entries -/

/-- The `storeReceivedGroup*` calls of the storage interface. -/
def StorageCall.isReceivedGroup : StorageCall → Bool
  | .storeReceivedGroupMessageText _ _ _ _ _ _ => true
  | .storeReceivedGroupMessageImage _ _ _ _ _ _ _ => true
  | .storeReceivedGroupMessageLocation _ _ _ _ _ _ => true
  | .storeReceivedGroupCreation _ _ _ _ _ _ => true
  | .storeReceivedGroupSetImage _ _ _ _ _ _ => true
  | .storeReceivedGroupSetTitle _ _ _ _ _ _ => true
  | .storeReceivedGroupSyncRequest _ _ _ _ _ => true
  | .storeReceivedGroupLeave _ _ _ _ _ => true
  | _ => false

/-- The `storeReceivedGroup*` call a recorded call is, if it is one: the
application of an inbound group message to storage. -/
def Event.applied? : Event → Option StorageCall
  | .storage c => if c.isReceivedGroup then some c else none
  | _ => none

/-- The storage call by which the handler of a deferred entry applies it once
it is admitted, for the entry types whose handler makes that one mutating
storage call (all but SYNC_REQUEST, whose handler goes on to resend the group
setup). -/
def ReceivedGroupMessage.storeCall? {σ : Type} (env : Env σ) (m : ReceivedGroupMessage) :
    Option StorageCall :=
  match m.messageType with
  | .TEXT => some (.storeReceivedGroupMessageText m.group m.sender m.messageId m.timeSent
      m.timeReceived m.content.toString)
  | .IMAGE => some (.storeReceivedGroupMessageImage m.group m.sender m.messageId m.timeSent
      m.timeReceived m.content.toByteArray (parseCaptionFromImage env m.content.toByteArray))
  | .LOCATION => some (.storeReceivedGroupMessageLocation m.group m.sender m.messageId m.timeSent
      m.timeReceived m.content.toLocation)
  | .LEAVE => some (.storeReceivedGroupLeave m.group m.sender m.messageId m.timeSent m.timeReceived)
  | .SET_IMAGE => some (.storeReceivedGroupSetImage m.group m.sender m.messageId m.timeSent
      m.timeReceived m.content.toByteArray)
  | .SET_TITLE => some (.storeReceivedGroupSetTitle m.group m.sender m.messageId m.timeSent
      m.timeReceived m.content.toString)
  | _ => none

/-- The entry types that only the group's owner may send. -/
def ReceivedGroupMessage.ownerOnly (m : ReceivedGroupMessage) : Bool :=
  match m.messageType with
  | .SET_IMAGE => true
  | .SET_TITLE => true
  | _ => false

/-- Each entry of the list, when its turn in the replay comes, is admitted:
storage, in the state `s` the earlier entries' storage calls have left, knows
the entry's group and has the entry's sender among its members (and an
owner-only entry comes from the owner). -/
def admittedInTurn {σ : Type} (env : Env σ) : σ → List ReceivedGroupMessage → Prop
  | _, [] => True
  | s, m :: rest =>
    ∃ c, m.storeCall? env = some c ∧
      (m.ownerOnly = true → m.sender = m.group.getOwner) ∧
      env.hasGroup s m.group = true ∧
      m.sender ∈ env.getGroupMembers s m.group false ∧
      admittedInTurn env (env.perform s c) rest

/-! ### Scenarios used below -/

/-- Another group, owned by contact `5`. -/
def groupH : GroupId := ⟨5, 9⟩

/-- With `TRUST_OTHERS` off and no group known: three messages for `groupG`
(a text from `3`, an image from `2`, a leave from `3`) and, between them, a
text for `groupH`, have arrived and were deferred. -/
def centerWithDeferred : SimpleMessageCenter MemoryDb :=
  deliverAll memoryEnv
    [.text groupG 3 55 10 11 "hi",
     .text groupH 3 56 10 11 "other",
     .image groupG 2 57 12 13 [1, 2, 3],
     .leave groupG 3 58 14 15]
    (freshCenter false false dbEmpty)

/-- With `TRUST_OTHERS` off and no group known: one text for `groupG` from
contact `3` has arrived and was deferred. -/
def centerWithOneDeferred : SimpleMessageCenter MemoryDb :=
  deliver memoryEnv (.text groupG 3 55 10 11 "hi") (freshCenter false false dbEmpty)

/-- The mutating storage call an event records, if it records one. -/
def Event.storage? : Event → Option StorageCall
  | .storage c => some c
  | _ => none

/-- The call on the transport acceptor an event records, if it records one. -/
def Event.transport? : Event → Option TransportCall
  | .transport c => some c
  | _ => none

/-- A call on the transport acceptor. -/
def Event.isTransportCall : Event → Bool
  | .transport _ => true
  | _ => false

/-- The `isQueued` argument of a `storeSent*` call; `none` for every other
mutating storage call. -/
def StorageCall.isQueued? : StorageCall → Option Bool
  | .storeSentContactMessageText _ _ q _ => some q
  | .storeSentContactMessageImage _ _ q _ _ => some q
  | .storeSentContactMessageLocation _ _ q _ => some q
  | .storeSentContactMessageReceiptReceived _ _ q _ => some q
  | .storeSentContactMessageReceiptSeen _ _ q _ => some q
  | .storeSentContactMessageReceiptAgree _ _ q _ => some q
  | .storeSentContactMessageReceiptDisagree _ _ q _ => some q
  | .storeSentContactMessageNotificationTypingStarted _ _ q => some q
  | .storeSentContactMessageNotificationTypingStopped _ _ q => some q
  | .storeSentGroupMessageText _ _ q _ => some q
  | .storeSentGroupMessageImage _ _ q _ _ => some q
  | .storeSentGroupMessageLocation _ _ q _ => some q
  | .storeSentGroupCreation _ _ q _ _ => some q
  | .storeSentGroupSetImage _ _ q _ _ => some q
  | .storeSentGroupSetTitle _ _ q _ _ => some q
  | .storeSentGroupSyncRequest _ _ q => some q
  | .storeSentGroupLeave _ _ q _ => some q
  | _ => none

/-- The message id argument of a call on the transport acceptor. -/
def TransportCall.messageId : TransportCall → MessageId
  | .processSentContactMessageText _ i _ _ => i
  | .processSentContactMessageImage _ i _ _ _ => i
  | .processSentContactMessageLocation _ i _ _ => i
  | .processSentContactMessageTypingStarted _ i _ => i
  | .processSentContactMessageTypingStopped _ i _ => i
  | .processSentContactMessageReceiptReceived _ i _ _ => i
  | .processSentContactMessageReceiptSeen _ i _ _ => i
  | .processSentContactMessageReceiptAgree _ i _ _ => i
  | .processSentContactMessageReceiptDisagree _ i _ _ => i
  | .processSentGroupLeave _ _ i _ _ => i
  | .processSentGroupSyncRequest _ _ i _ => i
  | .processSentGroupCreation _ _ i _ _ => i
  | .processSentGroupSetTitle _ _ i _ _ => i
  | .processSentGroupSetImage _ _ i _ _ => i
  | .processSentGroupMessageText _ _ i _ _ => i
  | .processSentGroupMessageImage _ _ i _ _ _ => i
  | .processSentGroupMessageLocation _ _ i _ _ => i
  | .sendMessageReceivedAcknowledgement _ i => i

/-- The recipient set of a `processSentGroup*` call; `none` for the calls that
name one receiver. -/
def TransportCall.recipients? : TransportCall → Option (Finset ContactId)
  | .processSentGroupLeave _ r _ _ _ => some r
  | .processSentGroupSyncRequest _ r _ _ => some r
  | .processSentGroupCreation _ r _ _ _ => some r
  | .processSentGroupSetTitle _ r _ _ _ => some r
  | .processSentGroupSetImage _ r _ _ _ => some r
  | .processSentGroupMessageText _ r _ _ _ => some r
  | .processSentGroupMessageImage _ r _ _ _ _ => some r
  | .processSentGroupMessageLocation _ r _ _ _ => some r
  | _ => none

/-- The recipient set an event hands to the transport acceptor, if it records
a `processSentGroup*` call. -/
def Event.recipients? : Event → Option (Finset ContactId)
  | .transport t => t.recipients?
  | _ => none

/-- An outbound message as both the storage and the transport interface
describe it: its kind, the receiver or group, the time of sending and the
content. -/
inductive SentMessage
  | contactText (receiver : ContactId) (time : MessageTime) (text : QString)
  | contactImage (receiver : ContactId) (time : MessageTime) (image : QByteArray) (caption : QString)
  | contactLocation (receiver : ContactId) (time : MessageTime) (location : Location)
  | contactTypingStarted (receiver : ContactId) (time : MessageTime)
  | contactTypingStopped (receiver : ContactId) (time : MessageTime)
  | contactReceiptReceived (receiver : ContactId) (time : MessageTime) (referred : MessageId)
  | contactReceiptSeen (receiver : ContactId) (time : MessageTime) (referred : MessageId)
  | contactReceiptAgree (receiver : ContactId) (time : MessageTime) (referred : MessageId)
  | contactReceiptDisagree (receiver : ContactId) (time : MessageTime) (referred : MessageId)
  | groupLeave (group : GroupId) (time : MessageTime)
  | groupSyncRequest (group : GroupId) (time : MessageTime)
  | groupCreation (group : GroupId) (time : MessageTime) (members : Finset ContactId)
  | groupSetTitle (group : GroupId) (time : MessageTime) (title : QString)
  | groupSetImage (group : GroupId) (time : MessageTime) (image : QByteArray)
  | groupText (group : GroupId) (time : MessageTime) (text : QString)
  | groupImage (group : GroupId) (time : MessageTime) (image : QByteArray) (caption : QString)
  | groupLocation (group : GroupId) (time : MessageTime) (location : Location)
deriving DecidableEq

/-- The outbound message a `storeSent*` call stores; `none` for every other
mutating storage call. -/
def StorageCall.sentMessage? : StorageCall → Option SentMessage
  | .storeSentContactMessageText r t _ x => some (.contactText r t x)
  | .storeSentContactMessageImage r t _ x y => some (.contactImage r t x y)
  | .storeSentContactMessageLocation r t _ x => some (.contactLocation r t x)
  | .storeSentContactMessageNotificationTypingStarted r t _ => some (.contactTypingStarted r t)
  | .storeSentContactMessageNotificationTypingStopped r t _ => some (.contactTypingStopped r t)
  | .storeSentContactMessageReceiptReceived r t _ x => some (.contactReceiptReceived r t x)
  | .storeSentContactMessageReceiptSeen r t _ x => some (.contactReceiptSeen r t x)
  | .storeSentContactMessageReceiptAgree r t _ x => some (.contactReceiptAgree r t x)
  | .storeSentContactMessageReceiptDisagree r t _ x => some (.contactReceiptDisagree r t x)
  | .storeSentGroupLeave g t _ _ => some (.groupLeave g t)
  | .storeSentGroupSyncRequest g t _ => some (.groupSyncRequest g t)
  | .storeSentGroupCreation g t _ x _ => some (.groupCreation g t x)
  | .storeSentGroupSetTitle g t _ x _ => some (.groupSetTitle g t x)
  | .storeSentGroupSetImage g t _ x _ => some (.groupSetImage g t x)
  | .storeSentGroupMessageText g t _ x => some (.groupText g t x)
  | .storeSentGroupMessageImage g t _ x y => some (.groupImage g t x y)
  | .storeSentGroupMessageLocation g t _ x => some (.groupLocation g t x)
  | _ => none

/-- The outbound message a `processSent*` call hands to the transport
acceptor; `none` for an acknowledgement. -/
def TransportCall.sentMessage? : TransportCall → Option SentMessage
  | .processSentContactMessageText r _ t x => some (.contactText r t x)
  | .processSentContactMessageImage r _ t x y => some (.contactImage r t x y)
  | .processSentContactMessageLocation r _ t x => some (.contactLocation r t x)
  | .processSentContactMessageTypingStarted r _ t => some (.contactTypingStarted r t)
  | .processSentContactMessageTypingStopped r _ t => some (.contactTypingStopped r t)
  | .processSentContactMessageReceiptReceived r _ t x => some (.contactReceiptReceived r t x)
  | .processSentContactMessageReceiptSeen r _ t x => some (.contactReceiptSeen r t x)
  | .processSentContactMessageReceiptAgree r _ t x => some (.contactReceiptAgree r t x)
  | .processSentContactMessageReceiptDisagree r _ t x => some (.contactReceiptDisagree r t x)
  | .processSentGroupLeave g _ _ t _ => some (.groupLeave g t)
  | .processSentGroupSyncRequest g _ _ t => some (.groupSyncRequest g t)
  | .processSentGroupCreation g _ _ t x => some (.groupCreation g t x)
  | .processSentGroupSetTitle g _ _ t x => some (.groupSetTitle g t x)
  | .processSentGroupSetImage g _ _ t x => some (.groupSetImage g t x)
  | .processSentGroupMessageText g _ _ t x => some (.groupText g t x)
  | .processSentGroupMessageImage g _ _ t x y => some (.groupImage g t x y)
  | .processSentGroupMessageLocation g _ _ t x => some (.groupLocation g t x)
  | .sendMessageReceivedAcknowledgement _ _ => none

/-- The outbound send operations of the class that answer with a `bool`,
each with its arguments: the contact and the group overloads of `sendText`,
`sendImage` and `sendLocation`, `sendReceipt` to a contact, `sendLeave`,
`sendSyncRequest`, and both overloads of `sendGroupCreation`,
`sendGroupTitle` and `sendGroupImage`. -/
inductive OutboundSend
  | sendText (receiver : ContactId) (text : QString)
  | sendImage (receiver : ContactId) (image : QByteArray) (caption : QString)
  | sendLocation (receiver : ContactId) (location : Location)
  | sendReceipt (receiver : ContactId) (receiptedMessageId : MessageId) (receiptType : ReceiptType)
  | sendTextGroup (group : GroupId) (text : QString)
  | sendImageGroup (group : GroupId) (image : QByteArray) (caption : QString)
  | sendLocationGroup (group : GroupId) (location : Location)
  | sendLeave (group : GroupId)
  | sendSyncRequest (group : GroupId)
  | sendGroupCreation (group : GroupId) (members recipients : Finset ContactId)
      (applyOperationInDatabase : Bool)
  | sendGroupTitle (group : GroupId) (title : QString) (recipients : Finset ContactId)
      (applyOperationInDatabase : Bool)
  | sendGroupImage (group : GroupId) (image : QByteArray) (recipients : Finset ContactId)
      (applyOperationInDatabase : Bool)
  | sendGroupCreationPublic (group : GroupId) (members : Finset ContactId)
  | sendGroupTitlePublic (group : GroupId) (title : QString)
  | sendGroupImagePublic (group : GroupId) (image : QByteArray)

/-- The call of the method an `OutboundSend` names. -/
def OutboundSend.run {σ : Type} (env : Env σ) (mc : SimpleMessageCenter σ) :
    OutboundSend → Bool × SimpleMessageCenter σ
  | .sendText receiver text => SimpleMessageCenter.sendText env receiver text mc
  | .sendImage receiver image caption => SimpleMessageCenter.sendImage env receiver image caption mc
  | .sendLocation receiver location => SimpleMessageCenter.sendLocation env receiver location mc
  | .sendReceipt receiver receiptedMessageId receiptType =>
      SimpleMessageCenter.sendReceipt env receiver receiptedMessageId receiptType mc
  | .sendTextGroup group text => SimpleMessageCenter.sendTextGroup env group text mc
  | .sendImageGroup group image caption =>
      SimpleMessageCenter.sendImageGroup env group image caption mc
  | .sendLocationGroup group location => SimpleMessageCenter.sendLocationGroup env group location mc
  | .sendLeave group => SimpleMessageCenter.sendLeave env group mc
  | .sendSyncRequest group => SimpleMessageCenter.sendSyncRequest env group mc
  | .sendGroupCreation group members recipients applyOperationInDatabase =>
      SimpleMessageCenter.sendGroupCreation env group members recipients applyOperationInDatabase mc
  | .sendGroupTitle group title recipients applyOperationInDatabase =>
      SimpleMessageCenter.sendGroupTitle env group title recipients applyOperationInDatabase mc
  | .sendGroupImage group image recipients applyOperationInDatabase =>
      SimpleMessageCenter.sendGroupImage env group image recipients applyOperationInDatabase mc
  | .sendGroupCreationPublic group members =>
      SimpleMessageCenter.sendGroupCreationPublic env group members mc
  | .sendGroupTitlePublic group title => SimpleMessageCenter.sendGroupTitlePublic env group title mc
  | .sendGroupImagePublic group image => SimpleMessageCenter.sendGroupImagePublic env group image mc

/-- A message center as `freshCenter`, with a transport acceptor that is
connected. -/
def connectedCenter (hasDatabase trustOthers : Bool) (db : MemoryDb) :
    SimpleMessageCenter MemoryDb where
  m_optionMaster := ⟨false, trustOthers⟩
  m_networkSentMessageAcceptor := some ⟨true⟩
  m_storage := ⟨hasDatabase, db⟩
  m_messageQueue := []
  ticks := 0
  trace := []

/-- A database of self contact `1` that knows `groupOwn`, a group of its own,
with members `1, 2, 3`. -/
def dbOwner : MemoryDb := ⟨1, [2, 3], [⟨groupOwn, {1, 2, 3}, false, false, "own"⟩], 0⟩

/-- Modelled from the spec: the collaborators of `memoryEnv`, with a storage
back end whose group data carry an image that is available. -/
def memoryEnvWithImage : Env MemoryDb where
  getSelfContact := memoryEnv.getSelfContact
  hasContact := memoryEnv.hasContact
  hasGroup := memoryEnv.hasGroup
  isDeleteted := memoryEnv.isDeleteted
  getGroupMembers := memoryEnv.getGroupMembers
  getGroupData s g b := { memoryEnv.getGroupData s g b with hasImage := true, image := ⟨true, [7, 7]⟩ }
  perform := memoryEnv.perform
  messageIdOf := memoryEnv.messageIdOf
  timeAt := memoryEnv.timeAt
  exifCaption := memoryEnv.exifCaption
  exifEmbed := memoryEnv.exifEmbed

/-! ### Every operation of the class -/

/-- A call of one of the methods of `SimpleMessageCenter` that act on its
state, with the arguments of the call: the outbound sends, the inbound
handlers, the notifications from the transport and from storage, and the
helper methods.  For `createNewGroupAndInformMembers` the successive results
of `GroupId::createRandomGroupId` and the number of draws looked at are part
of the call. -/
inductive Operation
  | send (op : OutboundSend)
  | sendUserTypingStatus (receiver : ContactId) (isTyping : Bool)
  | sendReceiptGroup (group : GroupId) (receiptedMessageId : MessageId) (receiptType : ReceiptType)
  | setNetworkSentMessageAcceptor (newNetworkSentMessageAcceptor : Option NetworkSentMessageAcceptor)
  | tryResendingMessagesToNetwork
  | processReceivedContactMessageText (sender : ContactId) (messageId : MessageId)
      (timeSent timeReceived : MessageTime) (message : QString)
  | processReceivedContactMessageImage (sender : ContactId) (messageId : MessageId)
      (timeSent timeReceived : MessageTime) (image : QByteArray)
  | processReceivedContactMessageLocation (sender : ContactId) (messageId : MessageId)
      (timeSent timeReceived : MessageTime) (location : Location)
  | processReceivedContactMessageReceiptReceived (sender : ContactId) (messageId : MessageId)
      (timeSent : MessageTime) (referredMessageId : MessageId)
  | processReceivedContactMessageReceiptSeen (sender : ContactId) (messageId : MessageId)
      (timeSent : MessageTime) (referredMessageId : MessageId)
  | processReceivedContactMessageReceiptAgree (sender : ContactId) (messageId : MessageId)
      (timeSent : MessageTime) (referredMessageId : MessageId)
  | processReceivedContactMessageReceiptDisagree (sender : ContactId) (messageId : MessageId)
      (timeSent : MessageTime) (referredMessageId : MessageId)
  | processReceivedContactTypingNotificationTyping (sender : ContactId) (messageId : MessageId)
      (timeSent : MessageTime)
  | processReceivedContactTypingNotificationStopped (sender : ContactId) (messageId : MessageId)
      (timeSent : MessageTime)
  | inbound (m : InboundGroupMessage)
  | onMessageSendFailedContact (receiver : ContactId) (messageId : MessageId)
  | onMessageSendDoneContact (receiver : ContactId) (messageId : MessageId)
  | onMessageSendFailedGroup (group : GroupId) (messageId : MessageId)
  | onMessageSendDoneGroup (group : GroupId) (messageId : MessageId)
  | onFoundNewContact (newContact : ContactId) (publicKey : Nat)
  | onFoundNewGroup (groupId : GroupId) (members : Finset ContactId)
  | createNewGroupAndInformMembers (randomGroupIds : Nat → Nat) (fuel : Nat)
      (members : Finset ContactId) (addSelfContact : Bool) (groupTitle groupImage : QVariant)
  | resendGroupSetupAll (group : GroupId)
  | resendGroupSetup (group : GroupId) (recipients : Finset ContactId)
  | databaseOnMessageChanged (uuid : QString)
  | requestSyncForGroupIfApplicable (group : GroupId)
  | checkAndFixGroupMembership (group : GroupId) (sender : ContactId)

/-- The state after the call an `Operation` names.  A call that ends with an
exception, or whose loop is still running, leaves the state it reached. -/
def Operation.run {σ : Type} (env : Env σ) (mc : SimpleMessageCenter σ) :
    Operation → SimpleMessageCenter σ
  | .send op => (op.run env mc).2
  | .sendUserTypingStatus receiver isTyping =>
      SimpleMessageCenter.sendUserTypingStatus env receiver isTyping mc
  | .sendReceiptGroup group receiptedMessageId receiptType =>
      (SimpleMessageCenter.sendReceiptGroup env group receiptedMessageId receiptType mc).2
  | .setNetworkSentMessageAcceptor newNetworkSentMessageAcceptor =>
      SimpleMessageCenter.setNetworkSentMessageAcceptor env newNetworkSentMessageAcceptor mc
  | .tryResendingMessagesToNetwork => SimpleMessageCenter.tryResendingMessagesToNetwork env mc
  | .processReceivedContactMessageText sender messageId timeSent timeReceived message =>
      SimpleMessageCenter.processReceivedContactMessageText env sender messageId timeSent
        timeReceived message mc
  | .processReceivedContactMessageImage sender messageId timeSent timeReceived image =>
      SimpleMessageCenter.processReceivedContactMessageImage env sender messageId timeSent
        timeReceived image mc
  | .processReceivedContactMessageLocation sender messageId timeSent timeReceived location =>
      SimpleMessageCenter.processReceivedContactMessageLocation env sender messageId timeSent
        timeReceived location mc
  | .processReceivedContactMessageReceiptReceived sender messageId timeSent referredMessageId =>
      SimpleMessageCenter.processReceivedContactMessageReceiptReceived env sender messageId timeSent
        referredMessageId mc
  | .processReceivedContactMessageReceiptSeen sender messageId timeSent referredMessageId =>
      SimpleMessageCenter.processReceivedContactMessageReceiptSeen env sender messageId timeSent
        referredMessageId mc
  | .processReceivedContactMessageReceiptAgree sender messageId timeSent referredMessageId =>
      SimpleMessageCenter.processReceivedContactMessageReceiptAgree env sender messageId timeSent
        referredMessageId mc
  | .processReceivedContactMessageReceiptDisagree sender messageId timeSent referredMessageId =>
      SimpleMessageCenter.processReceivedContactMessageReceiptDisagree env sender messageId timeSent
        referredMessageId mc
  | .processReceivedContactTypingNotificationTyping sender messageId timeSent =>
      SimpleMessageCenter.processReceivedContactTypingNotificationTyping env sender messageId
        timeSent mc
  | .processReceivedContactTypingNotificationStopped sender messageId timeSent =>
      SimpleMessageCenter.processReceivedContactTypingNotificationStopped env sender messageId
        timeSent mc
  | .inbound m => deliver env m mc
  | .onMessageSendFailedContact receiver messageId =>
      SimpleMessageCenter.onMessageSendFailedContact env receiver messageId mc
  | .onMessageSendDoneContact receiver messageId =>
      SimpleMessageCenter.onMessageSendDoneContact env receiver messageId mc
  | .onMessageSendFailedGroup group messageId =>
      SimpleMessageCenter.onMessageSendFailedGroup env group messageId mc
  | .onMessageSendDoneGroup group messageId =>
      SimpleMessageCenter.onMessageSendDoneGroup env group messageId mc
  | .onFoundNewContact newContact publicKey =>
      SimpleMessageCenter.onFoundNewContact env newContact publicKey mc
  | .onFoundNewGroup groupId members => SimpleMessageCenter.onFoundNewGroup env groupId members mc
  | .createNewGroupAndInformMembers randomGroupIds fuel members addSelfContact groupTitle
      groupImage =>
      (SimpleMessageCenter.createNewGroupAndInformMembers env randomGroupIds fuel members
        addSelfContact groupTitle groupImage mc).2
  | .resendGroupSetupAll group => SimpleMessageCenter.resendGroupSetupAll env group mc
  | .resendGroupSetup group recipients =>
      SimpleMessageCenter.resendGroupSetup env group recipients mc
  | .databaseOnMessageChanged uuid => SimpleMessageCenter.databaseOnMessageChanged uuid mc
  | .requestSyncForGroupIfApplicable group =>
      SimpleMessageCenter.requestSyncForGroupIfApplicable env group mc
  | .checkAndFixGroupMembership group sender =>
      (SimpleMessageCenter.checkAndFixGroupMembership env group sender mc).2

/-- The group of the call, for a call of `processReceivedGroupCreation`. -/
def Operation.creationGroup? : Operation → Option GroupId
  | .inbound (.creation group _ _ _ _ _) => some group
  | _ => none

/-- A sequence of calls, one after the other. -/
def Operation.runAll {σ : Type} (env : Env σ) : List Operation → SimpleMessageCenter σ →
    SimpleMessageCenter σ
  | [], mc => mc
  | op :: rest, mc => Operation.runAll env rest (op.run env mc)

/-- The entries of the deferred queue that belong to `group`, in queue order. -/
def MessageQueue.entriesOf (q : MessageQueue) (group : GroupId) : List ReceivedGroupMessage :=
  q.filter (fun m => decide (m.group = group))

/-- An entry as the handlers queue them: of one of the seven deferred types
with the payload of that type, from the owner if it is a SET_IMAGE or
SET_TITLE, and not from the owner if it is a SYNC_REQUEST. -/
def ReceivedGroupMessage.asQueuedByHandlers (m : ReceivedGroupMessage) : Bool :=
  (m.handlerCall).isSome &&
    (!m.ownerOnly || decide (m.sender = m.group.getOwner)) &&
    (!decide (m.messageType = .SYNC_REQUEST) || !decide (m.sender = m.group.getOwner))

/-! ### Inbound group messages and their acknowledgement -/

def InboundGroupMessage.group : InboundGroupMessage → GroupId
  | .text g _ _ _ _ _ => g
  | .image g _ _ _ _ _ => g
  | .location g _ _ _ _ _ => g
  | .creation g _ _ _ _ _ => g
  | .setImage g _ _ _ _ _ => g
  | .setTitle g _ _ _ _ _ => g
  | .syncRequest g _ _ _ _ => g
  | .leave g _ _ _ _ => g

def InboundGroupMessage.sender : InboundGroupMessage → ContactId
  | .text _ s _ _ _ _ => s
  | .image _ s _ _ _ _ => s
  | .location _ s _ _ _ _ => s
  | .creation _ s _ _ _ _ => s
  | .setImage _ s _ _ _ _ => s
  | .setTitle _ s _ _ _ _ => s
  | .syncRequest _ s _ _ _ => s
  | .leave _ s _ _ _ => s

def InboundGroupMessage.messageId : InboundGroupMessage → MessageId
  | .text _ _ i _ _ _ => i
  | .image _ _ i _ _ _ => i
  | .location _ _ i _ _ _ => i
  | .creation _ _ i _ _ _ => i
  | .setImage _ _ i _ _ _ => i
  | .setTitle _ _ i _ _ _ => i
  | .syncRequest _ _ i _ _ => i
  | .leave _ _ i _ _ => i

def InboundGroupMessage.isCreation : InboundGroupMessage → Bool
  | .creation _ _ _ _ _ _ => true
  | _ => false

/-- The `storeReceivedGroup*` call by which the handler of an inbound group
message applies it to storage. -/
def InboundGroupMessage.storeCall {σ : Type} (env : Env σ) : InboundGroupMessage → StorageCall
  | .text g s i ts tr m => .storeReceivedGroupMessageText g s i ts tr m
  | .image g s i ts tr m =>
      .storeReceivedGroupMessageImage g s i ts tr m (SimpleMessageCenter.parseCaptionFromImage env m)
  | .location g s i ts tr m => .storeReceivedGroupMessageLocation g s i ts tr m
  | .creation g s i ts tr m => .storeReceivedGroupCreation g s i ts tr m
  | .setImage g s i ts tr m => .storeReceivedGroupSetImage g s i ts tr m
  | .setTitle g s i ts tr m => .storeReceivedGroupSetTitle g s i ts tr m
  | .syncRequest g s i ts tr => .storeReceivedGroupSyncRequest g s i ts tr
  | .leave g s i ts tr => .storeReceivedGroupLeave g s i ts tr

/-- The inbound group message a queued entry is replayed as: the arguments
its handler is called with.  `none` for an entry of a type the replay has no
handler for. -/
def ReceivedGroupMessage.replayedAs (m : ReceivedGroupMessage) : Option InboundGroupMessage :=
  match m.messageType with
  | .IMAGE => some (.image m.group m.sender m.messageId m.timeSent m.timeReceived
      m.content.toByteArray)
  | .LEAVE => some (.leave m.group m.sender m.messageId m.timeSent m.timeReceived)
  | .LOCATION => some (.location m.group m.sender m.messageId m.timeSent m.timeReceived
      m.content.toLocation)
  | .SET_IMAGE => some (.setImage m.group m.sender m.messageId m.timeSent m.timeReceived
      m.content.toByteArray)
  | .SET_TITLE => some (.setTitle m.group m.sender m.messageId m.timeSent m.timeReceived
      m.content.toString)
  | .SYNC_REQUEST => some (.syncRequest m.group m.sender m.messageId m.timeSent m.timeReceived)
  | .TEXT => some (.text m.group m.sender m.messageId m.timeSent m.timeReceived
      m.content.toString)
  | _ => none

/-- The acknowledgement a recorded call is, if it is one: the sender and the
message id passed to `sendMessageReceivedAcknowledgement`. -/
def Event.acknowledged? : Event → Option (ContactId × MessageId)
  | .transport (.sendMessageReceivedAcknowledgement sender messageId) => some (sender, messageId)
  | _ => none

def Event.isRequestSync : Event → Bool
  | .call (.requestSyncForGroupIfApplicable _) => true
  | _ => false

def Event.isDrain : Event → Bool
  | .queue (.getAndRemoveQueuedMessages _) => true
  | _ => false

/-- A call on storage, query or mutation, or a call on the transport
acceptor. -/
def Event.isStorageOrTransport : Event → Bool
  | .storage _ => true
  | .query _ => true
  | .transport _ => true
  | _ => false

/-! ### Side work and contact receipts -/

/-- A recorded call that is none of these: an acknowledgement, the
application of an inbound group message to storage, an append to or a drain
of the deferred queue, the call of an inbound group handler. -/
def Event.plain : Event → Bool
  | .transport (.sendMessageReceivedAcknowledgement _ _) => false
  | .storage c => !c.isReceivedGroup
  | .queue (.storeGroupMessage _) => false
  | .queue (.getAndRemoveQueuedMessages _) => false
  | e => (e.replayed?).isNone

/-- The state `mc'` is reached from `mc` by side work: by recorded calls that
are all `plain`, with the deferred queue, the acceptor and the storage flag
as before. -/
def Aside {σ : Type} (mc mc' : SimpleMessageCenter σ) : Prop :=
  ∃ evs, mc'.trace = mc.trace ++ evs ∧
    mc'.m_messageQueue = mc.m_messageQueue ∧
    mc'.m_networkSentMessageAcceptor = mc.m_networkSentMessageAcceptor ∧
    mc'.m_storage.hasDatabase = mc.m_storage.hasDatabase ∧
    ∀ e ∈ evs, e.plain = true

end openmittsu

/-! ## Theorems -/

namespace openmittsu

open SimpleMessageCenter

/-! ### Records of calls and the deferred queue -/

theorem queueAfter_append (q : MessageQueue) (a b : List Event) :
    queueAfter q (a ++ b) = queueAfter (queueAfter q a) b := by
  simp [queueAfter, List.foldl_append]

theorem syncOnlyWhenNothingQueued_append (G : GroupId) (q : MessageQueue) (a b : List Event) :
    syncOnlyWhenNothingQueued G q (a ++ b) ↔
      syncOnlyWhenNothingQueued G q a ∧ syncOnlyWhenNothingQueued G (queueAfter q a) b := by
  induction a generalizing q with
  | nil => simp [syncOnlyWhenNothingQueued, queueAfter]
  | cons e a ih =>
    have hq : queueAfter q (e :: a) = queueAfter (queueStep q e) a := rfl
    rw [hq, List.cons_append]
    simp only [syncOnlyWhenNothingQueued, ih, and_assoc]

theorem callsSince_append {σ : Type} (mc mc' : SimpleMessageCenter σ) (evs : List Event)
    (h : mc'.trace = mc.trace ++ evs) : callsSince mc mc' = evs := by
  simp [callsSince, h]

theorem callsSince_self {σ : Type} (mc : SimpleMessageCenter σ) : callsSince mc mc = [] := by
  simp [callsSince]

section recorded

variable {σ : Type}

theorem Recorded.nil (mc : SimpleMessageCenter σ) : Recorded mc mc [] :=
  ⟨by simp, rfl, fun _ => trivial, rfl, rfl, rfl⟩

theorem Recorded.append {a b c : SimpleMessageCenter σ} {e1 e2 : List Event}
    (hab : Recorded a b e1) (hbc : Recorded b c e2) : Recorded a c (e1 ++ e2) := by
  obtain ⟨ht1, hq1, hs1, hd1, ho1, ha1⟩ := hab
  obtain ⟨ht2, hq2, hs2, hd2, ho2, ha2⟩ := hbc
  refine ⟨?_, ?_, ?_, hd2.trans hd1, ho2.trans ho1, ha2.trans ha1⟩
  · rw [ht2, ht1, List.append_assoc]
  · rw [hq2, hq1, queueAfter_append]
  · intro G
    rw [syncOnlyWhenNothingQueued_append]
    exact ⟨hs1 G, hq1 ▸ hs2 G⟩

/-- One recorded call. -/
theorem Recorded.single {mc mc' : SimpleMessageCenter σ} (e : Event)
    (ht : mc'.trace = mc.trace ++ [e])
    (hq : mc'.m_messageQueue = queueStep mc.m_messageQueue e)
    (hs : ∀ G, e.isSyncRequestFor G = true → mc.m_messageQueue.hasMessageForGroup G = false)
    (hd : mc'.m_storage.hasDatabase = mc.m_storage.hasDatabase)
    (ho : mc'.m_optionMaster = mc.m_optionMaster)
    (ha : mc'.m_networkSentMessageAcceptor = mc.m_networkSentMessageAcceptor) :
    Recorded mc mc' [e] :=
  ⟨ht, by simpa [queueAfter] using hq, fun G => ⟨hs G, trivial⟩, hd, ho, ha⟩

theorem Recorded.callsSince {mc mc' : SimpleMessageCenter σ} {evs : List Event}
    (h : Recorded mc mc' evs) : callsSince mc mc' = evs :=
  callsSince_append mc mc' evs h.1

end recorded

section proceeds

variable {σ : Type} {group : GroupId} {mc0 mc : SimpleMessageCenter σ}

theorem Proceeds.refl (mc : SimpleMessageCenter σ) : Proceeds group mc mc :=
  ⟨[], Recorded.nil mc, by simp⟩

theorem Proceeds.trans {a b c : SimpleMessageCenter σ} (hab : Proceeds group a b)
    (hbc : Proceeds group b c) : Proceeds group a c := by
  obtain ⟨e1, hr1, hk1⟩ := hab
  obtain ⟨e2, hr2, hk2⟩ := hbc
  refine ⟨e1 ++ e2, hr1.append hr2, ?_⟩
  intro e he
  rcases List.mem_append.mp he with h | h
  · exact hk1 e h
  · exact hk2 e h

/-- One more recorded call. -/
theorem Proceeds.step {mc' : SimpleMessageCenter σ} (e : Event) (h : Proceeds group mc0 mc)
    (ht : mc'.trace = mc.trace ++ [e])
    (hq : mc'.m_messageQueue = queueStep mc.m_messageQueue e)
    (hs : ∀ G, e.isSyncRequestFor G = true → mc.m_messageQueue.hasMessageForGroup G = false)
    (hk : e.quiet group = true)
    (hd : mc'.m_storage.hasDatabase = mc.m_storage.hasDatabase)
    (ho : mc'.m_optionMaster = mc.m_optionMaster)
    (ha : mc'.m_networkSentMessageAcceptor = mc.m_networkSentMessageAcceptor) :
    Proceeds group mc0 mc' := by
  refine Proceeds.trans h ⟨[e], Recorded.single e ht hq hs hd ho ha, ?_⟩
  intro e' he'
  rw [List.mem_singleton.mp he']
  exact hk

theorem Proceeds.ask (q : StorageQuery) (h : Proceeds group mc0 mc) :
    Proceeds group mc0 (mc.ask q) :=
  h.step (.query q) rfl rfl (fun _ hG => by simp [Event.isSyncRequestFor] at hG) rfl rfl rfl rfl

theorem Proceeds.emit (s : Signal) (h : Proceeds group mc0 mc) :
    Proceeds group mc0 (mc.emit s) :=
  h.step (.signal s) rfl rfl (fun _ hG => by simp [Event.isSyncRequestFor] at hG) rfl rfl rfl rfl

theorem Proceeds.openTabForIncomingMessage (g : GroupId) (h : Proceeds group mc0 mc) :
    Proceeds group mc0 (mc.openTabForIncomingMessage g) :=
  h.emit _

theorem Proceeds.tick (h : Proceeds group mc0 mc) : Proceeds group mc0 mc.tick :=
  Proceeds.trans h ⟨[], ⟨by simp [SimpleMessageCenter.tick], rfl, fun _ => trivial, rfl, rfl, rfl⟩,
    by simp⟩

/-- A recorded method call that is neither the call of an inbound handler nor
`sendSyncRequest`. -/
theorem Proceeds.enter (c : MethodCall) (h : Proceeds group mc0 mc)
    (hc : (Event.call c).replayed? = none)
    (hs : ∀ G, (Event.call c).isSyncRequestFor G = false) :
    Proceeds group mc0 (mc.enter c) :=
  h.step (.call c) rfl (by cases c <;> rfl) (fun G hG => by simp [hs G] at hG)
    (by cases c <;> simp_all [Event.quiet]) rfl rfl rfl

/-- A mutating storage call other than the storing of a sent sync request. -/
theorem Proceeds.store (env : Env σ) (c : StorageCall) (h : Proceeds group mc0 mc)
    (hs : ∀ G, (Event.storage c).isSyncRequestFor G = false) :
    Proceeds group mc0 (mc.store env c) :=
  h.step (.storage c) rfl rfl (fun G hG => by simp [hs G] at hG) rfl rfl rfl rfl

/-- A call on the transport other than the handing over of a sync request. -/
theorem Proceeds.send (c : TransportCall) (h : Proceeds group mc0 mc)
    (hs : ∀ G, (Event.transport c).isSyncRequestFor G = false) :
    Proceeds group mc0 (mc.send c) :=
  h.step (.transport c) rfl rfl (fun G hG => by simp [hs G] at hG) rfl rfl rfl rfl

theorem Proceeds.acknowledge (sender : ContactId) (messageId : MessageId)
    (h : Proceeds group mc0 mc) : Proceeds group mc0 (mc.acknowledge sender messageId) := by
  unfold SimpleMessageCenter.acknowledge
  split
  · exact h
  · exact h.send _ (fun _ => rfl)

theorem Proceeds.defer (entry : ReceivedGroupMessage) (h : Proceeds group mc0 mc)
    (hg : entry.group = group) (hw : (entry.handlerCall).isSome = true) :
    Proceeds group mc0 (mc.defer entry) :=
  h.step (.queue (.storeGroupMessage entry)) rfl rfl
    (fun _ hG => by simp [Event.isSyncRequestFor] at hG) (by simp [Event.quiet, hg, hw]) rfl rfl rfl

end proceeds

section proceedsMethods

variable {σ : Type} {group : GroupId} {mc0 mc : SimpleMessageCenter σ}

/-- The storing of a sent sync request for `g`, with nothing queued for
`g`. -/
theorem Proceeds.storeSyncRequest (env : Env σ) (g : GroupId) (t : MessageTime) (q : Bool)
    (h : Proceeds group mc0 mc) (hn : mc.m_messageQueue.hasMessageForGroup g = false) :
    Proceeds group mc0 (mc.store env (.storeSentGroupSyncRequest g t q)) :=
  h.step _ rfl rfl
    (fun G hG => by
      have hG' : g = G := by simpa [Event.isSyncRequestFor] using hG
      rw [← hG']
      exact hn)
    rfl rfl rfl rfl

/-- The handing of a sync request for `g` to the transport, with nothing
queued for `g`. -/
theorem Proceeds.sendSyncRequestCall (g : GroupId) (r : Finset ContactId) (i : MessageId)
    (t : MessageTime) (h : Proceeds group mc0 mc)
    (hn : mc.m_messageQueue.hasMessageForGroup g = false) :
    Proceeds group mc0 (mc.send (.processSentGroupSyncRequest g r i t)) :=
  h.step _ rfl rfl
    (fun G hG => by
      have hG' : g = G := by simpa [Event.isSyncRequestFor] using hG
      rw [← hG']
      exact hn)
    rfl rfl rfl rfl

/-- The recorded call of `sendSyncRequest(g)`, with nothing queued for `g`. -/
theorem Proceeds.enterSendSyncRequest (g : GroupId) (h : Proceeds group mc0 mc)
    (hn : mc.m_messageQueue.hasMessageForGroup g = false) :
    Proceeds group mc0 (mc.enter (.sendSyncRequest g)) :=
  h.step _ rfl rfl
    (fun G hG => by
      have hG' : g = G := by simpa [Event.isSyncRequestFor] using hG
      rw [← hG']
      exact hn)
    rfl rfl rfl rfl

theorem Proceeds.sendSyncRequest (env : Env σ) (g : GroupId) (h : Proceeds group mc0 mc)
    (hq : mc.m_messageQueue.hasMessageForGroup g = false) :
    Proceeds group mc0 (sendSyncRequest env g mc).2 := by
  simp only [SimpleMessageCenter.sendSyncRequest]
  split_ifs with h1 h2 h3
  · exact h
  · exact h.ask _
  · exact Proceeds.sendSyncRequestCall g _ _ _
      (Proceeds.storeSyncRequest env g _ _ (h.ask _).tick hq) hq
  · exact Proceeds.storeSyncRequest env g _ _ (h.ask _).tick hq

theorem Proceeds.requestSyncForGroupIfApplicable (env : Env σ) (g : GroupId)
    (h : Proceeds group mc0 mc) :
    Proceeds group mc0 (requestSyncForGroupIfApplicable env g mc) := by
  have h1 : Proceeds group mc0 (mc.log (.queue (.hasMessageForGroup g))) :=
    h.step _ rfl rfl (fun _ hG => by simp [Event.isSyncRequestFor] at hG) rfl rfl rfl rfl
  simp only [SimpleMessageCenter.requestSyncForGroupIfApplicable]
  split_ifs with hq
  · have hq' : mc.m_messageQueue.hasMessageForGroup g = false := by
      simpa [SimpleMessageCenter.log] using hq
    exact Proceeds.sendSyncRequest env g (h1.enterSendSyncRequest g hq') hq'
  · exact h1

theorem Proceeds.checkAndFixGroupMembership (env : Env σ) (g : GroupId) (sender : ContactId)
    (h : Proceeds group mc0 mc) :
    Proceeds group mc0 (checkAndFixGroupMembership env g sender mc).2 := by
  simp only [SimpleMessageCenter.checkAndFixGroupMembership]
  split_ifs <;>
    repeat' first
      | exact h
      | rfl
      | exact fun _ => rfl
      | apply Proceeds.ask
      | apply Proceeds.requestSyncForGroupIfApplicable
      | refine Proceeds.store _ _ ?_ ?_
      | refine Proceeds.enter _ ?_ ?_ ?_

end proceedsMethods

section proceedsHandlers

variable {σ : Type} {group : GroupId} {mc0 mc : SimpleMessageCenter σ}

theorem Proceeds.sendGroupCreation (env : Env σ) (g : GroupId) (members recipients : Finset ContactId)
    (applyOperationInDatabase : Bool) (h : Proceeds group mc0 mc) :
    Proceeds group mc0 (sendGroupCreation env g members recipients applyOperationInDatabase mc).2 := by
  simp only [SimpleMessageCenter.sendGroupCreation]
  split_ifs <;>
    repeat' first
      | exact h
      | rfl
      | exact fun _ => rfl
      | apply Proceeds.ask
      | apply Proceeds.tick
      | refine Proceeds.store _ _ ?_ ?_
      | refine Proceeds.send _ ?_ ?_

theorem Proceeds.sendGroupTitle (env : Env σ) (g : GroupId) (title : QString)
    (recipients : Finset ContactId) (applyOperationInDatabase : Bool) (h : Proceeds group mc0 mc) :
    Proceeds group mc0 (sendGroupTitle env g title recipients applyOperationInDatabase mc).2 := by
  simp only [SimpleMessageCenter.sendGroupTitle]
  split_ifs <;>
    repeat' first
      | exact h
      | rfl
      | exact fun _ => rfl
      | apply Proceeds.ask
      | apply Proceeds.tick
      | refine Proceeds.store _ _ ?_ ?_
      | refine Proceeds.send _ ?_ ?_

theorem Proceeds.sendGroupImage (env : Env σ) (g : GroupId) (image : QByteArray)
    (recipients : Finset ContactId) (applyOperationInDatabase : Bool) (h : Proceeds group mc0 mc) :
    Proceeds group mc0 (sendGroupImage env g image recipients applyOperationInDatabase mc).2 := by
  simp only [SimpleMessageCenter.sendGroupImage]
  split_ifs <;>
    repeat' first
      | exact h
      | rfl
      | exact fun _ => rfl
      | apply Proceeds.ask
      | apply Proceeds.tick
      | refine Proceeds.store _ _ ?_ ?_
      | refine Proceeds.send _ ?_ ?_

theorem Proceeds.resendGroupSetup (env : Env σ) (g : GroupId) (recipients : Finset ContactId)
    (h : Proceeds group mc0 mc) :
    Proceeds group mc0 (resendGroupSetup env g recipients mc) := by
  simp only [SimpleMessageCenter.resendGroupSetup]
  split_ifs <;>
    repeat' first
      | exact h
      | rfl
      | exact fun _ => rfl
      | apply Proceeds.ask
      | apply Proceeds.sendGroupCreation
      | apply Proceeds.sendGroupTitle
      | apply Proceeds.sendGroupImage
      | refine Proceeds.enter _ ?_ ?_ ?_

theorem Proceeds.processReceivedGroupMessageText (env : Env σ) (sender : ContactId)
    (messageId : MessageId) (timeSent timeReceived : MessageTime) (message : QString)
    (h : Proceeds group mc0 mc) :
    Proceeds group mc0
      (processReceivedGroupMessageText env group sender messageId timeSent timeReceived message mc) := by
  simp only [SimpleMessageCenter.processReceivedGroupMessageText]
  split_ifs <;>
    repeat' first
      | exact h
      | rfl
      | exact fun _ => rfl
      | apply Proceeds.acknowledge
      | apply Proceeds.openTabForIncomingMessage
      | apply Proceeds.checkAndFixGroupMembership
      | refine Proceeds.defer _ ?_ ?_ ?_
      | refine Proceeds.store _ _ ?_ ?_
      | refine Proceeds.enter _ ?_ ?_ ?_

theorem Proceeds.processReceivedGroupMessageImage (env : Env σ) (sender : ContactId)
    (messageId : MessageId) (timeSent timeReceived : MessageTime) (image : QByteArray)
    (h : Proceeds group mc0 mc) :
    Proceeds group mc0
      (processReceivedGroupMessageImage env group sender messageId timeSent timeReceived image mc) := by
  simp only [SimpleMessageCenter.processReceivedGroupMessageImage]
  split_ifs <;>
    repeat' first
      | exact h
      | rfl
      | exact fun _ => rfl
      | apply Proceeds.acknowledge
      | apply Proceeds.openTabForIncomingMessage
      | apply Proceeds.checkAndFixGroupMembership
      | refine Proceeds.defer _ ?_ ?_ ?_
      | refine Proceeds.store _ _ ?_ ?_
      | refine Proceeds.enter _ ?_ ?_ ?_

theorem Proceeds.processReceivedGroupMessageLocation (env : Env σ) (sender : ContactId)
    (messageId : MessageId) (timeSent timeReceived : MessageTime) (location : Location)
    (h : Proceeds group mc0 mc) :
    Proceeds group mc0
      (processReceivedGroupMessageLocation env group sender messageId timeSent timeReceived
        location mc) := by
  simp only [SimpleMessageCenter.processReceivedGroupMessageLocation]
  split_ifs <;>
    repeat' first
      | exact h
      | rfl
      | exact fun _ => rfl
      | apply Proceeds.acknowledge
      | apply Proceeds.openTabForIncomingMessage
      | apply Proceeds.checkAndFixGroupMembership
      | refine Proceeds.defer _ ?_ ?_ ?_
      | refine Proceeds.store _ _ ?_ ?_
      | refine Proceeds.enter _ ?_ ?_ ?_

theorem Proceeds.processReceivedGroupSetImage (env : Env σ) (sender : ContactId)
    (messageId : MessageId) (timeSent timeReceived : MessageTime) (image : QByteArray)
    (h : Proceeds group mc0 mc) :
    Proceeds group mc0
      (processReceivedGroupSetImage env group sender messageId timeSent timeReceived image mc) := by
  simp only [SimpleMessageCenter.processReceivedGroupSetImage]
  split_ifs <;>
    repeat' first
      | exact h
      | rfl
      | exact fun _ => rfl
      | apply Proceeds.acknowledge
      | apply Proceeds.checkAndFixGroupMembership
      | refine Proceeds.defer _ ?_ ?_ ?_
      | refine Proceeds.store _ _ ?_ ?_
      | refine Proceeds.enter _ ?_ ?_ ?_

theorem Proceeds.processReceivedGroupSetTitle (env : Env σ) (sender : ContactId)
    (messageId : MessageId) (timeSent timeReceived : MessageTime) (groupTitle : QString)
    (h : Proceeds group mc0 mc) :
    Proceeds group mc0
      (processReceivedGroupSetTitle env group sender messageId timeSent timeReceived groupTitle mc) := by
  simp only [SimpleMessageCenter.processReceivedGroupSetTitle]
  split_ifs <;>
    repeat' first
      | exact h
      | rfl
      | exact fun _ => rfl
      | apply Proceeds.acknowledge
      | apply Proceeds.checkAndFixGroupMembership
      | refine Proceeds.defer _ ?_ ?_ ?_
      | refine Proceeds.store _ _ ?_ ?_
      | refine Proceeds.enter _ ?_ ?_ ?_

theorem Proceeds.processReceivedGroupSyncRequest (env : Env σ) (sender : ContactId)
    (messageId : MessageId) (timeSent timeReceived : MessageTime) (h : Proceeds group mc0 mc) :
    Proceeds group mc0
      (processReceivedGroupSyncRequest env group sender messageId timeSent timeReceived mc) := by
  simp only [SimpleMessageCenter.processReceivedGroupSyncRequest]
  split_ifs <;>
    repeat' first
      | exact h
      | rfl
      | exact fun _ => rfl
      | apply Proceeds.ask
      | apply Proceeds.acknowledge
      | apply Proceeds.resendGroupSetup
      | apply Proceeds.checkAndFixGroupMembership
      | refine Proceeds.defer _ ?_ ?_ ?_
      | refine Proceeds.store _ _ ?_ ?_
      | refine Proceeds.enter _ ?_ ?_ ?_

theorem Proceeds.processReceivedGroupLeave (env : Env σ) (sender : ContactId)
    (messageId : MessageId) (timeSent timeReceived : MessageTime) (h : Proceeds group mc0 mc) :
    Proceeds group mc0
      (processReceivedGroupLeave env group sender messageId timeSent timeReceived mc) := by
  simp only [SimpleMessageCenter.processReceivedGroupLeave]
  split_ifs <;>
    repeat' first
      | exact h
      | rfl
      | exact fun _ => rfl
      | apply Proceeds.acknowledge
      | apply Proceeds.checkAndFixGroupMembership
      | refine Proceeds.defer _ ?_ ?_ ?_
      | refine Proceeds.store _ _ ?_ ?_
      | refine Proceeds.enter _ ?_ ?_ ?_

end proceedsHandlers

section replay

variable {σ : Type}

theorem Event.replayed?_eq_none_of_quiet {g : GroupId} {e : Event} (h : e.quiet g = true) :
    e.replayed? = none := by
  unfold Event.quiet at h
  split at h
  · rfl
  · rfl
  · simpa using h

theorem Event.calm_of_quiet {g : GroupId} {e : Event} (h : e.quiet g = true) :
    e.calm g = true := by
  simp [Event.calm, h]

/-- Calls that are calm for `g` only append entries of `g` to the deferred
queue. -/
theorem queueAfter_of_calm (g : GroupId) (evs : List Event) :
    ∀ q : MessageQueue, (∀ e ∈ evs, e.calm g = true) →
      queueAfter q evs = q ++ evs.filterMap Event.deferred? ∧
      ∀ m ∈ evs.filterMap Event.deferred?, m.group = g := by
  induction evs with
  | nil =>
    intro q _
    simp [queueAfter]
  | cons e evs ih =>
    intro q h
    have he : e.calm g = true := h e (List.mem_cons_self _ _)
    have hrest : ∀ e' ∈ evs, e'.calm g = true := fun e' he' => h e' (List.mem_cons_of_mem _ he')
    have hstep : queueAfter q (e :: evs) = queueAfter (queueStep q e) evs := rfl
    obtain ⟨h1, h2⟩ := ih (queueStep q e) hrest
    rw [hstep, h1]
    cases e with
    | queue c =>
      cases c with
      | storeGroupMessage entry =>
        have hg : entry.group = g := by
          have he' : entry.group = g ∧ (entry.handlerCall).isSome = true := by
            simpa [Event.calm, Event.quiet, Event.replayed?] using he
          exact he'.1
        refine ⟨by simp [queueStep, MessageQueue.storeGroupMessage, Event.deferred?], ?_⟩
        intro m hm
        simp only [List.filterMap_cons, Event.deferred?, List.mem_cons] at hm
        rcases hm with rfl | hm
        · exact hg
        · exact h2 m hm
      | getAndRemoveQueuedMessages g' =>
        simp [Event.calm, Event.quiet, Event.replayed?] at he
      | hasMessageForGroup g' =>
        exact ⟨by simp [queueStep, Event.deferred?], by simpa [Event.deferred?] using h2⟩
    | query c => exact ⟨by simp [queueStep, Event.deferred?], by simpa [Event.deferred?] using h2⟩
    | storage c => exact ⟨by simp [queueStep, Event.deferred?], by simpa [Event.deferred?] using h2⟩
    | transport c => exact ⟨by simp [queueStep, Event.deferred?], by simpa [Event.deferred?] using h2⟩
    | signal c => exact ⟨by simp [queueStep, Event.deferred?], by simpa [Event.deferred?] using h2⟩
    | call c => exact ⟨by simp [queueStep, Event.deferred?], by simpa [Event.deferred?] using h2⟩

/-- The recorded call of an inbound handler followed by the handler's work. -/
theorem recorded_handler_call {mc mc' : SimpleMessageCenter σ} (c : MethodCall) (g : GroupId)
    (hc : (Event.call c).replayed? = some c) (hp : Proceeds g (mc.enter c) mc') :
    ∃ evs, Recorded mc mc' (Event.call c :: evs) ∧ ∀ e ∈ evs, e.quiet g = true := by
  obtain ⟨evs, hr, hk⟩ := hp
  refine ⟨evs, ?_, hk⟩
  have h1 : Recorded mc (mc.enter c) [Event.call c] :=
    Recorded.single _ rfl (by cases c <;> rfl)
      (fun G hG => by cases c <;> simp_all [Event.isSyncRequestFor, Event.replayed?]) rfl rfl rfl
  exact h1.append hr

/-- One turn of the replay loop that does not throw: the handler of the
entry's type is called, once, and does the work of a handler for the entry's
group; for an entry with the payload of its type the call is the one the
design prescribes. -/
theorem replayEntry_some (env : Env σ) (it : ReceivedGroupMessage) (mc mc' : SimpleMessageCenter σ)
    (h : replayEntry env it mc = some mc') :
    ∃ c evs, Recorded mc mc' (Event.call c :: evs) ∧ (Event.call c).replayed? = some c ∧
      (∀ e ∈ evs, e.quiet it.group = true) ∧ ∀ c', it.handlerCall = some c' → c' = c := by
  obtain ⟨g, s, i, ts, tr, ty, content⟩ := it
  cases ty <;> simp only [replayEntry, Option.some.injEq, reduceCtorEq] at h
  · subst h
    have hp := Proceeds.processReceivedGroupMessageImage env s i ts tr content.toByteArray
      (Proceeds.refl _ : Proceeds g (mc.enter (.processReceivedGroupMessageImage g s i ts tr content.toByteArray)) _)
    obtain ⟨evs, hr, hk⟩ := recorded_handler_call _ g (by rfl) hp
    refine ⟨_, evs, hr, rfl, hk, ?_⟩
    intro c' hc'
    cases content <;> simp_all [ReceivedGroupMessage.handlerCall, QVariant.toByteArray]
  · subst h
    have hp := Proceeds.processReceivedGroupLeave env s i ts tr
      (Proceeds.refl _ : Proceeds g (mc.enter (.processReceivedGroupLeave g s i ts tr)) _)
    obtain ⟨evs, hr, hk⟩ := recorded_handler_call _ g (by rfl) hp
    refine ⟨_, evs, hr, rfl, hk, ?_⟩
    intro c' hc'
    cases content <;> simp_all [ReceivedGroupMessage.handlerCall]
  · subst h
    have hp := Proceeds.processReceivedGroupMessageLocation env s i ts tr content.toLocation
      (Proceeds.refl _ : Proceeds g (mc.enter (.processReceivedGroupMessageLocation g s i ts tr content.toLocation)) _)
    obtain ⟨evs, hr, hk⟩ := recorded_handler_call _ g (by rfl) hp
    refine ⟨_, evs, hr, rfl, hk, ?_⟩
    intro c' hc'
    cases content <;> simp_all [ReceivedGroupMessage.handlerCall, QVariant.toLocation]
  · subst h
    have hp := Proceeds.processReceivedGroupSetImage env s i ts tr content.toByteArray
      (Proceeds.refl _ : Proceeds g (mc.enter (.processReceivedGroupSetImage g s i ts tr content.toByteArray)) _)
    obtain ⟨evs, hr, hk⟩ := recorded_handler_call _ g (by rfl) hp
    refine ⟨_, evs, hr, rfl, hk, ?_⟩
    intro c' hc'
    cases content <;> simp_all [ReceivedGroupMessage.handlerCall, QVariant.toByteArray]
  · subst h
    have hp := Proceeds.processReceivedGroupSetTitle env s i ts tr content.toString
      (Proceeds.refl _ : Proceeds g (mc.enter (.processReceivedGroupSetTitle g s i ts tr content.toString)) _)
    obtain ⟨evs, hr, hk⟩ := recorded_handler_call _ g (by rfl) hp
    refine ⟨_, evs, hr, rfl, hk, ?_⟩
    intro c' hc'
    cases content <;> simp_all [ReceivedGroupMessage.handlerCall, QVariant.toString]
  · subst h
    have hp := Proceeds.processReceivedGroupSyncRequest env s i ts tr
      (Proceeds.refl _ : Proceeds g (mc.enter (.processReceivedGroupSyncRequest g s i ts tr)) _)
    obtain ⟨evs, hr, hk⟩ := recorded_handler_call _ g (by rfl) hp
    refine ⟨_, evs, hr, rfl, hk, ?_⟩
    intro c' hc'
    cases content <;> simp_all [ReceivedGroupMessage.handlerCall]
  · subst h
    have hp := Proceeds.processReceivedGroupMessageText env s i ts tr content.toString
      (Proceeds.refl _ : Proceeds g (mc.enter (.processReceivedGroupMessageText g s i ts tr content.toString)) _)
    obtain ⟨evs, hr, hk⟩ := recorded_handler_call _ g (by rfl) hp
    refine ⟨_, evs, hr, rfl, hk, ?_⟩
    intro c' hc'
    cases content <;> simp_all [ReceivedGroupMessage.handlerCall, QVariant.toString]

/-- The `default` branch of the replay loop is taken only for an entry for
which the design prescribes no handler. -/
theorem replayEntry_none (env : Env σ) (it : ReceivedGroupMessage) (mc : SimpleMessageCenter σ)
    (h : replayEntry env it mc = none) : it.handlerCall = none := by
  obtain ⟨g, s, i, ts, tr, ty, content⟩ := it
  cases ty <;> simp [replayEntry] at h <;> cases content <;> rfl

/-- The replay loop over entries of `g`. -/
theorem replayQueuedMessages_recorded (env : Env σ) (g : GroupId) (L : List ReceivedGroupMessage) :
    ∀ mc : SimpleMessageCenter σ, (∀ it ∈ L, it.group = g) →
      ∃ evs, Recorded mc (replayQueuedMessages env L mc).1 evs ∧
        (∀ e ∈ evs, e.calm g = true) ∧
        ((∀ it ∈ L, it.handlerCall.isSome = true) →
          evs.filterMap Event.replayed? = L.filterMap ReceivedGroupMessage.handlerCall ∧
          (replayQueuedMessages env L mc).2 = false) := by
  induction L with
  | nil =>
    intro mc _
    exact ⟨[], Recorded.nil mc, by simp, fun _ => by simp [replayQueuedMessages]⟩
  | cons it rest ih =>
    intro mc hL
    have hit : it.group = g := hL it (List.mem_cons_self _ _)
    have hrest : ∀ it' ∈ rest, it'.group = g := fun it' h' => hL it' (List.mem_cons_of_mem _ h')
    cases hre : replayEntry env it mc with
    | none =>
      refine ⟨[], ?_, by simp, ?_⟩
      · simpa [replayQueuedMessages, hre] using Recorded.nil mc
      · intro hw
        have h1 := hw it (List.mem_cons_self _ _)
        rw [replayEntry_none env it mc hre] at h1
        simp at h1
    | some mc1 =>
      obtain ⟨c, evs1, hr1, hc, hk1, hcall⟩ := replayEntry_some env it mc mc1 hre
      obtain ⟨evs2, hr2, hk2, hw2⟩ := ih mc1 hrest
      have hnone : evs1.filterMap Event.replayed? = [] := by
        rw [List.filterMap_eq_nil_iff]
        exact fun e he => Event.replayed?_eq_none_of_quiet (hk1 e he)
      refine ⟨(Event.call c :: evs1) ++ evs2, ?_, ?_, ?_⟩
      · simpa [replayQueuedMessages, hre] using hr1.append hr2
      · intro e he
        rcases List.mem_append.mp he with h | h
        · rcases List.mem_cons.mp h with rfl | h
          · simp [Event.calm, hc]
          · exact Event.calm_of_quiet (hit ▸ hk1 e h)
        · exact hk2 e h
      · intro hw
        obtain ⟨h3, h4⟩ := hw2 (fun it' h' => hw it' (List.mem_cons_of_mem _ h'))
        have h1 := hw it (List.mem_cons_self _ _)
        obtain ⟨c', hc'⟩ := Option.isSome_iff_exists.mp h1
        have hcc : c' = c := hcall c' hc'
        refine ⟨?_, by simpa [replayQueuedMessages, hre] using h4⟩
        rw [List.filterMap_append, List.filterMap_cons_some hc, hnone, h3,
          List.filterMap_cons_some (hcc ▸ hc')]
        simp

end replay

section creation

variable {σ : Type}

theorem acknowledge_m_messageQueue (mc : SimpleMessageCenter σ) (sender : ContactId)
    (messageId : MessageId) :
    (mc.acknowledge sender messageId).m_messageQueue = mc.m_messageQueue := by
  unfold SimpleMessageCenter.acknowledge
  split <;> rfl

/-- The acknowledgement block records nothing, or the one acknowledgement. -/
theorem acknowledge_recorded (mc : SimpleMessageCenter σ) (sender : ContactId)
    (messageId : MessageId) :
    ∃ ack, Recorded mc (mc.acknowledge sender messageId) ack ∧
      (ack = [] ∨ ack = [Event.transport (.sendMessageReceivedAcknowledgement sender messageId)]) := by
  unfold SimpleMessageCenter.acknowledge
  split
  · exact ⟨[], Recorded.nil mc, Or.inl rfl⟩
  · exact ⟨_, Recorded.single _ rfl rfl (fun _ hG => by simp [Event.isSyncRequestFor] at hG)
      rfl rfl rfl, Or.inr rfl⟩

/-- A CREATION that passes both guards is the replay of the drained entries,
started once the creation is stored and acknowledged and the queue drained. -/
theorem processReceivedGroupCreation_eq (env : Env σ) (group : GroupId)
    (messageId : MessageId) (timeSent timeReceived : MessageTime) (members : Finset ContactId)
    (mc : SimpleMessageCenter σ) (hdb : mc.m_storage.hasDatabase = false) :
    processReceivedGroupCreation env group group.getOwner messageId timeSent timeReceived members mc =
      replayQueuedMessages env (mc.m_messageQueue.getAndRemoveQueuedMessages group).1
        (((mc.store env (.storeReceivedGroupCreation group group.getOwner messageId timeSent
          timeReceived members)).acknowledge group.getOwner messageId).drain group) := by
  have hq := acknowledge_m_messageQueue (mc.store env
      (.storeReceivedGroupCreation group group.getOwner messageId timeSent timeReceived members))
      group.getOwner messageId
  have hq' : ((mc.store env
      (.storeReceivedGroupCreation group group.getOwner messageId timeSent timeReceived
        members)).acknowledge group.getOwner messageId).m_messageQueue = mc.m_messageQueue := hq
  simp [SimpleMessageCenter.processReceivedGroupCreation, hdb, hq']

/-- The state in which an applied CREATION starts its replay: the creation is
stored, acknowledged if there is an acceptor, and the queue is drained of the
group's entries. -/
theorem creation_until_replay_recorded (env : Env σ) (group : GroupId) (sender : ContactId)
    (messageId : MessageId) (timeSent timeReceived : MessageTime) (members : Finset ContactId)
    (mc : SimpleMessageCenter σ) :
    ∃ ack, Recorded mc
        (((mc.store env (.storeReceivedGroupCreation group sender messageId timeSent
          timeReceived members)).acknowledge sender messageId).drain group)
        (Event.storage
            (.storeReceivedGroupCreation group sender messageId timeSent timeReceived members) ::
          (ack ++ [Event.queue (.getAndRemoveQueuedMessages group)])) ∧
      (ack = [] ∨ ack = [Event.transport (.sendMessageReceivedAcknowledgement sender messageId)]) := by
  have h1 : Recorded mc (mc.store env
      (.storeReceivedGroupCreation group sender messageId timeSent timeReceived members)) [_] :=
    Recorded.single _ rfl rfl (fun _ hG => by simp [Event.isSyncRequestFor] at hG) rfl rfl rfl
  obtain ⟨ack, h2, hack⟩ := acknowledge_recorded (mc.store env
      (.storeReceivedGroupCreation group sender messageId timeSent timeReceived members))
      sender messageId
  have h3 : Recorded ((mc.store env
      (.storeReceivedGroupCreation group sender messageId timeSent timeReceived members)).acknowledge
      sender messageId)
      (((mc.store env (.storeReceivedGroupCreation group sender messageId timeSent
          timeReceived members)).acknowledge sender messageId).drain group) [_] :=
    Recorded.single _ rfl rfl (fun _ hG => by simp [Event.isSyncRequestFor] at hG) rfl rfl rfl
  exact ⟨ack, by simpa using h1.append (h2.append h3), hack⟩

/-- A CREATION that passes both guards: the creation is stored, acknowledged
if there is an acceptor, the queue is drained of the group's entries, and the
drained entries are replayed. -/
theorem processReceivedGroupCreation_recorded (env : Env σ) (group : GroupId) (sender : ContactId)
    (messageId : MessageId) (timeSent timeReceived : MessageTime) (members : Finset ContactId)
    (mc : SimpleMessageCenter σ) (hdb : mc.m_storage.hasDatabase = false)
    (hs : sender = group.getOwner) :
    ∃ ack evs,
      Recorded mc
        (processReceivedGroupCreation env group sender messageId timeSent timeReceived members mc).1
        (Event.storage
            (.storeReceivedGroupCreation group sender messageId timeSent timeReceived members) ::
          (ack ++ Event.queue (.getAndRemoveQueuedMessages group) :: evs)) ∧
      (ack = [] ∨ ack = [Event.transport (.sendMessageReceivedAcknowledgement sender messageId)]) ∧
      (∀ e ∈ evs, e.calm group = true) ∧
      ((∀ it ∈ mc.m_messageQueue, it.group = group → it.handlerCall.isSome = true) →
        evs.filterMap Event.replayed? =
          (mc.m_messageQueue.filter (fun m => decide (m.group = group))).filterMap
            ReceivedGroupMessage.handlerCall ∧
        (processReceivedGroupCreation env group sender messageId timeSent timeReceived members
          mc).2 = false) := by
  subst hs
  rw [processReceivedGroupCreation_eq env group messageId timeSent timeReceived members mc hdb]
  obtain ⟨ack, h123, hack⟩ := creation_until_replay_recorded env group group.getOwner messageId
    timeSent timeReceived members mc
  obtain ⟨evs, h4, hk, hw⟩ := replayQueuedMessages_recorded env group
    (mc.m_messageQueue.getAndRemoveQueuedMessages group).1
    (((mc.store env (.storeReceivedGroupCreation group group.getOwner messageId timeSent
      timeReceived members)).acknowledge group.getOwner messageId).drain group)
    (fun it hit => by
      simpa using (List.mem_filter.mp hit).2)
  refine ⟨ack, evs, by simpa using h123.append h4, hack, hk, ?_⟩
  intro hwf
  exact hw (fun it hit => by
    have hm := List.mem_filter.mp hit
    exact hwf it hm.1 (by simpa using hm.2))

/-- Delivering one inbound group message records calls in the sense of
`Recorded`. -/
theorem deliver_recorded (env : Env σ) (m : InboundGroupMessage) (mc : SimpleMessageCenter σ) :
    ∃ evs, Recorded mc (deliver env m mc) evs := by
  cases m with
  | text g s i ts tr x =>
    obtain ⟨evs, h, _⟩ := Proceeds.processReceivedGroupMessageText env s i ts tr x
      (Proceeds.refl mc : Proceeds g mc mc)
    exact ⟨evs, h⟩
  | image g s i ts tr x =>
    obtain ⟨evs, h, _⟩ := Proceeds.processReceivedGroupMessageImage env s i ts tr x
      (Proceeds.refl mc : Proceeds g mc mc)
    exact ⟨evs, h⟩
  | location g s i ts tr x =>
    obtain ⟨evs, h, _⟩ := Proceeds.processReceivedGroupMessageLocation env s i ts tr x
      (Proceeds.refl mc : Proceeds g mc mc)
    exact ⟨evs, h⟩
  | setImage g s i ts tr x =>
    obtain ⟨evs, h, _⟩ := Proceeds.processReceivedGroupSetImage env s i ts tr x
      (Proceeds.refl mc : Proceeds g mc mc)
    exact ⟨evs, h⟩
  | setTitle g s i ts tr x =>
    obtain ⟨evs, h, _⟩ := Proceeds.processReceivedGroupSetTitle env s i ts tr x
      (Proceeds.refl mc : Proceeds g mc mc)
    exact ⟨evs, h⟩
  | syncRequest g s i ts tr =>
    obtain ⟨evs, h, _⟩ := Proceeds.processReceivedGroupSyncRequest env s i ts tr
      (Proceeds.refl mc : Proceeds g mc mc)
    exact ⟨evs, h⟩
  | leave g s i ts tr =>
    obtain ⟨evs, h, _⟩ := Proceeds.processReceivedGroupLeave env s i ts tr
      (Proceeds.refl mc : Proceeds g mc mc)
    exact ⟨evs, h⟩
  | creation g s i ts tr x =>
    by_cases hdb : mc.m_storage.hasDatabase = true
    · exact ⟨[], by simpa [deliver, SimpleMessageCenter.processReceivedGroupCreation, hdb]
        using Recorded.nil mc⟩
    · by_cases hs : s = g.getOwner
      · obtain ⟨ack, evs, h, _⟩ := processReceivedGroupCreation_recorded env g s i ts tr x mc
          (by simpa using hdb) hs
        exact ⟨_, h⟩
      · exact ⟨[], by simpa [deliver, SimpleMessageCenter.processReceivedGroupCreation, hdb, hs]
          using Recorded.nil mc⟩

/-- Delivering a sequence of inbound group messages records calls in the sense
of `Recorded`. -/
theorem deliverAll_recorded (env : Env σ) (msgs : List InboundGroupMessage) :
    ∀ mc : SimpleMessageCenter σ, ∃ evs, Recorded mc (deliverAll env msgs mc) evs := by
  induction msgs with
  | nil => exact fun mc => ⟨[], Recorded.nil mc⟩
  | cons m rest ih =>
    intro mc
    obtain ⟨e1, h1⟩ := deliver_recorded env m mc
    obtain ⟨e2, h2⟩ := ih (deliver env m mc)
    exact ⟨e1 ++ e2, h1.append h2⟩

end creation

/-- Where `f` is defined on every element, the defined values are the values
of `f`, position by position. -/
theorem map_some_filterMap {α β : Type} (f : α → Option β) (l : List α)
    (h : ∀ x ∈ l, (f x).isSome = true) : (l.filterMap f).map some = l.map f := by
  induction l with
  | nil => rfl
  | cons x l ih =>
    obtain ⟨y, hy⟩ := Option.isSome_iff_exists.mp (h x (List.mem_cons_self _ _))
    rw [List.filterMap_cons_some hy, List.map_cons, List.map_cons, hy,
      ih (fun z hz => h z (List.mem_cons_of_mem _ hz))]

section claims8to10

variable {σ : Type}

/-- A CREATION that is applied has passed both guards of its handler. -/
theorem processReceivedGroupCreation_applied (env : Env σ) (group : GroupId) (sender : ContactId)
    (messageId : MessageId) (timeSent timeReceived : MessageTime) (members : Finset ContactId)
    (mc : SimpleMessageCenter σ) (c : StorageCall)
    (hApplied : Event.storage c ∈ callsSince mc
      (processReceivedGroupCreation env group sender messageId timeSent timeReceived members mc).1) :
    mc.m_storage.hasDatabase = false ∧ sender = group.getOwner := by
  by_cases hdb : mc.m_storage.hasDatabase = true
  · simp [SimpleMessageCenter.processReceivedGroupCreation, hdb, callsSince_self] at hApplied
  · by_cases hs : sender = group.getOwner
    · exact ⟨by simpa using hdb, hs⟩
    · simp [SimpleMessageCenter.processReceivedGroupCreation, hdb, hs, callsSince_self] at hApplied

/-- The acknowledgement block records neither a deferral nor a handler call. -/
theorem ack_filterMap {sender : ContactId} {messageId : MessageId} {ack : List Event}
    (h : ack = [] ∨ ack = [Event.transport (.sendMessageReceivedAcknowledgement sender messageId)]) :
    ack.filterMap Event.replayed? = [] ∧ ack.filterMap Event.deferred? = [] := by
  rcases h with rfl | rfl <;> simp [Event.replayed?, Event.deferred?]

end claims8to10

section admitted

variable {σ : Type}

/-- The membership check for a member of a known group: two queries, no
repair, admitted. -/
theorem checkAndFixGroupMembership_member (env : Env σ) (g : GroupId) (s : ContactId)
    (mc : SimpleMessageCenter σ) (hdb : mc.m_storage.hasDatabase = false)
    (hk : env.hasGroup mc.db g = true) (hm : s ∈ env.getGroupMembers mc.db g false) :
    checkAndFixGroupMembership env g s mc =
      (true, (mc.ask (.hasGroup g)).ask (.getGroupMembers g false)) := by
  simp_all [SimpleMessageCenter.checkAndFixGroupMembership, SimpleMessageCenter.db,
    SimpleMessageCenter.ask, SimpleMessageCenter.log]

/-- The end of an admitted handler: the storage call that applies the message,
then the acknowledgement block. -/
theorem admitted_tail (env : Env σ) (mc Y : SimpleMessageCenter σ) (pre : List Event)
    (c : StorageCall) (s : ContactId) (i : MessageId)
    (hY : Y.trace = mc.trace ++ pre) (hYdb : Y.db = mc.db)
    (hpre1 : pre.filterMap Event.applied? = []) (hpre2 : pre.filterMap Event.deferred? = [])
    (hc : c.isReceivedGroup = true) :
    ((Y.store env c).acknowledge s i).db = env.perform mc.db c ∧
    (callsSince mc ((Y.store env c).acknowledge s i)).filterMap Event.applied? = [c] ∧
    (callsSince mc ((Y.store env c).acknowledge s i)).filterMap Event.deferred? = [] := by
  have hYdb' : Y.m_storage.database = mc.m_storage.database := hYdb
  unfold SimpleMessageCenter.acknowledge
  split <;>
    simp [callsSince, SimpleMessageCenter.store, SimpleMessageCenter.send, SimpleMessageCenter.log,
      SimpleMessageCenter.db, hY, hYdb', List.filterMap_append, hpre1, hpre2, Event.applied?,
      Event.deferred?, hc]

/-- One turn of the replay loop for an entry that is admitted: its handler
applies it with the one storage call of its type and defers nothing. -/
theorem replayEntry_admitted (env : Env σ) (m : ReceivedGroupMessage) (mc : SimpleMessageCenter σ)
    (c : StorageCall) (hc : m.storeCall? env = some c)
    (ho : m.ownerOnly = true → m.sender = m.group.getOwner)
    (hdb : mc.m_storage.hasDatabase = false)
    (hk : env.hasGroup mc.db m.group = true)
    (hm : m.sender ∈ env.getGroupMembers mc.db m.group false) :
    ∃ mc', replayEntry env m mc = some mc' ∧ mc'.db = env.perform mc.db c ∧
      (callsSince mc mc').filterMap Event.applied? = [c] ∧
      (callsSince mc mc').filterMap Event.deferred? = [] := by
  obtain ⟨g, s, i, ts, tr, ty, content⟩ := m
  have hdb' : ∀ call : MethodCall, ¬ (mc.enter call).m_storage.hasDatabase = true := by
    intro call
    simpa [SimpleMessageCenter.enter, SimpleMessageCenter.log] using hdb
  cases ty <;> simp only [ReceivedGroupMessage.storeCall?, Option.some.injEq, reduceCtorEq] at hc
  · subst hc
    have hck := checkAndFixGroupMembership_member env g s
      ((mc.enter (.processReceivedGroupMessageImage g s i ts tr content.toByteArray)).enter
        (.checkAndFixGroupMembership g s)) hdb hk hm
    have h1 : replayEntry env ⟨g, s, i, ts, tr, .IMAGE, content⟩ mc = some
        (((((((mc.enter (.processReceivedGroupMessageImage g s i ts tr content.toByteArray)).enter
          (.checkAndFixGroupMembership g s)).ask (.hasGroup g)).ask (.getGroupMembers g false)).openTabForIncomingMessage g).store env
          (.storeReceivedGroupMessageImage g s i ts tr content.toByteArray
          (parseCaptionFromImage env content.toByteArray))).acknowledge s i) := by
      simp only [replayEntry, SimpleMessageCenter.processReceivedGroupMessageImage]
      rw [if_neg (hdb' _), hck]
      rfl
    exact ⟨_, h1, admitted_tail env mc _
        [.call (.processReceivedGroupMessageImage g s i ts tr content.toByteArray),
         .call (.checkAndFixGroupMembership g s), .query (.hasGroup g),
         .query (.getGroupMembers g false), .signal (.newUnreadMessageAvailableGroup g)]
        _ s i (by simp [SimpleMessageCenter.enter, SimpleMessageCenter.ask,
          SimpleMessageCenter.log, SimpleMessageCenter.openTabForIncomingMessage,
          SimpleMessageCenter.emit]) rfl rfl rfl rfl⟩
  · subst hc
    have hck := checkAndFixGroupMembership_member env g s
      ((mc.enter (.processReceivedGroupLeave g s i ts tr)).enter
        (.checkAndFixGroupMembership g s)) hdb hk hm
    have h1 : replayEntry env ⟨g, s, i, ts, tr, .LEAVE, content⟩ mc = some
        ((((((mc.enter (.processReceivedGroupLeave g s i ts tr)).enter
          (.checkAndFixGroupMembership g s)).ask (.hasGroup g)).ask (.getGroupMembers g false)).store env
          (.storeReceivedGroupLeave g s i ts tr)).acknowledge s i) := by
      simp only [replayEntry, SimpleMessageCenter.processReceivedGroupLeave]
      rw [if_neg (hdb' _), hck]
      rfl
    exact ⟨_, h1, admitted_tail env mc _
        [.call (.processReceivedGroupLeave g s i ts tr),
         .call (.checkAndFixGroupMembership g s), .query (.hasGroup g),
         .query (.getGroupMembers g false)]
        _ s i (by simp [SimpleMessageCenter.enter, SimpleMessageCenter.ask,
          SimpleMessageCenter.log, SimpleMessageCenter.openTabForIncomingMessage,
          SimpleMessageCenter.emit]) rfl rfl rfl rfl⟩
  · subst hc
    have hck := checkAndFixGroupMembership_member env g s
      ((mc.enter (.processReceivedGroupMessageLocation g s i ts tr content.toLocation)).enter
        (.checkAndFixGroupMembership g s)) hdb hk hm
    have h1 : replayEntry env ⟨g, s, i, ts, tr, .LOCATION, content⟩ mc = some
        (((((((mc.enter (.processReceivedGroupMessageLocation g s i ts tr content.toLocation)).enter
          (.checkAndFixGroupMembership g s)).ask (.hasGroup g)).ask (.getGroupMembers g false)).openTabForIncomingMessage g).store env
          (.storeReceivedGroupMessageLocation g s i ts tr content.toLocation)).acknowledge s i) := by
      simp only [replayEntry, SimpleMessageCenter.processReceivedGroupMessageLocation]
      rw [if_neg (hdb' _), hck]
      rfl
    exact ⟨_, h1, admitted_tail env mc _
        [.call (.processReceivedGroupMessageLocation g s i ts tr content.toLocation),
         .call (.checkAndFixGroupMembership g s), .query (.hasGroup g),
         .query (.getGroupMembers g false), .signal (.newUnreadMessageAvailableGroup g)]
        _ s i (by simp [SimpleMessageCenter.enter, SimpleMessageCenter.ask,
          SimpleMessageCenter.log, SimpleMessageCenter.openTabForIncomingMessage,
          SimpleMessageCenter.emit]) rfl rfl rfl rfl⟩
  · subst hc
    have hown : ¬ s ≠ GroupId.getOwner g := not_not.mpr (ho rfl)
    have hck := checkAndFixGroupMembership_member env g s
      ((mc.enter (.processReceivedGroupSetImage g s i ts tr content.toByteArray)).enter
        (.checkAndFixGroupMembership g s)) hdb hk hm
    have h1 : replayEntry env ⟨g, s, i, ts, tr, .SET_IMAGE, content⟩ mc = some
        ((((((mc.enter (.processReceivedGroupSetImage g s i ts tr content.toByteArray)).enter
          (.checkAndFixGroupMembership g s)).ask (.hasGroup g)).ask (.getGroupMembers g false)).store env
          (.storeReceivedGroupSetImage g s i ts tr content.toByteArray)).acknowledge s i) := by
      simp only [replayEntry, SimpleMessageCenter.processReceivedGroupSetImage]
      rw [if_neg (hdb' _), if_neg hown, hck]
      rfl
    exact ⟨_, h1, admitted_tail env mc _
        [.call (.processReceivedGroupSetImage g s i ts tr content.toByteArray),
         .call (.checkAndFixGroupMembership g s), .query (.hasGroup g),
         .query (.getGroupMembers g false)]
        _ s i (by simp [SimpleMessageCenter.enter, SimpleMessageCenter.ask,
          SimpleMessageCenter.log, SimpleMessageCenter.openTabForIncomingMessage,
          SimpleMessageCenter.emit]) rfl rfl rfl rfl⟩
  · subst hc
    have hown : ¬ s ≠ GroupId.getOwner g := not_not.mpr (ho rfl)
    have hck := checkAndFixGroupMembership_member env g s
      ((mc.enter (.processReceivedGroupSetTitle g s i ts tr content.toString)).enter
        (.checkAndFixGroupMembership g s)) hdb hk hm
    have h1 : replayEntry env ⟨g, s, i, ts, tr, .SET_TITLE, content⟩ mc = some
        ((((((mc.enter (.processReceivedGroupSetTitle g s i ts tr content.toString)).enter
          (.checkAndFixGroupMembership g s)).ask (.hasGroup g)).ask (.getGroupMembers g false)).store env
          (.storeReceivedGroupSetTitle g s i ts tr content.toString)).acknowledge s i) := by
      simp only [replayEntry, SimpleMessageCenter.processReceivedGroupSetTitle]
      rw [if_neg (hdb' _), if_neg hown, hck]
      rfl
    exact ⟨_, h1, admitted_tail env mc _
        [.call (.processReceivedGroupSetTitle g s i ts tr content.toString),
         .call (.checkAndFixGroupMembership g s), .query (.hasGroup g),
         .query (.getGroupMembers g false)]
        _ s i (by simp [SimpleMessageCenter.enter, SimpleMessageCenter.ask,
          SimpleMessageCenter.log, SimpleMessageCenter.openTabForIncomingMessage,
          SimpleMessageCenter.emit]) rfl rfl rfl rfl⟩
  · subst hc
    have hck := checkAndFixGroupMembership_member env g s
      ((mc.enter (.processReceivedGroupMessageText g s i ts tr content.toString)).enter
        (.checkAndFixGroupMembership g s)) hdb hk hm
    have h1 : replayEntry env ⟨g, s, i, ts, tr, .TEXT, content⟩ mc = some
        (((((((mc.enter (.processReceivedGroupMessageText g s i ts tr content.toString)).enter
          (.checkAndFixGroupMembership g s)).ask (.hasGroup g)).ask (.getGroupMembers g false)).openTabForIncomingMessage g).store env
          (.storeReceivedGroupMessageText g s i ts tr content.toString)).acknowledge s i) := by
      simp only [replayEntry, SimpleMessageCenter.processReceivedGroupMessageText]
      rw [if_neg (hdb' _), hck]
      rfl
    exact ⟨_, h1, admitted_tail env mc _
        [.call (.processReceivedGroupMessageText g s i ts tr content.toString),
         .call (.checkAndFixGroupMembership g s), .query (.hasGroup g),
         .query (.getGroupMembers g false), .signal (.newUnreadMessageAvailableGroup g)]
        _ s i (by simp [SimpleMessageCenter.enter, SimpleMessageCenter.ask,
          SimpleMessageCenter.log, SimpleMessageCenter.openTabForIncomingMessage,
          SimpleMessageCenter.emit]) rfl rfl rfl rfl⟩

end admitted

section admittedReplay

variable {σ : Type}

theorem acknowledge_db (mc : SimpleMessageCenter σ) (sender : ContactId) (messageId : MessageId) :
    (mc.acknowledge sender messageId).db = mc.db := by
  unfold SimpleMessageCenter.acknowledge
  split <;> rfl

/-- The replay loop over entries of `g` that are admitted in turn: each is
applied with the storage call of its type, in order, nothing is deferred
again, and the loop ends without exception. -/
theorem replayQueuedMessages_admitted (env : Env σ) (g : GroupId) (L : List ReceivedGroupMessage) :
    ∀ mc : SimpleMessageCenter σ, (∀ it ∈ L, it.group = g) →
      mc.m_storage.hasDatabase = false → admittedInTurn env mc.db L →
      ((callsSince mc (replayQueuedMessages env L mc).1).filterMap Event.applied?).map some =
          L.map (ReceivedGroupMessage.storeCall? env) ∧
        (callsSince mc (replayQueuedMessages env L mc).1).filterMap Event.deferred? = [] ∧
        (replayQueuedMessages env L mc).2 = false := by
  induction L with
  | nil =>
    intro mc _ _ _
    simp [replayQueuedMessages, callsSince_self]
  | cons m rest ih =>
    intro mc hL hdb hadm
    obtain ⟨c, hc, ho, hk, hm, hrest⟩ := hadm
    obtain ⟨mc1, hre, hdb1, happ, hdef⟩ := replayEntry_admitted env m mc c hc ho hdb hk hm
    obtain ⟨c', evs1, hr1, -, -, -⟩ := replayEntry_some env m mc mc1 hre
    have hL' : ∀ it ∈ rest, it.group = g := fun it h => hL it (List.mem_cons_of_mem _ h)
    obtain ⟨evs2, hr2, -, -⟩ := replayQueuedMessages_recorded env g rest mc1 hL'
    have hdbf : mc1.m_storage.hasDatabase = false := hr1.2.2.2.1.trans hdb
    obtain ⟨h1, h2, h3⟩ := ih mc1 hL' hdbf (hdb1 ▸ hrest)
    have hfinal : replayQueuedMessages env (m :: rest) mc = replayQueuedMessages env rest mc1 := by
      simp [replayQueuedMessages, hre]
    have hsplit : callsSince mc (replayQueuedMessages env rest mc1).1 =
        callsSince mc mc1 ++ callsSince mc1 (replayQueuedMessages env rest mc1).1 := by
      rw [(hr1.append hr2).callsSince, hr1.callsSince, hr2.callsSince]
    rw [hfinal, hsplit]
    refine ⟨?_, ?_, h3⟩
    · rw [List.filterMap_append, List.map_append, happ, h1]
      simp [hc]
    · rw [List.filterMap_append, hdef, h2]
      rfl

end admittedReplay

/-- The deferred queue along the calls of an applied CREATION up to the
replay: storing and acknowledging leave it, the drain removes the entries of
the group. -/
theorem queueAfter_creation (q : MessageQueue) (group : GroupId) (c : StorageCall)
    {sender : ContactId} {messageId : MessageId} (ack evs : List Event)
    (hack : ack = [] ∨
      ack = [Event.transport (.sendMessageReceivedAcknowledgement sender messageId)]) :
    queueAfter q (Event.storage c :: (ack ++ Event.queue (.getAndRemoveQueuedMessages group) :: evs)) =
      queueAfter (q.filter (fun m => !decide (m.group = group))) evs := by
  rcases hack with rfl | rfl <;> rfl

section wellFormedQueue

variable {σ : Type}

/-- Entries appended by calls that are calm for `g` are deferred messages the
design knows a handler for. -/
theorem deferred_handlerCall_of_calm (g : GroupId) (evs : List Event)
    (h : ∀ e ∈ evs, e.calm g = true) :
    ∀ m ∈ evs.filterMap Event.deferred?, (m.handlerCall).isSome = true := by
  intro m hm
  obtain ⟨e, he, hem⟩ := List.mem_filterMap.mp hm
  have hc := h e he
  cases e with
  | queue c =>
    cases c with
    | storeGroupMessage entry =>
      have he' : entry.group = g ∧ (entry.handlerCall).isSome = true := by
        simpa [Event.calm, Event.quiet, Event.replayed?] using hc
      have : entry = m := by simpa [Event.deferred?] using hem
      exact this ▸ he'.2
    | getAndRemoveQueuedMessages g' => simp [Event.deferred?] at hem
    | hasMessageForGroup g' => simp [Event.deferred?] at hem
  | query c => simp [Event.deferred?] at hem
  | storage c => simp [Event.deferred?] at hem
  | transport c => simp [Event.deferred?] at hem
  | signal c => simp [Event.deferred?] at hem
  | call c => simp [Event.deferred?] at hem

/-- The work of a handler keeps the queue one of deferred messages the design
knows a handler for. -/
theorem Proceeds.queue_handlerCall {g : GroupId} {mc mc' : SimpleMessageCenter σ}
    (hp : Proceeds g mc mc')
    (h : ∀ it ∈ mc.m_messageQueue, (it.handlerCall).isSome = true) :
    ∀ it ∈ mc'.m_messageQueue, (it.handlerCall).isSome = true := by
  obtain ⟨evs, hr, hk⟩ := hp
  have hcalm : ∀ e ∈ evs, e.calm g = true := fun e he => Event.calm_of_quiet (hk e he)
  intro it hit
  rw [hr.2.1, (queueAfter_of_calm g evs mc.m_messageQueue hcalm).1] at hit
  rcases List.mem_append.mp hit with h1 | h1
  · exact h it h1
  · exact deferred_handlerCall_of_calm g evs hcalm it h1

/-- Delivering an inbound group message keeps the queue one of deferred
messages the design knows a handler for. -/
theorem deliver_queue_handlerCall (env : Env σ) (m : InboundGroupMessage)
    (mc : SimpleMessageCenter σ)
    (h : ∀ it ∈ mc.m_messageQueue, (it.handlerCall).isSome = true) :
    ∀ it ∈ (deliver env m mc).m_messageQueue, (it.handlerCall).isSome = true := by
  cases m with
  | text g s i ts tr x =>
    exact (Proceeds.processReceivedGroupMessageText env s i ts tr x
      (Proceeds.refl mc : Proceeds g mc mc)).queue_handlerCall h
  | image g s i ts tr x =>
    exact (Proceeds.processReceivedGroupMessageImage env s i ts tr x
      (Proceeds.refl mc : Proceeds g mc mc)).queue_handlerCall h
  | location g s i ts tr x =>
    exact (Proceeds.processReceivedGroupMessageLocation env s i ts tr x
      (Proceeds.refl mc : Proceeds g mc mc)).queue_handlerCall h
  | setImage g s i ts tr x =>
    exact (Proceeds.processReceivedGroupSetImage env s i ts tr x
      (Proceeds.refl mc : Proceeds g mc mc)).queue_handlerCall h
  | setTitle g s i ts tr x =>
    exact (Proceeds.processReceivedGroupSetTitle env s i ts tr x
      (Proceeds.refl mc : Proceeds g mc mc)).queue_handlerCall h
  | syncRequest g s i ts tr =>
    exact (Proceeds.processReceivedGroupSyncRequest env s i ts tr
      (Proceeds.refl mc : Proceeds g mc mc)).queue_handlerCall h
  | leave g s i ts tr =>
    exact (Proceeds.processReceivedGroupLeave env s i ts tr
      (Proceeds.refl mc : Proceeds g mc mc)).queue_handlerCall h
  | creation g s i ts tr x =>
    by_cases hdb : mc.m_storage.hasDatabase = true
    · simpa [deliver, SimpleMessageCenter.processReceivedGroupCreation, hdb] using h
    · by_cases hs : s = g.getOwner
      · obtain ⟨ack, evs, hr, hack, hk, -⟩ := processReceivedGroupCreation_recorded env g s i ts tr
          x mc (by simpa using hdb) hs
        intro it hit
        have hq : (deliver env (.creation g s i ts tr x) mc).m_messageQueue =
            queueAfter (mc.m_messageQueue.filter (fun m => !decide (m.group = g))) evs := by
          have h1 := hr.2.1
          rw [queueAfter_creation mc.m_messageQueue g _ ack evs hack] at h1
          exact h1
        rw [hq, (queueAfter_of_calm g evs _ hk).1] at hit
        rcases List.mem_append.mp hit with h1 | h1
        · exact h it (List.mem_filter.mp h1).1
        · exact deferred_handlerCall_of_calm g evs hk it h1
      · simpa [deliver, SimpleMessageCenter.processReceivedGroupCreation, hdb, hs] using h

/-- Along any inbound traffic the queue stays one of deferred messages the
design knows a handler for: one of the seven deferred types, with the payload
of its type.  In particular this holds from the empty queue on. -/
theorem deliverAll_queue_handlerCall (env : Env σ) (msgs : List InboundGroupMessage) :
    ∀ mc : SimpleMessageCenter σ,
      (∀ it ∈ mc.m_messageQueue, (it.handlerCall).isSome = true) →
      ∀ it ∈ (deliverAll env msgs mc).m_messageQueue, (it.handlerCall).isSome = true := by
  induction msgs with
  | nil => exact fun mc h => h
  | cons m rest ih =>
    intro mc h
    exact ih (deliver env m mc) (deliver_queue_handlerCall env m mc h)

end wellFormedQueue

/-! ### Properties of the engine -/

/-- C1, the code at the failing input: storage is available (`hasDatabase()`
is true), `groupG` is known and the sender `3` is one of its members, and
`processReceivedGroupMessageText` returns at its first guard: it records no
call at all (no `storeReceivedGroupMessageText`) and leaves the state as it
was. -/
theorem processReceivedGroupMessageText_available_discards :
    (freshCenter true false dbKnown).m_storage.hasDatabase = true ∧
    memoryEnv.hasGroup dbKnown groupG = true ∧
    3 ∈ memoryEnv.getGroupMembers dbKnown groupG false ∧
    processReceivedGroupMessageText memoryEnv groupG 3 55 10 11 "hi" (freshCenter true false dbKnown)
      = freshCenter true false dbKnown ∧
    (processReceivedGroupMessageText memoryEnv groupG 3 55 10 11 "hi"
      (freshCenter true false dbKnown)).trace = [] := by
  refine ⟨rfl, rfl, by decide, rfl, rfl⟩

/-- C2, the code at the failing input: with `hasDatabase()` true, `groupG`
known and the sender `3` a member, the design's `resolve` answers ADMIT while
`checkAndFixGroupMembership` returns false. -/
theorem checkAndFixGroupMembership_differs_from_resolve :
    (resolve memoryEnv groupG 3 (freshCenter true false dbKnown)).1 = Decision.ADMIT ∧
    (checkAndFixGroupMembership memoryEnv groupG 3 (freshCenter true false dbKnown)).1 = false := by
  refine ⟨by decide, rfl⟩

/-- C3, the code at the failing input: storage is unavailable (`hasDatabase()`
is false), and `processReceivedGroupMessageText` for the unknown group
`groupG` goes on to query storage (`hasGroup`), to store a sent sync request
and to append the message to the deferred queue. -/
theorem processReceivedGroupMessageText_unavailable_proceeds :
    (freshCenter false false dbEmpty).m_storage.hasDatabase = false ∧
    (processReceivedGroupMessageText memoryEnv groupG 3 55 10 11 "hi"
      (freshCenter false false dbEmpty)).trace =
      [.call (.checkAndFixGroupMembership groupG 3),
       .query (.hasGroup groupG),
       .query .getSelfContact,
       .call (.requestSyncForGroupIfApplicable groupG),
       .queue (.hasMessageForGroup groupG),
       .call (.sendSyncRequest groupG),
       .query .getSelfContact,
       .storage (.storeSentGroupSyncRequest groupG 1000 false),
       .queue (.storeGroupMessage ⟨groupG, 3, 55, 10, 11, .TEXT, .string "hi"⟩)] ∧
    (processReceivedGroupMessageText memoryEnv groupG 3 55 10 11 "hi"
      (freshCenter false false dbEmpty)).m_messageQueue =
      [⟨groupG, 3, 55, 10, 11, .TEXT, .string "hi"⟩] := by
  refine ⟨rfl, by decide, by decide⟩

/-- C4: a SET_TITLE, SET_IMAGE or CREATION whose sender is not the group's
owner leaves the whole state as it was, whatever the storage state, the queue
and the options: no call is recorded (no storage mutation, no
acknowledgement, no sync request) and the deferred queue is neither appended
to nor drained. -/
theorem owner_only_messages_from_others_change_nothing {σ : Type} (env : Env σ)
    (mc : SimpleMessageCenter σ) (group : GroupId) (sender : ContactId) (messageId : MessageId)
    (timeSent timeReceived : MessageTime) (groupTitle : QString) (image : QByteArray)
    (members : Finset ContactId) (h : sender ≠ group.getOwner) :
    processReceivedGroupSetTitle env group sender messageId timeSent timeReceived groupTitle mc = mc ∧
    processReceivedGroupSetImage env group sender messageId timeSent timeReceived image mc = mc ∧
    processReceivedGroupCreation env group sender messageId timeSent timeReceived members mc
      = (mc, false) := by
  refine ⟨?_, ?_, ?_⟩
  · unfold processReceivedGroupSetTitle
    split_ifs <;> rfl
  · unfold processReceivedGroupSetImage
    split_ifs <;> rfl
  · unfold processReceivedGroupCreation
    split_ifs <;> rfl

/-- C4, at an input: contact `3` is not the owner of `groupG`. -/
theorem owner_only_messages_from_others_change_nothing_witness :
    (3 : ContactId) ≠ groupG.getOwner ∧
    (processReceivedGroupSetTitle memoryEnv groupG 3 55 10 11 "title"
        (freshCenter false true dbKnown) = freshCenter false true dbKnown ∧
     processReceivedGroupSetImage memoryEnv groupG 3 55 10 11 [1, 2]
        (freshCenter false true dbKnown) = freshCenter false true dbKnown ∧
     processReceivedGroupCreation memoryEnv groupG 3 55 10 11 {1, 3}
        (freshCenter false true dbKnown) = (freshCenter false true dbKnown, false)) :=
  ⟨by decide, owner_only_messages_from_others_change_nothing memoryEnv
    (freshCenter false true dbKnown) groupG 3 55 10 11 "title" [1, 2] {1, 3} (by decide)⟩

/-- C5: with `TRUST_OTHERS` off, for a group known to storage whose owner is
not self and a sender that is not among its members,
`checkAndFixGroupMembership` returns false, records no `storeNewGroup`, and
the only mutating storage call it can record is the storing of a sent sync
request for that group. -/
theorem checkAndFixGroupMembership_untrusted_defers {σ : Type} (env : Env σ)
    (mc : SimpleMessageCenter σ) (group : GroupId) (sender : ContactId)
    (hTrust : mc.m_optionMaster.BOOLEAN_TRUST_OTHERS = false)
    (hKnown : env.hasGroup mc.db group = true)
    (hOwner : group.getOwner ≠ env.getSelfContact mc.db)
    (hSender : sender ∉ env.getGroupMembers mc.db group false) :
    (checkAndFixGroupMembership env group sender mc).1 = false ∧
    (callsSince mc (checkAndFixGroupMembership env group sender mc).2).countP
      Event.isStoreNewGroup = 0 ∧
    ∀ c, Event.storage c ∈ callsSince mc (checkAndFixGroupMembership env group sender mc).2 →
      ∃ t q, c = .storeSentGroupSyncRequest group t q := by
  have hOwner2 : ¬ env.getSelfContact mc.db = group.getOwner := fun h => hOwner h.symm
  cases hdb : mc.m_storage.hasDatabase <;>
    cases hq : mc.m_messageQueue.hasMessageForGroup group <;>
    cases hw : mc.willQueue <;>
    simp_all [checkAndFixGroupMembership, requestSyncForGroupIfApplicable, sendSyncRequest, ask,
      enter, log, db, store, sentId, now, tick, send, callsSince, Event.isStoreNewGroup, willQueue]

/-- C5, at an input: `groupG` is known, owned by `2`, self is `1`, and the
sender `9` is not a member. -/
theorem checkAndFixGroupMembership_untrusted_defers_witness :
    (checkAndFixGroupMembership memoryEnv groupG 9 (freshCenter false false dbKnown)).1 = false ∧
    (callsSince (freshCenter false false dbKnown)
      (checkAndFixGroupMembership memoryEnv groupG 9 (freshCenter false false dbKnown)).2).countP
      Event.isStoreNewGroup = 0 ∧
    ∀ c, Event.storage c ∈ callsSince (freshCenter false false dbKnown)
        (checkAndFixGroupMembership memoryEnv groupG 9 (freshCenter false false dbKnown)).2 →
      ∃ t q, c = .storeSentGroupSyncRequest groupG t q :=
  checkAndFixGroupMembership_untrusted_defers memoryEnv (freshCenter false false dbKnown) groupG 9
    rfl rfl (by decide) (by decide)

/-- C7, the code at the failing input: storage is available (`hasDatabase()`
is true) and `groupG` (owner `2`, self `1`) is unknown to it; a text from `3`,
an image from `2` and a leave from `3` for `groupG` are processed in that
order, and then a CREATION for `groupG` from its owner that names `1`, `2` and
`3` members.  Each of the four handlers returns at its first guard: the state
is as before, no call is recorded, and so neither the CREATION nor any of the
three messages is applied to storage, with `TRUST_OTHERS` off and on alike.
With `hasDatabase()` false and `TRUST_OTHERS` off the same input runs through
the scenario: the three messages are deferred, and the CREATION handler stores
the CREATION and then applies the three in the order they arrived, leaving
nothing queued. -/
theorem creation_scenario_discarded_when_storage_available :
    (freshCenter true false dbEmpty).m_storage.hasDatabase = true ∧
    memoryEnv.hasGroup dbEmpty groupG = false ∧
    groupG.getOwner = 2 ∧
    deliverAll memoryEnv
        [.text groupG 3 55 10 11 "m1",
         .image groupG 2 56 12 13 [1, 2, 3],
         .leave groupG 3 57 14 15,
         .creation groupG 2 60 16 17 {1, 2, 3}]
        (freshCenter true false dbEmpty) = freshCenter true false dbEmpty ∧
    (deliverAll memoryEnv
        [.text groupG 3 55 10 11 "m1",
         .image groupG 2 56 12 13 [1, 2, 3],
         .leave groupG 3 57 14 15,
         .creation groupG 2 60 16 17 {1, 2, 3}]
        (freshCenter true false dbEmpty)).trace = [] ∧
    deliverAll memoryEnv
        [.text groupG 3 55 10 11 "m1",
         .image groupG 2 56 12 13 [1, 2, 3],
         .leave groupG 3 57 14 15,
         .creation groupG 2 60 16 17 {1, 2, 3}]
        (freshCenter true true dbEmpty) = freshCenter true true dbEmpty ∧
    (deliverAll memoryEnv
        [.text groupG 3 55 10 11 "m1",
         .image groupG 2 56 12 13 [1, 2, 3],
         .leave groupG 3 57 14 15]
        (freshCenter false false dbEmpty)).m_messageQueue =
      [⟨groupG, 3, 55, 10, 11, .TEXT, .string "m1"⟩,
       ⟨groupG, 2, 56, 12, 13, .IMAGE, .byteArray [1, 2, 3]⟩,
       ⟨groupG, 3, 57, 14, 15, .LEAVE, .null⟩] ∧
    (deliverAll memoryEnv
        [.text groupG 3 55 10 11 "m1",
         .image groupG 2 56 12 13 [1, 2, 3],
         .leave groupG 3 57 14 15,
         .creation groupG 2 60 16 17 {1, 2, 3}]
        (freshCenter false false dbEmpty)).trace.filterMap Event.applied? =
      [.storeReceivedGroupCreation groupG 2 60 16 17 {1, 2, 3},
       .storeReceivedGroupMessageText groupG 3 55 10 11 "m1",
       .storeReceivedGroupMessageImage groupG 2 56 12 13 [1, 2, 3] "",
       .storeReceivedGroupLeave groupG 3 57 14 15] ∧
    (deliverAll memoryEnv
        [.text groupG 3 55 10 11 "m1",
         .image groupG 2 56 12 13 [1, 2, 3],
         .leave groupG 3 57 14 15,
         .creation groupG 2 60 16 17 {1, 2, 3}]
        (freshCenter false false dbEmpty)).m_messageQueue = [] := by
  exact ⟨rfl, rfl, rfl, rfl, rfl, rfl, rfl, rfl, rfl⟩

/-- Behind the storage guard, with `TRUST_OTHERS` on: `groupG` (owner `2`,
self `1`) is unknown to storage; three texts for it are processed in order and
then a CREATION from its owner.  With `hasDatabase()` false, the state in
which the handlers let messages through, each text is applied on arrival, so
the three `storeReceivedGroupMessageText` calls come before the
`storeReceivedGroupCreation` call.  With `hasDatabase()` true every one of the
four handlers returns at its first guard, so nothing is applied at all. -/
theorem messages_applied_before_creation :
    memoryEnv.hasGroup dbEmpty groupG = false ∧
    ((deliverAll memoryEnv
        [.text groupG 3 55 10 11 "m1",
         .text groupG 3 56 12 13 "m2",
         .text groupG 3 57 14 15 "m3",
         .creation groupG 2 60 16 17 {1, 2, 3}]
        (freshCenter false true dbEmpty)).trace.filterMap Event.applied?) =
      [.storeReceivedGroupMessageText groupG 3 55 10 11 "m1",
       .storeReceivedGroupMessageText groupG 3 56 12 13 "m2",
       .storeReceivedGroupMessageText groupG 3 57 14 15 "m3",
       .storeReceivedGroupCreation groupG 2 60 16 17 {1, 2, 3}] ∧
    (deliverAll memoryEnv
        [.text groupG 3 55 10 11 "m1",
         .text groupG 3 56 12 13 "m2",
         .text groupG 3 57 14 15 "m3",
         .creation groupG 2 60 16 17 {1, 2, 3}]
        (freshCenter true true dbEmpty)).trace = [] := by
  refine ⟨rfl, rfl, rfl⟩

/-- Behind the storage guard, for any storage back end and any number of
queued entries: when a CREATION for `group` is applied (it reaches
`storeReceivedGroupCreation`) while the deferred queue holds entries for
`group`, and each of these entries, when its turn in the replay comes, is
admitted (storage, after the CREATION and the earlier entries were stored,
knows the group and has the entry's sender among its members), then the
`storeReceivedGroup*` calls of the handler are the CREATION's own followed by
those of the queued entries, one each, in the order they were queued; nothing
is deferred again and the call does not end with an exception. -/
theorem creation_applies_deferred_in_order {σ : Type} (env : Env σ) (group : GroupId)
    (sender : ContactId) (messageId : MessageId) (timeSent timeReceived : MessageTime)
    (members : Finset ContactId) (mc : SimpleMessageCenter σ)
    (hApplied : Event.storage
        (.storeReceivedGroupCreation group sender messageId timeSent timeReceived members) ∈
      callsSince mc
        (processReceivedGroupCreation env group sender messageId timeSent timeReceived members mc).1)
    (hAdmitted : admittedInTurn env
      (env.perform mc.db
        (.storeReceivedGroupCreation group sender messageId timeSent timeReceived members))
      (mc.m_messageQueue.filter (fun m => decide (m.group = group)))) :
    ((callsSince mc
        (processReceivedGroupCreation env group sender messageId timeSent timeReceived members
          mc).1).filterMap Event.applied?).map some =
      some (.storeReceivedGroupCreation group sender messageId timeSent timeReceived members) ::
        (mc.m_messageQueue.filter (fun m => decide (m.group = group))).map
          (ReceivedGroupMessage.storeCall? env) ∧
    (callsSince mc
        (processReceivedGroupCreation env group sender messageId timeSent timeReceived members
          mc).1).filterMap Event.deferred? = [] ∧
    (processReceivedGroupCreation env group sender messageId timeSent timeReceived members mc).2
      = false := by
  obtain ⟨hdb, hs⟩ := processReceivedGroupCreation_applied env group sender messageId timeSent
    timeReceived members mc _ hApplied
  subst hs
  obtain ⟨ack, h123, hack⟩ := creation_until_replay_recorded env group group.getOwner messageId
    timeSent timeReceived members mc
  have hL : ∀ it ∈ (mc.m_messageQueue.getAndRemoveQueuedMessages group).1, it.group = group :=
    fun it hit => by simpa using (List.mem_filter.mp hit).2
  obtain ⟨evs, h4, -, -⟩ := replayQueuedMessages_recorded env group
    (mc.m_messageQueue.getAndRemoveQueuedMessages group).1
    (((mc.store env (.storeReceivedGroupCreation group group.getOwner messageId timeSent
      timeReceived members)).acknowledge group.getOwner messageId).drain group) hL
  have hdb3 : (((mc.store env (.storeReceivedGroupCreation group group.getOwner messageId timeSent
      timeReceived members)).acknowledge group.getOwner messageId).drain group).m_storage.hasDatabase
      = false := h123.2.2.2.1.trans hdb
  have hdbs : (((mc.store env (.storeReceivedGroupCreation group group.getOwner messageId timeSent
      timeReceived members)).acknowledge group.getOwner messageId).drain group).db =
      env.perform mc.db (.storeReceivedGroupCreation group group.getOwner messageId timeSent
        timeReceived members) :=
    acknowledge_db _ _ _
  obtain ⟨h1, h2, h3⟩ := replayQueuedMessages_admitted env group
    (mc.m_messageQueue.getAndRemoveQueuedMessages group).1
    (((mc.store env (.storeReceivedGroupCreation group group.getOwner messageId timeSent
      timeReceived members)).acknowledge group.getOwner messageId).drain group) hL hdb3
    (hdbs ▸ hAdmitted)
  rw [processReceivedGroupCreation_eq env group messageId timeSent timeReceived members mc hdb]
  rw [h4.callsSince] at h1 h2
  rw [(h123.append h4).callsSince]
  refine ⟨?_, ?_, h3⟩
  · have hpre : (Event.storage (.storeReceivedGroupCreation group group.getOwner messageId
        timeSent timeReceived members) ::
        (ack ++ [Event.queue (.getAndRemoveQueuedMessages group)])).filterMap Event.applied? =
        [.storeReceivedGroupCreation group group.getOwner messageId timeSent timeReceived
          members] := by
      rcases hack with rfl | rfl <;> simp [Event.applied?, StorageCall.isReceivedGroup]
    rw [List.filterMap_append, List.map_append, hpre, h1]
    rfl
  · have hpre : (Event.storage (.storeReceivedGroupCreation group group.getOwner messageId
        timeSent timeReceived members) ::
        (ack ++ [Event.queue (.getAndRemoveQueuedMessages group)])).filterMap Event.deferred? =
        [] := by
      rcases hack with rfl | rfl <;> simp [Event.deferred?]
    rw [List.filterMap_append, hpre, h2]
    rfl

/-- The previous theorem at an input: `groupG` is unknown and `TRUST_OTHERS` is off, so
a text from `3`, an image from `2` and a leave from `3` for `groupG` were
deferred in that order; the owner's CREATION names `1`, `2` and `3` members;
the three are then applied in order, after the CREATION's own store. -/
theorem creation_applies_deferred_in_order_witness :
    (Event.storage (.storeReceivedGroupCreation groupG 2 60 16 17 {1, 2, 3}) ∈
      callsSince centerWithDeferred
        (processReceivedGroupCreation memoryEnv groupG 2 60 16 17 {1, 2, 3} centerWithDeferred).1) ∧
    admittedInTurn memoryEnv
      (memoryEnv.perform centerWithDeferred.db (.storeReceivedGroupCreation groupG 2 60 16 17 {1, 2, 3}))
      (centerWithDeferred.m_messageQueue.filter (fun m => decide (m.group = groupG))) ∧
    (((callsSince centerWithDeferred
        (processReceivedGroupCreation memoryEnv groupG 2 60 16 17 {1, 2, 3}
          centerWithDeferred).1).filterMap Event.applied?).map some =
      some (.storeReceivedGroupCreation groupG 2 60 16 17 {1, 2, 3}) ::
        (centerWithDeferred.m_messageQueue.filter (fun m => decide (m.group = groupG))).map
          (ReceivedGroupMessage.storeCall? memoryEnv) ∧
    (callsSince centerWithDeferred
        (processReceivedGroupCreation memoryEnv groupG 2 60 16 17 {1, 2, 3}
          centerWithDeferred).1).filterMap Event.deferred? = [] ∧
    (processReceivedGroupCreation memoryEnv groupG 2 60 16 17 {1, 2, 3} centerWithDeferred).2
      = false) :=
  have h1 : Event.storage (.storeReceivedGroupCreation groupG 2 60 16 17 {1, 2, 3}) ∈
      callsSince centerWithDeferred
        (processReceivedGroupCreation memoryEnv groupG 2 60 16 17 {1, 2, 3} centerWithDeferred).1 :=
    List.mem_cons_self _ _
  have h2 : admittedInTurn memoryEnv
      (memoryEnv.perform centerWithDeferred.db
        (.storeReceivedGroupCreation groupG 2 60 16 17 {1, 2, 3}))
      (centerWithDeferred.m_messageQueue.filter (fun m => decide (m.group = groupG))) :=
    ⟨_, rfl, by decide, rfl, by decide, _, rfl, by decide, rfl, by decide, _, rfl, by decide, rfl,
      by decide, trivial⟩
  ⟨h1, h2, creation_applies_deferred_in_order memoryEnv groupG 2 60 16 17 {1, 2, 3}
    centerWithDeferred h1 h2⟩

/-- The input of the previous theorem, evaluated: the calls that apply inbound
group messages to storage, in the order made. -/
theorem creation_applies_deferred_example :
    (callsSince centerWithDeferred
        (processReceivedGroupCreation memoryEnv groupG 2 60 16 17 {1, 2, 3}
          centerWithDeferred).1).filterMap Event.applied? =
      [.storeReceivedGroupCreation groupG 2 60 16 17 {1, 2, 3},
       .storeReceivedGroupMessageText groupG 3 55 10 11 "hi",
       .storeReceivedGroupMessageImage groupG 2 57 12 13 [1, 2, 3] "",
       .storeReceivedGroupLeave groupG 3 58 14 15] := by
  rfl

/-- C8: whenever `processReceivedGroupCreation` applies a CREATION for `group`
(it reaches `storeReceivedGroupCreation`) and every entry queued for `group`
is a well-formed deferred message (one of the seven deferred types, with the
payload of its type), the handler invocations it makes before it returns are
exactly the handlers of the entries queued for `group`, each with the entry's
group, sender, message id, times and payload, once, in the order the entries
were queued; the call does not end with an exception; and the entries of
other groups are what they were. -/
theorem creation_replays_queued_entries_in_order {σ : Type} (env : Env σ) (group : GroupId)
    (sender : ContactId) (messageId : MessageId) (timeSent timeReceived : MessageTime)
    (members : Finset ContactId) (mc : SimpleMessageCenter σ)
    (hApplied : Event.storage
        (.storeReceivedGroupCreation group sender messageId timeSent timeReceived members) ∈
      callsSince mc
        (processReceivedGroupCreation env group sender messageId timeSent timeReceived members mc).1)
    (hTyped : ∀ it ∈ mc.m_messageQueue, it.group = group → it.handlerCall.isSome = true) :
    ((callsSince mc
        (processReceivedGroupCreation env group sender messageId timeSent timeReceived members
          mc).1).filterMap Event.replayed?).map some =
      (mc.m_messageQueue.filter (fun m => decide (m.group = group))).map
        ReceivedGroupMessage.handlerCall ∧
    (processReceivedGroupCreation env group sender messageId timeSent timeReceived members mc).2
      = false ∧
    (processReceivedGroupCreation env group sender messageId timeSent timeReceived members
        mc).1.m_messageQueue.filter (fun m => !decide (m.group = group)) =
      mc.m_messageQueue.filter (fun m => !decide (m.group = group)) := by
  obtain ⟨hdb, hs⟩ := processReceivedGroupCreation_applied env group sender messageId timeSent
    timeReceived members mc _ hApplied
  obtain ⟨ack, evs, hr, hack, hk, hw⟩ := processReceivedGroupCreation_recorded env group sender
    messageId timeSent timeReceived members mc hdb hs
  obtain ⟨hcalls, hflag⟩ := hw hTyped
  obtain ⟨hq, hgrp⟩ := queueAfter_of_calm group evs
    (mc.m_messageQueue.filter (fun m => !decide (m.group = group))) hk
  have hackq : queueAfter mc.m_messageQueue ack = mc.m_messageQueue := by
    rcases hack with rfl | rfl <;> simp [queueAfter, queueStep]
  refine ⟨?_, hflag, ?_⟩
  · have hsome := map_some_filterMap ReceivedGroupMessage.handlerCall
      (mc.m_messageQueue.filter (fun m => decide (m.group = group)))
      (fun it hit => by
        have hm := List.mem_filter.mp hit
        exact hTyped it hm.1 (by simpa using hm.2))
    rw [hr.callsSince, ← hsome, ← hcalls]
    simp [List.filterMap_append, (ack_filterMap hack).1, Event.replayed?]
  · have hfinal := hr.2.1
    have hstep : queueAfter mc.m_messageQueue
        (Event.storage
            (.storeReceivedGroupCreation group sender messageId timeSent timeReceived members) ::
          (ack ++ Event.queue (.getAndRemoveQueuedMessages group) :: evs)) =
        queueAfter (mc.m_messageQueue.filter (fun m => !decide (m.group = group))) evs := by
      have h1 : queueAfter mc.m_messageQueue
          (Event.storage
              (.storeReceivedGroupCreation group sender messageId timeSent timeReceived members) ::
            (ack ++ Event.queue (.getAndRemoveQueuedMessages group) :: evs)) =
          queueAfter (queueAfter mc.m_messageQueue ack)
            (Event.queue (.getAndRemoveQueuedMessages group) :: evs) := by
        rw [← queueAfter_append]
        rfl
      rw [h1, hackq]
      rfl
    rw [hfinal, hstep, hq, List.filter_append]
    have hnone : (evs.filterMap Event.deferred?).filter (fun m => !decide (m.group = group)) = [] := by
      rw [List.filter_eq_nil_iff]
      intro m hm
      simp [hgrp m hm]
    rw [hnone]
    simp


/-- C8, at an input: the queue holds a text, an image and a leave for
`groupG` and, between them, a text for `groupH`; a CREATION for `groupG` from
its owner `2` is applied. -/
theorem creation_replays_queued_entries_in_order_witness :
    (Event.storage (.storeReceivedGroupCreation groupG 2 60 16 17 {1, 2, 3}) ∈
      callsSince centerWithDeferred
        (processReceivedGroupCreation memoryEnv groupG 2 60 16 17 {1, 2, 3} centerWithDeferred).1) ∧
    (∀ it ∈ centerWithDeferred.m_messageQueue, it.group = groupG → it.handlerCall.isSome = true) ∧
    (((callsSince centerWithDeferred
        (processReceivedGroupCreation memoryEnv groupG 2 60 16 17 {1, 2, 3}
          centerWithDeferred).1).filterMap Event.replayed?).map some =
      (centerWithDeferred.m_messageQueue.filter (fun m => decide (m.group = groupG))).map
        ReceivedGroupMessage.handlerCall ∧
    (processReceivedGroupCreation memoryEnv groupG 2 60 16 17 {1, 2, 3} centerWithDeferred).2
      = false ∧
    (processReceivedGroupCreation memoryEnv groupG 2 60 16 17 {1, 2, 3}
        centerWithDeferred).1.m_messageQueue.filter (fun m => !decide (m.group = groupG)) =
      centerWithDeferred.m_messageQueue.filter (fun m => !decide (m.group = groupG))) :=
  have h1 : Event.storage (.storeReceivedGroupCreation groupG 2 60 16 17 {1, 2, 3}) ∈
      callsSince centerWithDeferred
        (processReceivedGroupCreation memoryEnv groupG 2 60 16 17 {1, 2, 3} centerWithDeferred).1 :=
    List.mem_cons_self _ _
  have h2 : ∀ it ∈ centerWithDeferred.m_messageQueue, it.group = groupG →
      it.handlerCall.isSome = true := by decide
  ⟨h1, h2, creation_replays_queued_entries_in_order memoryEnv groupG 2 60 16 17 {1, 2, 3}
    centerWithDeferred h1 h2⟩

/-- The input of the previous theorem, evaluated: the handlers called are those
of the three entries of `groupG`, in the order queued, and the entry of
`groupH` stays. -/
theorem creation_replay_example :
    centerWithDeferred.m_messageQueue =
      [⟨groupG, 3, 55, 10, 11, .TEXT, .string "hi"⟩,
       ⟨groupH, 3, 56, 10, 11, .TEXT, .string "other"⟩,
       ⟨groupG, 2, 57, 12, 13, .IMAGE, .byteArray [1, 2, 3]⟩,
       ⟨groupG, 3, 58, 14, 15, .LEAVE, .null⟩] ∧
    (callsSince centerWithDeferred
        (processReceivedGroupCreation memoryEnv groupG 2 60 16 17 {1, 2, 3}
          centerWithDeferred).1).filterMap Event.replayed? =
      [.processReceivedGroupMessageText groupG 3 55 10 11 "hi",
       .processReceivedGroupMessageImage groupG 2 57 12 13 [1, 2, 3],
       .processReceivedGroupLeave groupG 3 58 14 15] ∧
    (processReceivedGroupCreation memoryEnv groupG 2 60 16 17 {1, 2, 3}
        centerWithDeferred).1.m_messageQueue =
      [⟨groupH, 3, 56, 10, 11, .TEXT, .string "other"⟩] := by
  refine ⟨by decide, by decide, by decide⟩


/-- C10: along any sequence of inbound group messages, started in any state,
the deferred queue is at every moment what the recorded calls on it have left
of it, and every call that issues a sync request for a group `G` (the call of
`sendSyncRequest(G)`, the storing of the sent request, its handing to the
transport) is made at a moment when the queue holds no entry for `G`: while
an entry for `G` is queued, no sync request for `G` is issued. -/
theorem sync_request_only_when_nothing_queued {σ : Type} (env : Env σ)
    (msgs : List InboundGroupMessage) (mc : SimpleMessageCenter σ) (G : GroupId) :
    (deliverAll env msgs mc).m_messageQueue =
      queueAfter mc.m_messageQueue (callsSince mc (deliverAll env msgs mc)) ∧
    ∀ (pre : List Event) (e : Event) (post : List Event),
      callsSince mc (deliverAll env msgs mc) = pre ++ e :: post →
      e.isSyncRequestFor G = true →
      (queueAfter mc.m_messageQueue pre).hasMessageForGroup G = false := by
  obtain ⟨evs, hr⟩ := deliverAll_recorded env msgs mc
  rw [hr.callsSince]
  refine ⟨hr.2.1, ?_⟩
  intro pre e post hsplit he
  have hs := hr.2.2.1 G
  rw [hsplit, syncOnlyWhenNothingQueued_append] at hs
  exact hs.2.1 he

/-- C10, at an input: a text for the unknown group `groupG` arrives with
nothing queued; the sync request is issued, at a moment when the queue holds
no entry for `groupG`. -/
theorem sync_request_only_when_nothing_queued_witness :
    callsSince (freshCenter false false dbEmpty)
        (deliverAll memoryEnv [.text groupG 3 55 10 11 "hi"] (freshCenter false false dbEmpty)) =
      [.call (.checkAndFixGroupMembership groupG 3),
       .query (.hasGroup groupG),
       .query .getSelfContact,
       .call (.requestSyncForGroupIfApplicable groupG),
       .queue (.hasMessageForGroup groupG)] ++
      Event.call (.sendSyncRequest groupG) ::
      [.query .getSelfContact,
       .storage (.storeSentGroupSyncRequest groupG 1000 false),
       .queue (.storeGroupMessage ⟨groupG, 3, 55, 10, 11, .TEXT, .string "hi"⟩)] ∧
    (Event.call (.sendSyncRequest groupG)).isSyncRequestFor groupG = true ∧
    (queueAfter (freshCenter false false dbEmpty).m_messageQueue
      [.call (.checkAndFixGroupMembership groupG 3),
       .query (.hasGroup groupG),
       .query .getSelfContact,
       .call (.requestSyncForGroupIfApplicable groupG),
       .queue (.hasMessageForGroup groupG)]).hasMessageForGroup groupG = false :=
  have h1 : callsSince (freshCenter false false dbEmpty)
        (deliverAll memoryEnv [.text groupG 3 55 10 11 "hi"] (freshCenter false false dbEmpty)) =
      [.call (.checkAndFixGroupMembership groupG 3),
       .query (.hasGroup groupG),
       .query .getSelfContact,
       .call (.requestSyncForGroupIfApplicable groupG),
       .queue (.hasMessageForGroup groupG)] ++
      Event.call (.sendSyncRequest groupG) ::
      [.query .getSelfContact,
       .storage (.storeSentGroupSyncRequest groupG 1000 false),
       .queue (.storeGroupMessage ⟨groupG, 3, 55, 10, 11, .TEXT, .string "hi"⟩)] := by decide
  have h2 : (Event.call (.sendSyncRequest groupG)).isSyncRequestFor groupG = true := by decide
  ⟨h1, h2, (sync_request_only_when_nothing_queued memoryEnv [.text groupG 3 55 10 11 "hi"]
    (freshCenter false false dbEmpty) groupG).2 _ _ _ h1 h2⟩

/-- The throttle at work: with one text for `groupG` already queued, three
more messages for `groupG` arrive; every one of them is queued and none of
the calls made issues a sync request for `groupG`. -/
theorem no_further_sync_request_example :
    centerWithOneDeferred.m_messageQueue.hasMessageForGroup groupG = true ∧
    (callsSince centerWithOneDeferred
        (deliverAll memoryEnv
          [.text groupG 3 56 12 13 "m2", .image groupG 4 57 14 15 [9], .leave groupG 3 58 16 17]
          centerWithOneDeferred)).filter (Event.isSyncRequestFor groupG) = [] ∧
    (deliverAll memoryEnv
        [.text groupG 3 56 12 13 "m2", .image groupG 4 57 14 15 [9], .leave groupG 3 58 16 17]
        centerWithOneDeferred).m_messageQueue.length = 4 := by
  refine ⟨by decide, by decide, by decide⟩


/-! ### Frames of the primitive steps -/

section frame

variable {σ : Type} (env : Env σ) (mc : SimpleMessageCenter σ)

@[simp] theorem trace_log (e : Event) : (mc.log e).trace = mc.trace ++ [e] := rfl
@[simp] theorem trace_ask (q : StorageQuery) : (mc.ask q).trace = mc.trace ++ [.query q] := rfl
@[simp] theorem trace_store (c : StorageCall) : (mc.store env c).trace = mc.trace ++ [.storage c] := rfl
@[simp] theorem trace_send (c : TransportCall) : (mc.send c).trace = mc.trace ++ [.transport c] := rfl
@[simp] theorem trace_enter (c : MethodCall) : (mc.enter c).trace = mc.trace ++ [.call c] := rfl
@[simp] theorem trace_emit (s : Signal) : (mc.emit s).trace = mc.trace ++ [.signal s] := rfl
@[simp] theorem trace_tick : mc.tick.trace = mc.trace := rfl

@[simp] theorem willQueue_log (e : Event) : (mc.log e).willQueue = mc.willQueue := rfl
@[simp] theorem willQueue_ask (q : StorageQuery) : (mc.ask q).willQueue = mc.willQueue := rfl
@[simp] theorem willQueue_store (c : StorageCall) : (mc.store env c).willQueue = mc.willQueue := rfl
@[simp] theorem willQueue_send (c : TransportCall) : (mc.send c).willQueue = mc.willQueue := rfl
@[simp] theorem willQueue_enter (c : MethodCall) : (mc.enter c).willQueue = mc.willQueue := rfl
@[simp] theorem willQueue_emit (s : Signal) : (mc.emit s).willQueue = mc.willQueue := rfl
@[simp] theorem willQueue_tick : mc.tick.willQueue = mc.willQueue := rfl

@[simp] theorem db_log (e : Event) : (mc.log e).db = mc.db := rfl
@[simp] theorem db_ask (q : StorageQuery) : (mc.ask q).db = mc.db := rfl
@[simp] theorem db_store (c : StorageCall) : (mc.store env c).db = env.perform mc.db c := rfl
@[simp] theorem db_send (c : TransportCall) : (mc.send c).db = mc.db := rfl
@[simp] theorem db_enter (c : MethodCall) : (mc.enter c).db = mc.db := rfl
@[simp] theorem db_emit (s : Signal) : (mc.emit s).db = mc.db := rfl
@[simp] theorem db_tick : mc.tick.db = mc.db := rfl

@[simp] theorem hasDatabase_log (e : Event) :
    (mc.log e).m_storage.hasDatabase = mc.m_storage.hasDatabase := rfl
@[simp] theorem hasDatabase_ask (q : StorageQuery) :
    (mc.ask q).m_storage.hasDatabase = mc.m_storage.hasDatabase := rfl
@[simp] theorem hasDatabase_store (c : StorageCall) :
    (mc.store env c).m_storage.hasDatabase = mc.m_storage.hasDatabase := rfl
@[simp] theorem hasDatabase_send (c : TransportCall) :
    (mc.send c).m_storage.hasDatabase = mc.m_storage.hasDatabase := rfl
@[simp] theorem hasDatabase_enter (c : MethodCall) :
    (mc.enter c).m_storage.hasDatabase = mc.m_storage.hasDatabase := rfl
@[simp] theorem hasDatabase_emit (s : Signal) :
    (mc.emit s).m_storage.hasDatabase = mc.m_storage.hasDatabase := rfl
@[simp] theorem hasDatabase_tick : mc.tick.m_storage.hasDatabase = mc.m_storage.hasDatabase := rfl

@[simp] theorem queue_log (e : Event) : (mc.log e).m_messageQueue = mc.m_messageQueue := rfl
@[simp] theorem queue_ask (q : StorageQuery) : (mc.ask q).m_messageQueue = mc.m_messageQueue := rfl
@[simp] theorem queue_store (c : StorageCall) :
    (mc.store env c).m_messageQueue = mc.m_messageQueue := rfl
@[simp] theorem queue_send (c : TransportCall) : (mc.send c).m_messageQueue = mc.m_messageQueue := rfl
@[simp] theorem queue_enter (c : MethodCall) : (mc.enter c).m_messageQueue = mc.m_messageQueue := rfl
@[simp] theorem queue_emit (s : Signal) : (mc.emit s).m_messageQueue = mc.m_messageQueue := rfl
@[simp] theorem queue_tick : mc.tick.m_messageQueue = mc.m_messageQueue := rfl

@[simp] theorem options_log (e : Event) : (mc.log e).m_optionMaster = mc.m_optionMaster := rfl
@[simp] theorem options_ask (q : StorageQuery) : (mc.ask q).m_optionMaster = mc.m_optionMaster := rfl
@[simp] theorem options_store (c : StorageCall) :
    (mc.store env c).m_optionMaster = mc.m_optionMaster := rfl
@[simp] theorem options_send (c : TransportCall) : (mc.send c).m_optionMaster = mc.m_optionMaster := rfl
@[simp] theorem options_enter (c : MethodCall) : (mc.enter c).m_optionMaster = mc.m_optionMaster := rfl
@[simp] theorem options_emit (s : Signal) : (mc.emit s).m_optionMaster = mc.m_optionMaster := rfl
@[simp] theorem options_tick : mc.tick.m_optionMaster = mc.m_optionMaster := rfl

@[simp] theorem acceptor_log (e : Event) :
    (mc.log e).m_networkSentMessageAcceptor = mc.m_networkSentMessageAcceptor := rfl
@[simp] theorem acceptor_ask (q : StorageQuery) :
    (mc.ask q).m_networkSentMessageAcceptor = mc.m_networkSentMessageAcceptor := rfl
@[simp] theorem acceptor_store (c : StorageCall) :
    (mc.store env c).m_networkSentMessageAcceptor = mc.m_networkSentMessageAcceptor := rfl
@[simp] theorem acceptor_send (c : TransportCall) :
    (mc.send c).m_networkSentMessageAcceptor = mc.m_networkSentMessageAcceptor := rfl
@[simp] theorem acceptor_enter (c : MethodCall) :
    (mc.enter c).m_networkSentMessageAcceptor = mc.m_networkSentMessageAcceptor := rfl
@[simp] theorem acceptor_emit (s : Signal) :
    (mc.emit s).m_networkSentMessageAcceptor = mc.m_networkSentMessageAcceptor := rfl
@[simp] theorem acceptor_tick :
    mc.tick.m_networkSentMessageAcceptor = mc.m_networkSentMessageAcceptor := rfl

@[simp] theorem ticks_log (e : Event) : (mc.log e).ticks = mc.ticks := rfl
@[simp] theorem ticks_ask (q : StorageQuery) : (mc.ask q).ticks = mc.ticks := rfl
@[simp] theorem ticks_store (c : StorageCall) : (mc.store env c).ticks = mc.ticks := rfl
@[simp] theorem ticks_send (c : TransportCall) : (mc.send c).ticks = mc.ticks := rfl
@[simp] theorem ticks_enter (c : MethodCall) : (mc.enter c).ticks = mc.ticks := rfl
@[simp] theorem ticks_emit (s : Signal) : (mc.emit s).ticks = mc.ticks := rfl
@[simp] theorem ticks_tick : mc.tick.ticks = mc.ticks + 1 := rfl

@[simp] theorem now_eq : mc.now env = env.timeAt mc.ticks := rfl
@[simp] theorem sentId_eq (c : StorageCall) : mc.sentId env c = env.messageIdOf mc.db c := rfl

theorem willQueue_iff :
    mc.willQueue = true ↔ ∃ a, mc.m_networkSentMessageAcceptor = some a ∧ a.isConnected = true := by
  unfold SimpleMessageCenter.willQueue
  cases mc.m_networkSentMessageAcceptor <;> simp

end frame

section frameAcknowledge

variable {σ : Type} (mc : SimpleMessageCenter σ) (sender : ContactId) (messageId : MessageId)

@[simp] theorem trace_acknowledge :
    (mc.acknowledge sender messageId).trace = mc.trace ++
      (if mc.m_networkSentMessageAcceptor.isSome then
        [Event.transport (.sendMessageReceivedAcknowledgement sender messageId)] else []) := by
  unfold SimpleMessageCenter.acknowledge
  cases mc.m_networkSentMessageAcceptor <;> simp

@[simp] theorem db_acknowledge : (mc.acknowledge sender messageId).db = mc.db := by
  unfold SimpleMessageCenter.acknowledge
  split <;> rfl

@[simp] theorem hasDatabase_acknowledge :
    (mc.acknowledge sender messageId).m_storage.hasDatabase = mc.m_storage.hasDatabase := by
  unfold SimpleMessageCenter.acknowledge
  split <;> rfl

@[simp] theorem willQueue_acknowledge :
    (mc.acknowledge sender messageId).willQueue = mc.willQueue := by
  unfold SimpleMessageCenter.acknowledge
  split <;> rfl

@[simp] theorem ticks_acknowledge : (mc.acknowledge sender messageId).ticks = mc.ticks := by
  unfold SimpleMessageCenter.acknowledge
  split <;> rfl

@[simp] theorem queue_acknowledge :
    (mc.acknowledge sender messageId).m_messageQueue = mc.m_messageQueue := by
  unfold SimpleMessageCenter.acknowledge
  split <;> rfl

@[simp] theorem acceptor_acknowledge :
    (mc.acknowledge sender messageId).m_networkSentMessageAcceptor =
      mc.m_networkSentMessageAcceptor := by
  unfold SimpleMessageCenter.acknowledge
  split <;> rfl

@[simp] theorem options_acknowledge :
    (mc.acknowledge sender messageId).m_optionMaster = mc.m_optionMaster := by
  unfold SimpleMessageCenter.acknowledge
  split <;> rfl

end frameAcknowledge

/-! ### The group setup resend -/

section resend

variable {σ : Type} (env : Env σ) (s : SimpleMessageCenter σ) (group : GroupId)
  (recipients : Finset ContactId) (applyOperationInDatabase : Bool)

/-- What `sendGroupCreation` does once both of its guards are passed. -/
theorem sendGroupCreation_passed (members : Finset ContactId)
    (hdb : s.m_storage.hasDatabase = false) (hSelf : env.getSelfContact s.db = group.getOwner) :
    (sendGroupCreation env group members recipients applyOperationInDatabase s).2.trace =
      s.trace ++ ([.query .getSelfContact,
        .storage (.storeSentGroupCreation group (env.timeAt s.ticks) s.willQueue members
          applyOperationInDatabase)] ++
        if s.willQueue = true then
          [.transport (.processSentGroupCreation group recipients
            (env.messageIdOf s.db (.storeSentGroupCreation group (env.timeAt s.ticks) s.willQueue
              members applyOperationInDatabase)) (env.timeAt s.ticks) members)]
        else []) ∧
    (sendGroupCreation env group members recipients applyOperationInDatabase s).2.db =
      env.perform s.db (.storeSentGroupCreation group (env.timeAt s.ticks) s.willQueue members
        applyOperationInDatabase) ∧
    (sendGroupCreation env group members recipients applyOperationInDatabase s).2.ticks =
      s.ticks + 1 ∧
    (sendGroupCreation env group members recipients applyOperationInDatabase s).2.m_storage.hasDatabase
      = false ∧
    (sendGroupCreation env group members recipients applyOperationInDatabase s).2.willQueue =
      s.willQueue := by
  simp only [sendGroupCreation]
  rw [if_neg (by simp [hdb]), if_neg (by simp [hSelf])]
  cases hw : s.willQueue <;> simp [hw, hdb]

/-- What `sendGroupTitle` does once both of its guards are passed. -/
theorem sendGroupTitle_passed (title : QString)
    (hdb : s.m_storage.hasDatabase = false) (hSelf : env.getSelfContact s.db = group.getOwner) :
    (sendGroupTitle env group title recipients applyOperationInDatabase s).2.trace =
      s.trace ++ ([.query .getSelfContact,
        .storage (.storeSentGroupSetTitle group (env.timeAt s.ticks) s.willQueue title
          applyOperationInDatabase)] ++
        if s.willQueue = true then
          [.transport (.processSentGroupSetTitle group recipients
            (env.messageIdOf s.db (.storeSentGroupSetTitle group (env.timeAt s.ticks) s.willQueue
              title applyOperationInDatabase)) (env.timeAt s.ticks) title)]
        else []) ∧
    (sendGroupTitle env group title recipients applyOperationInDatabase s).2.db =
      env.perform s.db (.storeSentGroupSetTitle group (env.timeAt s.ticks) s.willQueue title
        applyOperationInDatabase) ∧
    (sendGroupTitle env group title recipients applyOperationInDatabase s).2.ticks = s.ticks + 1 ∧
    (sendGroupTitle env group title recipients applyOperationInDatabase s).2.m_storage.hasDatabase
      = false ∧
    (sendGroupTitle env group title recipients applyOperationInDatabase s).2.willQueue =
      s.willQueue := by
  simp only [sendGroupTitle]
  rw [if_neg (by simp [hdb]), if_neg (by simp [hSelf])]
  cases hw : s.willQueue <;> simp [hw, hdb]

/-- What `sendGroupImage` does once both of its guards are passed. -/
theorem sendGroupImage_passed (image : QByteArray)
    (hdb : s.m_storage.hasDatabase = false) (hSelf : env.getSelfContact s.db = group.getOwner) :
    (sendGroupImage env group image recipients applyOperationInDatabase s).2.trace =
      s.trace ++ ([.query .getSelfContact,
        .storage (.storeSentGroupSetImage group (env.timeAt s.ticks) s.willQueue image
          applyOperationInDatabase)] ++
        if s.willQueue = true then
          [.transport (.processSentGroupSetImage group recipients
            (env.messageIdOf s.db (.storeSentGroupSetImage group (env.timeAt s.ticks) s.willQueue
              image applyOperationInDatabase)) (env.timeAt s.ticks) image)]
        else []) := by
  simp only [sendGroupImage]
  rw [if_neg (by simp [hdb]), if_neg (by simp [hSelf])]
  cases hw : s.willQueue <;> simp [hw, hdb]

end resend

section resendSetup

variable {σ : Type} (env : Env σ) (s : SimpleMessageCenter σ) (group : GroupId)
  (recipients : Finset ContactId)

/-- The calls `resendGroupSetup` records once its guard is passed, for the
owner of the group: CREATION and SET_TITLE always, SET_IMAGE when the group
data have an image that is available; each stored with
`applyOperationInDatabase = false` and handed to the transport acceptor,
with the recipients given, when the acceptor is connected. -/
theorem resendGroupSetup_passed (gd : GroupData)
    (hStable : ∀ d c, env.getSelfContact (env.perform d c) = env.getSelfContact d)
    (hdb : s.m_storage.hasDatabase = false) (hSelf : env.getSelfContact s.db = group.getOwner)
    (hgd : env.getGroupData s.db group true = gd) :
    ∃ i1 i2 i3, (resendGroupSetup env group recipients s).trace = s.trace ++
      ([.query (.getGroupData group true),
        .call (.sendGroupCreation group gd.members recipients false),
        .query .getSelfContact,
        .storage (.storeSentGroupCreation group (env.timeAt s.ticks) s.willQueue gd.members false)] ++
       (if s.willQueue = true then
          [.transport (.processSentGroupCreation group recipients i1 (env.timeAt s.ticks) gd.members)]
        else []) ++
       [.call (.sendGroupTitle group gd.title recipients false),
        .query .getSelfContact,
        .storage (.storeSentGroupSetTitle group (env.timeAt (s.ticks + 1)) s.willQueue gd.title
          false)] ++
       (if s.willQueue = true then
          [.transport (.processSentGroupSetTitle group recipients i2 (env.timeAt (s.ticks + 1))
            gd.title)]
        else []) ++
       (if gd.hasImage = true ∧ gd.image.isAvailable = true then
          [.call (.sendGroupImage group gd.image.getData recipients false),
           .query .getSelfContact,
           .storage (.storeSentGroupSetImage group (env.timeAt (s.ticks + 2)) s.willQueue
             gd.image.getData false)] ++
          (if s.willQueue = true then
            [.transport (.processSentGroupSetImage group recipients i3 (env.timeAt (s.ticks + 2))
              gd.image.getData)]
          else [])
        else [])) := by
  simp only [resendGroupSetup]
  rw [if_neg (by simp [hdb])]
  simp only [db_ask, hgd]
  obtain ⟨t1, d1, k1, h1, w1⟩ := sendGroupCreation_passed env
    ((s.ask (.getGroupData group true)).enter (.sendGroupCreation group gd.members recipients false))
    group recipients false gd.members (by simpa using hdb) (by simpa using hSelf)
  generalize (sendGroupCreation env group gd.members recipients false
    ((s.ask (.getGroupData group true)).enter
      (.sendGroupCreation group gd.members recipients false))).2 = a at t1 d1 k1 h1 w1 ⊢
  obtain ⟨t2, d2, k2, h2, w2⟩ := sendGroupTitle_passed env
    (a.enter (.sendGroupTitle group gd.title recipients false))
    group recipients false gd.title (by simpa using h1) (by simp [d1, hStable, hSelf])
  generalize (sendGroupTitle env group gd.title recipients false
    (a.enter (.sendGroupTitle group gd.title recipients false))).2 = b at t2 d2 k2 h2 w2 ⊢
  have t3 := sendGroupImage_passed env
    (b.enter (.sendGroupImage group gd.image.getData recipients false))
    group recipients false gd.image.getData (by simpa using h2)
    (by simp [d2, d1, hStable, hSelf])
  generalize (sendGroupImage env group gd.image.getData recipients false
    (b.enter (.sendGroupImage group gd.image.getData recipients false))).2 = c at t3 ⊢
  simp only [trace_enter, trace_ask, willQueue_enter, willQueue_ask, ticks_enter, ticks_ask,
    db_enter, db_ask] at t1 d1 k1 w1 t2 d2 k2 w2 t3
  refine ⟨env.messageIdOf s.db
      (.storeSentGroupCreation group (env.timeAt s.ticks) s.willQueue gd.members false),
    env.messageIdOf a.db
      (.storeSentGroupSetTitle group (env.timeAt a.ticks) a.willQueue gd.title false),
    env.messageIdOf b.db
      (.storeSentGroupSetImage group (env.timeAt b.ticks) b.willQueue gd.image.getData false), ?_⟩
  cases hi : gd.hasImage <;> cases ha : gd.image.isAvailable <;>
    simp [t1, t2, t3, w1, w2, k1, k2, add_assoc]
end resendSetup

/-! ### Properties of the scenarios and of the outbound operations -/

/-- C11, the code at the failing input: storage is available (`hasDatabase()`
is true), `groupG` is unknown and not deleted, its owner is not self,
`TRUST_OTHERS` is on and nothing is queued; `processReceivedGroupMessageText`
returns at its first guard and records no call (no
`storeReceivedGroupMessageText`, no `storeNewGroup`, no sync request).  With
`hasDatabase()` false the same input runs through the scenario: one sync
request to the owner `2`, `storeNewGroup(groupG, {1, 3}, true)`, the text
stored and nothing queued. -/
theorem scenario_a_discarded_when_storage_available :
    (freshCenter true true dbEmpty).m_storage.hasDatabase = true ∧
    memoryEnv.hasGroup dbEmpty groupG = false ∧
    memoryEnv.isDeleteted dbEmpty groupG = false ∧
    groupG.getOwner ≠ memoryEnv.getSelfContact dbEmpty ∧
    (freshCenter true true dbEmpty).m_optionMaster.BOOLEAN_TRUST_OTHERS = true ∧
    (freshCenter true true dbEmpty).m_messageQueue.hasMessageForGroup groupG = false ∧
    processReceivedGroupMessageText memoryEnv groupG 3 55 10 11 "hi" (freshCenter true true dbEmpty)
      = freshCenter true true dbEmpty ∧
    (processReceivedGroupMessageText memoryEnv groupG 3 55 10 11 "hi"
      (freshCenter true true dbEmpty)).trace = [] ∧
    (processReceivedGroupMessageText memoryEnv groupG 3 55 10 11 "hi"
      (connectedCenter false true dbEmpty)).trace =
      [.call (.checkAndFixGroupMembership groupG 3),
       .query (.hasGroup groupG),
       .query .getSelfContact,
       .call (.requestSyncForGroupIfApplicable groupG),
       .queue (.hasMessageForGroup groupG),
       .call (.sendSyncRequest groupG),
       .query .getSelfContact,
       .storage (.storeSentGroupSyncRequest groupG 1000 true),
       .transport (.processSentGroupSyncRequest groupG {2} 0 1000),
       .query (.isDeleteted groupG),
       .query .getSelfContact,
       .storage (.storeNewGroup groupG {1, 3} true),
       .signal (.newUnreadMessageAvailableGroup groupG),
       .storage (.storeReceivedGroupMessageText groupG 3 55 10 11 "hi"),
       .transport (.sendMessageReceivedAcknowledgement 3 55)] ∧
    (processReceivedGroupMessageText memoryEnv groupG 3 55 10 11 "hi"
      (connectedCenter false true dbEmpty)).m_messageQueue = [] := by
  have hSet : ({1, 3} : Finset ContactId) = insert 3 (insert 1 ∅) := by
    ext x
    simp [or_comm]
  rw [hSet]
  exact ⟨rfl, rfl, rfl, by decide, rfl, rfl, rfl, rfl, rfl, rfl⟩

/-- C12, the code at the failing input: storage is available (`hasDatabase()`
is true), `groupG` is unknown, its owner is not self, `TRUST_OTHERS` is off
and nothing is queued; `processReceivedGroupMessageText` returns at its first
guard: nothing is appended to the deferred queue and no sync request is
issued.  With `hasDatabase()` false the same input runs through the scenario:
one sync request, the entry appended, no `storeReceivedGroupMessageText` and
no `storeNewGroup`. -/
theorem scenario_b_discarded_when_storage_available :
    (freshCenter true false dbEmpty).m_storage.hasDatabase = true ∧
    memoryEnv.hasGroup dbEmpty groupG = false ∧
    groupG.getOwner ≠ memoryEnv.getSelfContact dbEmpty ∧
    (freshCenter true false dbEmpty).m_optionMaster.BOOLEAN_TRUST_OTHERS = false ∧
    (freshCenter true false dbEmpty).m_messageQueue.hasMessageForGroup groupG = false ∧
    (processReceivedGroupMessageText memoryEnv groupG 3 55 10 11 "hi"
      (freshCenter true false dbEmpty)).m_messageQueue = [] ∧
    (processReceivedGroupMessageText memoryEnv groupG 3 55 10 11 "hi"
      (freshCenter true false dbEmpty)).trace = [] ∧
    (processReceivedGroupMessageText memoryEnv groupG 3 55 10 11 "hi"
      (connectedCenter false false dbEmpty)).trace =
      [.call (.checkAndFixGroupMembership groupG 3),
       .query (.hasGroup groupG),
       .query .getSelfContact,
       .call (.requestSyncForGroupIfApplicable groupG),
       .queue (.hasMessageForGroup groupG),
       .call (.sendSyncRequest groupG),
       .query .getSelfContact,
       .storage (.storeSentGroupSyncRequest groupG 1000 true),
       .transport (.processSentGroupSyncRequest groupG {2} 0 1000),
       .queue (.storeGroupMessage ⟨groupG, 3, 55, 10, 11, .TEXT, .string "hi"⟩)] ∧
    (processReceivedGroupMessageText memoryEnv groupG 3 55 10 11 "hi"
      (connectedCenter false false dbEmpty)).m_messageQueue =
      [⟨groupG, 3, 55, 10, 11, .TEXT, .string "hi"⟩] := by
  exact ⟨rfl, rfl, by decide, rfl, rfl, rfl, rfl, rfl, rfl⟩

/-- C13, the code at the failing input: storage is available (`hasDatabase()`
is true), `groupOwn` is known to it with members `1`, `2` and `3`, self (`1`)
is its owner, the group data carry an image that is available and the
acceptor is connected; `processReceivedGroupSyncRequest` for the request of
member `3` returns at its first guard: the state is as before and no call is
recorded, so nothing is re-issued.  With `hasDatabase()` false the same input
runs through the scenario: the request is stored, no `storeNewGroup` is made,
and CREATION (with the stored members), SET_TITLE and SET_IMAGE are stored and
handed to the acceptor, each with the recipient set `{3}`. -/
theorem scenario_c_discarded_when_storage_available :
    (connectedCenter true false dbOwner).m_storage.hasDatabase = true ∧
    memoryEnvWithImage.hasGroup dbOwner groupOwn = true ∧
    memoryEnvWithImage.getSelfContact dbOwner = groupOwn.getOwner ∧
    3 ∈ memoryEnvWithImage.getGroupMembers dbOwner groupOwn false ∧
    (memoryEnvWithImage.getGroupData dbOwner groupOwn true).hasImage = true ∧
    (memoryEnvWithImage.getGroupData dbOwner groupOwn true).image.isAvailable = true ∧
    (connectedCenter true false dbOwner).willQueue = true ∧
    processReceivedGroupSyncRequest memoryEnvWithImage groupOwn 3 55 10 11
      (connectedCenter true false dbOwner) = connectedCenter true false dbOwner ∧
    (processReceivedGroupSyncRequest memoryEnvWithImage groupOwn 3 55 10 11
      (connectedCenter true false dbOwner)).trace = [] ∧
    (processReceivedGroupSyncRequest memoryEnvWithImage groupOwn 3 55 10 11
      (connectedCenter false false dbOwner)).trace =
      [.query .getSelfContact,
       .call (.checkAndFixGroupMembership groupOwn 3),
       .query (.hasGroup groupOwn),
       .query (.getGroupMembers groupOwn false),
       .storage (.storeReceivedGroupSyncRequest groupOwn 3 55 10 11),
       .transport (.sendMessageReceivedAcknowledgement 3 55),
       .call (.resendGroupSetup groupOwn {3}),
       .query (.getGroupData groupOwn true),
       .call (.sendGroupCreation groupOwn {1, 2, 3} {3} false),
       .query .getSelfContact,
       .storage (.storeSentGroupCreation groupOwn 1000 true {1, 2, 3} false),
       .transport (.processSentGroupCreation groupOwn {3} 1 1000 {1, 2, 3}),
       .call (.sendGroupTitle groupOwn "own" {3} false),
       .query .getSelfContact,
       .storage (.storeSentGroupSetTitle groupOwn 1001 true "own" false),
       .transport (.processSentGroupSetTitle groupOwn {3} 2 1001 "own"),
       .call (.sendGroupImage groupOwn [7, 7] {3} false),
       .query .getSelfContact,
       .storage (.storeSentGroupSetImage groupOwn 1002 true [7, 7] false),
       .transport (.processSentGroupSetImage groupOwn {3} 3 1002 [7, 7])] := by
  exact ⟨rfl, rfl, rfl, by decide, rfl, rfl, rfl, rfl, rfl, rfl⟩

/-- Behind the storage guard, for group data without an image: self (`1`)
owns the known group `groupOwn` and contact `3` is a member.  With
`hasDatabase()` true the SYNC_REQUEST from `3` is discarded and nothing is
re-issued; with `hasDatabase()` false it is applied, and CREATION and
SET_TITLE are re-issued to `{3}` but no SET_IMAGE is, the group data carrying
no image. -/
theorem sync_request_resend_without_image :
    memoryEnv.hasGroup dbOwner groupOwn = true ∧
    memoryEnv.getSelfContact dbOwner = groupOwn.getOwner ∧
    3 ∈ memoryEnv.getGroupMembers dbOwner groupOwn false ∧
    processReceivedGroupSyncRequest memoryEnv groupOwn 3 55 10 11 (connectedCenter true false dbOwner)
      = connectedCenter true false dbOwner ∧
    (memoryEnv.getGroupData (memoryEnv.perform dbOwner
      (.storeReceivedGroupSyncRequest groupOwn 3 55 10 11)) groupOwn true).hasImage = false ∧
    (processReceivedGroupSyncRequest memoryEnv groupOwn 3 55 10 11
      (connectedCenter false false dbOwner)).trace =
      [.query .getSelfContact,
       .call (.checkAndFixGroupMembership groupOwn 3),
       .query (.hasGroup groupOwn),
       .query (.getGroupMembers groupOwn false),
       .storage (.storeReceivedGroupSyncRequest groupOwn 3 55 10 11),
       .transport (.sendMessageReceivedAcknowledgement 3 55),
       .call (.resendGroupSetup groupOwn {3}),
       .query (.getGroupData groupOwn true),
       .call (.sendGroupCreation groupOwn {1, 2, 3} {3} false),
       .query .getSelfContact,
       .storage (.storeSentGroupCreation groupOwn 1000 true {1, 2, 3} false),
       .transport (.processSentGroupCreation groupOwn {3} 1 1000 {1, 2, 3}),
       .call (.sendGroupTitle groupOwn "own" {3} false),
       .query .getSelfContact,
       .storage (.storeSentGroupSetTitle groupOwn 1001 true "own" false),
       .transport (.processSentGroupSetTitle groupOwn {3} 2 1001 "own")] := by
  exact ⟨rfl, rfl, by decide, rfl, rfl, rfl⟩

/-- Behind the storage guard, for any storage back end: for a group known to
storage that self owns and a sender among its stored members, whenever the
handler stores the SYNC_REQUEST
(`storeReceivedGroupSyncRequest` is recorded), it records no `storeNewGroup`,
and the mutating storage calls it makes are, in order: the received sync
request, then CREATION with the members of the stored group data and
SET_TITLE, then SET_IMAGE exactly when the group data have an image that is
available; each of the three is stored with `applyOperationInDatabase =
false`.  When the acceptor is connected each stored message is handed to it
with the recipient set `{sender}`, and otherwise none is handed over.  The
self contact is assumed not to change by a storage call. -/
theorem sync_request_resends_setup_to_sender {σ : Type} (env : Env σ) (mc : SimpleMessageCenter σ) (group : GroupId)
    (sender : ContactId) (messageId : MessageId) (timeSent timeReceived : MessageTime)
    (hStable : ∀ s c, env.getSelfContact (env.perform s c) = env.getSelfContact s)
    (hKnown : env.hasGroup mc.db group = true)
    (hSelf : env.getSelfContact mc.db = group.getOwner)
    (hMember : sender ∈ env.getGroupMembers mc.db group false)
    (hApplied : Event.storage
        (.storeReceivedGroupSyncRequest group sender messageId timeSent timeReceived) ∈
      callsSince mc (processReceivedGroupSyncRequest env group sender messageId timeSent timeReceived mc)) :
    (callsSince mc (processReceivedGroupSyncRequest env group sender messageId timeSent timeReceived
      mc)).countP Event.isStoreNewGroup = 0 ∧
    (callsSince mc (processReceivedGroupSyncRequest env group sender messageId timeSent timeReceived
      mc)).filterMap Event.storage? =
      [.storeReceivedGroupSyncRequest group sender messageId timeSent timeReceived,
       .storeSentGroupCreation group (env.timeAt mc.ticks) mc.willQueue
         (env.getGroupData (env.perform mc.db
           (.storeReceivedGroupSyncRequest group sender messageId timeSent timeReceived)) group
           true).members false,
       .storeSentGroupSetTitle group (env.timeAt (mc.ticks + 1)) mc.willQueue
         (env.getGroupData (env.perform mc.db
           (.storeReceivedGroupSyncRequest group sender messageId timeSent timeReceived)) group
           true).title false] ++
      (if (env.getGroupData (env.perform mc.db
            (.storeReceivedGroupSyncRequest group sender messageId timeSent timeReceived)) group
            true).hasImage = true ∧
          (env.getGroupData (env.perform mc.db
            (.storeReceivedGroupSyncRequest group sender messageId timeSent timeReceived)) group
            true).image.isAvailable = true then
        [.storeSentGroupSetImage group (env.timeAt (mc.ticks + 2)) mc.willQueue
          (env.getGroupData (env.perform mc.db
            (.storeReceivedGroupSyncRequest group sender messageId timeSent timeReceived)) group
            true).image.getData false]
      else []) ∧
    (callsSince mc (processReceivedGroupSyncRequest env group sender messageId timeSent timeReceived
      mc)).filterMap Event.recipients? =
      (if mc.willQueue = true then
        if (env.getGroupData (env.perform mc.db
              (.storeReceivedGroupSyncRequest group sender messageId timeSent timeReceived)) group
              true).hasImage = true ∧
            (env.getGroupData (env.perform mc.db
              (.storeReceivedGroupSyncRequest group sender messageId timeSent timeReceived)) group
              true).image.isAvailable = true then
          [{sender}, {sender}, {sender}]
        else [{sender}, {sender}]
      else []) := by
  generalize hgd : env.getGroupData (env.perform mc.db
    (.storeReceivedGroupSyncRequest group sender messageId timeSent timeReceived)) group true = gd
  revert hApplied
  simp only [processReceivedGroupSyncRequest]
  by_cases hdb : mc.m_storage.hasDatabase = true
  · rw [if_pos hdb]
    simp [callsSince]
  rw [if_neg hdb]
  by_cases hs : sender = group.getOwner
  · rw [if_pos hs]
    simp [callsSince]
  have ho : ¬ group.getOwner ≠ env.getSelfContact (mc.ask .getSelfContact).db := by
    simp [hSelf]
  rw [if_neg hs, if_neg ho]
  have hdb' : mc.m_storage.hasDatabase = false := by simpa using hdb
  have hcheck : checkAndFixGroupMembership env group sender
      ((mc.ask .getSelfContact).enter (.checkAndFixGroupMembership group sender)) =
      (true, (((mc.ask .getSelfContact).enter (.checkAndFixGroupMembership group sender)).ask
        (.hasGroup group)).ask (.getGroupMembers group false)) := by
    simp only [checkAndFixGroupMembership]
    simp [hdb, hKnown, hMember]
  rw [hcheck]
  intro hA
  clear hA hcheck
  simp only [Bool.not_true, Bool.false_eq_true, if_false]
  obtain ⟨i1, i2, i3, ht⟩ := resendGroupSetup_passed env
    (((((((mc.ask .getSelfContact).enter (.checkAndFixGroupMembership group sender)).ask
        (.hasGroup group)).ask (.getGroupMembers group false)).store env
          (.storeReceivedGroupSyncRequest group sender messageId timeSent timeReceived)).acknowledge
            sender messageId).enter (.resendGroupSetup group {sender}))
    group {sender} gd hStable (by simp [hdb']) (by simp [hStable, hSelf]) (by simp [hgd])
  simp only [callsSince, ht, trace_enter, trace_acknowledge, trace_store, trace_ask,
    acceptor_store, acceptor_ask, acceptor_enter, willQueue_enter, willQueue_acknowledge,
    willQueue_store, willQueue_ask, ticks_enter, ticks_acknowledge, ticks_store, ticks_ask,
    List.append_assoc, List.drop_left']
  cases hw : mc.willQueue <;> by_cases hsome : mc.m_networkSentMessageAcceptor.isSome = true <;>
    by_cases hi : gd.hasImage = true ∧ gd.image.isAvailable = true <;>
    simp [hi, hsome, Event.isStoreNewGroup, Event.storage?, Event.recipients?, TransportCall.recipients?]

/-- The previous theorem at an input: self (`1`) owns the known group `groupOwn`, contact `3`
is a member, the group data carry an available image and the acceptor is
connected; the three setup messages are stored and handed over with the
recipient set `{3}`. -/
theorem sync_request_resends_setup_to_sender_witness :
    (callsSince (connectedCenter false false dbOwner)
      (processReceivedGroupSyncRequest memoryEnvWithImage groupOwn 3 55 10 11
        (connectedCenter false false dbOwner))).countP Event.isStoreNewGroup = 0 ∧
    (callsSince (connectedCenter false false dbOwner)
      (processReceivedGroupSyncRequest memoryEnvWithImage groupOwn 3 55 10 11
        (connectedCenter false false dbOwner))).filterMap Event.storage? =
      [.storeReceivedGroupSyncRequest groupOwn 3 55 10 11,
       .storeSentGroupCreation groupOwn 1000 true {1, 2, 3} false,
       .storeSentGroupSetTitle groupOwn 1001 true "own" false,
       .storeSentGroupSetImage groupOwn 1002 true [7, 7] false] ∧
    (callsSince (connectedCenter false false dbOwner)
      (processReceivedGroupSyncRequest memoryEnvWithImage groupOwn 3 55 10 11
        (connectedCenter false false dbOwner))).filterMap Event.recipients? =
      [{3}, {3}, {3}] :=
  sync_request_resends_setup_to_sender memoryEnvWithImage (connectedCenter false false dbOwner)
    groupOwn 3 55 10 11 (fun s c => by cases c <;> rfl) rfl rfl (by decide) (by decide)

/-- C14, the code at the failing input: storage is available (`hasDatabase()`
is true), contact `2` is known and there is no transport acceptor;
`sendText(2, "hi")` returns false and records no call (no
`storeSentContactMessageText`).  With `hasDatabase()` false the same call
returns true and stores the message once, with `isQueued = false`, without
any call on the acceptor. -/
theorem sendText_returns_false_when_storage_available :
    (freshCenter true false dbKnown).m_storage.hasDatabase = true ∧
    memoryEnv.hasContact dbKnown 2 = true ∧
    (freshCenter true false dbKnown).m_networkSentMessageAcceptor = none ∧
    sendText memoryEnv 2 "hi" (freshCenter true false dbKnown)
      = (false, freshCenter true false dbKnown) ∧
    (sendText memoryEnv 2 "hi" (freshCenter false false dbKnown)).1 = true ∧
    (sendText memoryEnv 2 "hi" (freshCenter false false dbKnown)).2.trace =
      [.query (.hasContact 2), .storage (.storeSentContactMessageText 2 1000 false "hi")] := by
  exact ⟨rfl, rfl, rfl, rfl, rfl, rfl⟩

/-- C15: every outbound send operation that returns true has made exactly one
mutating storage call, a `storeSent*` call whose `isQueued` flag is true
exactly when a transport acceptor is present and connected; when the flag is
true the one call on the acceptor is the `processSent*` call of the same
message, with the message id the store call returned, and when it is false
no call on the acceptor is made. -/
theorem send_returning_true_stores_once {σ : Type} (env : Env σ) (mc : SimpleMessageCenter σ)
    (op : OutboundSend) (h : (op.run env mc).1 = true) :
    ∃ c q, (callsSince mc (op.run env mc).2).filterMap Event.storage? = [c] ∧
      c.isQueued? = some q ∧
      (q = true ↔ ∃ a, mc.m_networkSentMessageAcceptor = some a ∧ a.isConnected = true) ∧
      (q = true → ∃ t, (callsSince mc (op.run env mc).2).filterMap Event.transport? = [t] ∧
        t.sentMessage? = c.sentMessage? ∧ t.messageId = env.messageIdOf mc.db c) ∧
      (q = false → (callsSince mc (op.run env mc).2).filterMap Event.transport? = []) := by
  rw [← willQueue_iff]
  cases op with
  | sendReceipt receiver receiptedMessageId receiptType =>
    cases receiptType <;>
    simp only [OutboundSend.run, SimpleMessageCenter.sendReceipt] at h ⊢ <;>
    split_ifs at h ⊢ with h1 h2 h3 <;>
    simp only [callsSince, trace_ask, trace_store, trace_send, trace_tick,
      willQueue_ask, willQueue_tick, willQueue_store, db_ask, db_tick, db_store,
      now_eq, sentId_eq, ticks_ask,
      List.append_assoc, List.drop_left', List.cons_append, List.nil_append] at h3 ⊢ <;>
    first
      | exact ⟨_, _, rfl, rfl, Iff.rfl, fun _ => ⟨_, rfl, rfl, rfl⟩,
          fun hq => absurd h3 (by simp [hq])⟩
      | exact ⟨_, _, rfl, rfl, Iff.rfl, fun hq => absurd hq h3, fun _ => rfl⟩
  | _ =>
    simp only [OutboundSend.run, SimpleMessageCenter.sendText, SimpleMessageCenter.sendImage,
      SimpleMessageCenter.sendLocation, SimpleMessageCenter.sendTextGroup,
      SimpleMessageCenter.sendImageGroup, SimpleMessageCenter.sendLocationGroup,
      SimpleMessageCenter.sendLeave, SimpleMessageCenter.sendSyncRequest,
      SimpleMessageCenter.sendGroupCreationPublic, SimpleMessageCenter.sendGroupTitlePublic,
      SimpleMessageCenter.sendGroupImagePublic, SimpleMessageCenter.sendGroupCreation,
      SimpleMessageCenter.sendGroupTitle, SimpleMessageCenter.sendGroupImage] at h ⊢
    split_ifs at h ⊢ <;>
    simp only [callsSince, trace_ask, trace_store, trace_send, trace_tick, trace_enter,
      willQueue_ask, willQueue_tick, willQueue_store, willQueue_enter, db_ask, db_tick, db_store,
      db_enter, now_eq, sentId_eq, ticks_ask, ticks_enter,
      List.append_assoc, List.drop_left', List.cons_append, List.nil_append] at * <;>
    first
      | exact ⟨_, _, rfl, rfl, Iff.rfl, fun _ => ⟨_, rfl, rfl, rfl⟩,
          fun hq => absurd ‹mc.willQueue = true› (by simp [hq])⟩
      | exact ⟨_, _, rfl, rfl, Iff.rfl, fun hq => absurd hq ‹¬ mc.willQueue = true›, fun _ => rfl⟩

/-- C15, at an input: `sendText` to the known contact `2` with a connected
acceptor returns true. -/
theorem send_returning_true_stores_once_witness :
    (OutboundSend.run memoryEnv (connectedCenter false false dbKnown) (.sendText 2 "hi")).1 = true ∧
    ∃ c q, (callsSince (connectedCenter false false dbKnown)
        (OutboundSend.run memoryEnv (connectedCenter false false dbKnown)
          (.sendText 2 "hi")).2).filterMap Event.storage? = [c] ∧
      c.isQueued? = some q ∧
      (q = true ↔ ∃ a, (connectedCenter false false dbKnown).m_networkSentMessageAcceptor = some a ∧
        a.isConnected = true) ∧
      (q = true → ∃ t, (callsSince (connectedCenter false false dbKnown)
          (OutboundSend.run memoryEnv (connectedCenter false false dbKnown)
            (.sendText 2 "hi")).2).filterMap Event.transport? = [t] ∧
        t.sentMessage? = c.sentMessage? ∧ t.messageId = memoryEnv.messageIdOf dbKnown c) ∧
      (q = false → (callsSince (connectedCenter false false dbKnown)
        (OutboundSend.run memoryEnv (connectedCenter false false dbKnown)
          (.sendText 2 "hi")).2).filterMap Event.transport? = []) :=
  ⟨rfl, send_returning_true_stores_once memoryEnv (connectedCenter false false dbKnown)
    (.sendText 2 "hi") rfl⟩

/-- C16: when the receiver contact is unknown to storage (`hasContact` false),
the contact overloads of `sendText`, `sendImage` and `sendLocation`, and when
the target group is unknown to storage (`hasGroup` false), the group
overloads, return false, make no mutating storage call and no call on the
transport acceptor, and leave storage and the deferred queue as they were.
Each is a total function returning its `bool`. -/
theorem send_to_unknown_target_fails {σ : Type} (env : Env σ) (mc : SimpleMessageCenter σ)
    (receiver : ContactId) (group : GroupId) (text : QString) (image : QByteArray)
    (caption : QString) (location : Location) :
    (env.hasContact mc.db receiver = false →
      ∀ op ∈ [OutboundSend.sendText receiver text, .sendImage receiver image caption,
          .sendLocation receiver location],
        (op.run env mc).1 = false ∧
        (callsSince mc (op.run env mc).2).countP Event.isStorageCall = 0 ∧
        (callsSince mc (op.run env mc).2).countP Event.isTransportCall = 0 ∧
        (op.run env mc).2.m_storage = mc.m_storage ∧
        (op.run env mc).2.m_messageQueue = mc.m_messageQueue) ∧
    (env.hasGroup mc.db group = false →
      ∀ op ∈ [OutboundSend.sendTextGroup group text, .sendImageGroup group image caption,
          .sendLocationGroup group location],
        (op.run env mc).1 = false ∧
        (callsSince mc (op.run env mc).2).countP Event.isStorageCall = 0 ∧
        (callsSince mc (op.run env mc).2).countP Event.isTransportCall = 0 ∧
        (op.run env mc).2.m_storage = mc.m_storage ∧
        (op.run env mc).2.m_messageQueue = mc.m_messageQueue) := by
  refine ⟨fun h op hOp => ?_, fun h op hOp => ?_⟩
  · simp only [List.mem_cons, List.mem_singleton, List.not_mem_nil, or_false] at hOp
    rcases hOp with rfl | rfl | rfl <;>
      cases hdb : mc.m_storage.hasDatabase <;>
      simp_all [OutboundSend.run, SimpleMessageCenter.sendText, SimpleMessageCenter.sendImage,
        SimpleMessageCenter.sendLocation, SimpleMessageCenter.ask, SimpleMessageCenter.log,
        SimpleMessageCenter.db, callsSince, Event.isStorageCall, Event.isTransportCall]
  · simp only [List.mem_cons, List.mem_singleton, List.not_mem_nil, or_false] at hOp
    rcases hOp with rfl | rfl | rfl <;>
      cases hdb : mc.m_storage.hasDatabase <;>
      simp_all [OutboundSend.run, SimpleMessageCenter.sendTextGroup,
        SimpleMessageCenter.sendImageGroup, SimpleMessageCenter.sendLocationGroup,
        SimpleMessageCenter.ask, SimpleMessageCenter.log, SimpleMessageCenter.db, callsSince,
        Event.isStorageCall, Event.isTransportCall]

/-- C16, at an input: the database `dbKnown` knows neither the contact `9` nor
the group `groupH`. -/
theorem send_to_unknown_target_fails_witness :
    memoryEnv.hasContact dbKnown 9 = false ∧ memoryEnv.hasGroup dbKnown groupH = false ∧
    (∀ op ∈ [OutboundSend.sendText 9 "hi", .sendImage 9 [1, 2] "c", .sendLocation 9 ⟨4⟩],
      (op.run memoryEnv (connectedCenter false false dbKnown)).1 = false ∧
      (callsSince (connectedCenter false false dbKnown)
        (op.run memoryEnv (connectedCenter false false dbKnown)).2).countP Event.isStorageCall = 0 ∧
      (callsSince (connectedCenter false false dbKnown)
        (op.run memoryEnv (connectedCenter false false dbKnown)).2).countP
          Event.isTransportCall = 0 ∧
      (op.run memoryEnv (connectedCenter false false dbKnown)).2.m_storage =
        (connectedCenter false false dbKnown).m_storage ∧
      (op.run memoryEnv (connectedCenter false false dbKnown)).2.m_messageQueue =
        (connectedCenter false false dbKnown).m_messageQueue) ∧
    (∀ op ∈ [OutboundSend.sendTextGroup groupH "hi", .sendImageGroup groupH [1, 2] "c",
        .sendLocationGroup groupH ⟨4⟩],
      (op.run memoryEnv (connectedCenter false false dbKnown)).1 = false ∧
      (callsSince (connectedCenter false false dbKnown)
        (op.run memoryEnv (connectedCenter false false dbKnown)).2).countP Event.isStorageCall = 0 ∧
      (callsSince (connectedCenter false false dbKnown)
        (op.run memoryEnv (connectedCenter false false dbKnown)).2).countP
          Event.isTransportCall = 0 ∧
      (op.run memoryEnv (connectedCenter false false dbKnown)).2.m_storage =
        (connectedCenter false false dbKnown).m_storage ∧
      (op.run memoryEnv (connectedCenter false false dbKnown)).2.m_messageQueue =
        (connectedCenter false false dbKnown).m_messageQueue) :=
  ⟨rfl, rfl,
    (send_to_unknown_target_fails memoryEnv (connectedCenter false false dbKnown) 9 groupH
      "hi" [1, 2] "c" ⟨4⟩).1 rfl,
    (send_to_unknown_target_fails memoryEnv (connectedCenter false false dbKnown) 9 groupH
      "hi" [1, 2] "c" ⟨4⟩).2 rfl⟩

/-- C17, counterexample: `groupH` is unknown to storage and owned by another
contact, yet `sendLeave(groupH)` returns true and calls
`storeSentGroupLeave`. -/
theorem sendLeave_unknown_group_stores :
    memoryEnv.hasGroup dbEmpty groupH = false ∧
    (sendLeave memoryEnv groupH (freshCenter false false dbEmpty)).1 = true ∧
    (sendLeave memoryEnv groupH (freshCenter false false dbEmpty)).2.trace =
      [.query .getSelfContact, .storage (.storeSentGroupLeave groupH 1000 false true)] := by
  exact ⟨rfl, rfl, rfl⟩

/-- C17, amended: `sendLeave` never asks storage whether its target is known
(no `hasGroup` query is recorded); it returns false when self is the owner of
the group, and whenever it returns false it has made no mutating storage
call and no call on the transport acceptor. -/
theorem sendLeave_guarded_by_ownership_only {σ : Type} (env : Env σ)
    (mc : SimpleMessageCenter σ) (group : GroupId) :
    (∀ g, Event.query (.hasGroup g) ∉ callsSince mc (sendLeave env group mc).2) ∧
    (env.getSelfContact mc.db = group.getOwner → (sendLeave env group mc).1 = false) ∧
    ((sendLeave env group mc).1 = false →
      (callsSince mc (sendLeave env group mc).2).countP Event.isStorageCall = 0 ∧
      (callsSince mc (sendLeave env group mc).2).countP Event.isTransportCall = 0) := by
  simp only [SimpleMessageCenter.sendLeave]
  split_ifs with h1 h2 h3 <;>
    simp only [callsSince, trace_ask, trace_store, trace_send, trace_tick, db_ask,
      List.append_assoc, List.drop_left', List.cons_append, List.nil_append, List.drop_length] <;>
    simp_all [Event.isStorageCall, Event.isTransportCall]

/-- C17, at an input: self (`1`) is the owner of `groupOwn`, a group unknown
to `dbEmpty`. -/
theorem sendLeave_guarded_by_ownership_only_witness :
    memoryEnv.getSelfContact dbEmpty = groupOwn.getOwner ∧
    memoryEnv.hasGroup dbEmpty groupOwn = false ∧
    (sendLeave memoryEnv groupOwn (freshCenter false false dbEmpty)).1 = false ∧
    (callsSince (freshCenter false false dbEmpty)
      (sendLeave memoryEnv groupOwn (freshCenter false false dbEmpty)).2).countP
        Event.isStorageCall = 0 ∧
    (callsSince (freshCenter false false dbEmpty)
      (sendLeave memoryEnv groupOwn (freshCenter false false dbEmpty)).2).countP
        Event.isTransportCall = 0 :=
  ⟨rfl, rfl,
    (sendLeave_guarded_by_ownership_only memoryEnv (freshCenter false false dbEmpty) groupOwn).2.1 rfl,
    (sendLeave_guarded_by_ownership_only memoryEnv (freshCenter false false dbEmpty) groupOwn).2.2
      rfl⟩

/-- C18, counterexample: with a connected acceptor, `sendLeave(groupG)` hands
the leave to the transport with the members of `groupG` other than self as
recipients; contact `3` is among them and is not the owner of `groupG`. -/
theorem sendLeave_recipients_are_members :
    (sendLeave memoryEnv groupG (connectedCenter false false dbKnown)).1 = true ∧
    (sendLeave memoryEnv groupG (connectedCenter false false dbKnown)).2.trace =
      [.query .getSelfContact,
       .storage (.storeSentGroupLeave groupG 1000 true true),
       .query (.getGroupMembers groupG true),
       .query .getSelfContact,
       .transport (.processSentGroupLeave groupG
         (memoryEnv.getGroupMembers (memoryEnv.perform dbKnown
           (.storeSentGroupLeave groupG 1000 true true)) groupG true) 0 1000 1)] ∧
    3 ∈ memoryEnv.getGroupMembers (memoryEnv.perform dbKnown
      (.storeSentGroupLeave groupG 1000 true true)) groupG true ∧
    (3 : ContactId) ∉ ({groupG.getOwner} : Finset ContactId) := by
  exact ⟨rfl, rfl, by decide, by decide⟩

/-- C18, amended: a call on the transport acceptor made by the group
overloads of `sendText`, `sendImage` and `sendLocation`, and by `sendLeave`,
carries as recipients `getGroupMembers(group, true)` as storage answers after
the message was stored; a call made by `sendSyncRequest` carries exactly
`{group.getOwner()}`. -/
theorem group_send_recipients {σ : Type} (env : Env σ) (mc : SimpleMessageCenter σ)
    (group : GroupId) (text : QString) (image : QByteArray) (caption : QString)
    (location : Location) (t : TransportCall) :
    (Event.transport t ∈ callsSince mc (sendTextGroup env group text mc).2 →
      t.recipients? = some (env.getGroupMembers (env.perform mc.db
        (.storeSentGroupMessageText group (env.timeAt mc.ticks) mc.willQueue text)) group true)) ∧
    (Event.transport t ∈ callsSince mc (sendImageGroup env group image caption mc).2 →
      t.recipients? = some (env.getGroupMembers (env.perform mc.db
        (.storeSentGroupMessageImage group (env.timeAt mc.ticks) mc.willQueue
          (embedCaptionIntoImage env image caption) caption)) group true)) ∧
    (Event.transport t ∈ callsSince mc (sendLocationGroup env group location mc).2 →
      t.recipients? = some (env.getGroupMembers (env.perform mc.db
        (.storeSentGroupMessageLocation group (env.timeAt mc.ticks) mc.willQueue location))
        group true)) ∧
    (Event.transport t ∈ callsSince mc (sendLeave env group mc).2 →
      t.recipients? = some (env.getGroupMembers (env.perform mc.db
        (.storeSentGroupLeave group (env.timeAt mc.ticks) mc.willQueue true)) group true)) ∧
    (Event.transport t ∈ callsSince mc (sendSyncRequest env group mc).2 →
      t.recipients? = some {group.getOwner}) := by
  refine ⟨?_, ?_, ?_, ?_, ?_⟩
  · simp only [SimpleMessageCenter.sendTextGroup]
    split_ifs <;>
      simp only [callsSince, trace_ask, trace_store, trace_send, trace_tick, db_ask, db_store,
        db_tick, willQueue_ask, now_eq, ticks_ask, sentId_eq,
        List.append_assoc, List.drop_left', List.cons_append, List.nil_append, List.drop_length] <;>
      simp +contextual [TransportCall.recipients?]
  · simp only [SimpleMessageCenter.sendImageGroup]
    split_ifs <;>
      simp only [callsSince, trace_ask, trace_store, trace_send, trace_tick, db_ask, db_store,
        db_tick, willQueue_ask, now_eq, ticks_ask, sentId_eq,
        List.append_assoc, List.drop_left', List.cons_append, List.nil_append, List.drop_length] <;>
      simp +contextual [TransportCall.recipients?]
  · simp only [SimpleMessageCenter.sendLocationGroup]
    split_ifs <;>
      simp only [callsSince, trace_ask, trace_store, trace_send, trace_tick, db_ask, db_store,
        db_tick, willQueue_ask, now_eq, ticks_ask, sentId_eq,
        List.append_assoc, List.drop_left', List.cons_append, List.nil_append, List.drop_length] <;>
      simp +contextual [TransportCall.recipients?]
  · simp only [SimpleMessageCenter.sendLeave]
    split_ifs <;>
      simp only [callsSince, trace_ask, trace_store, trace_send, trace_tick, db_ask, db_store,
        db_tick, willQueue_ask, now_eq, ticks_ask, sentId_eq,
        List.append_assoc, List.drop_left', List.cons_append, List.nil_append, List.drop_length] <;>
      simp +contextual [TransportCall.recipients?]
  · simp only [SimpleMessageCenter.sendSyncRequest]
    split_ifs <;>
      simp only [callsSince, trace_ask, trace_store, trace_send, trace_tick, db_ask, db_store,
        db_tick, willQueue_ask, now_eq, ticks_ask, sentId_eq,
        List.append_assoc, List.drop_left', List.cons_append, List.nil_append, List.drop_length] <;>
      simp +contextual [TransportCall.recipients?]

/-- C18, at an input: with a connected acceptor, each of the five group sends
for the known group `groupG` hands its message to the transport; the member
sends carry `{2, 3}`, the members other than self, and the sync request
carries `{2}`, the owner. -/
theorem group_send_recipients_witness :
    (Event.transport (.processSentGroupMessageText groupG
        (memoryEnv.getGroupMembers dbKnown groupG true) 0 1000 "hi") ∈
      callsSince (connectedCenter false false dbKnown)
        (sendTextGroup memoryEnv groupG "hi" (connectedCenter false false dbKnown)).2 ∧
      (TransportCall.processSentGroupMessageText groupG
        (memoryEnv.getGroupMembers dbKnown groupG true) 0 1000 "hi").recipients? =
      some (memoryEnv.getGroupMembers (memoryEnv.perform dbKnown
        (.storeSentGroupMessageText groupG 1000 true "hi")) groupG true)) ∧
    (Event.transport (.processSentGroupLeave groupG
        (memoryEnv.getGroupMembers dbKnown groupG true) 0 1000 1) ∈
      callsSince (connectedCenter false false dbKnown)
        (sendLeave memoryEnv groupG (connectedCenter false false dbKnown)).2 ∧
      (TransportCall.processSentGroupLeave groupG
        (memoryEnv.getGroupMembers dbKnown groupG true) 0 1000 1).recipients? =
      some (memoryEnv.getGroupMembers (memoryEnv.perform dbKnown
        (.storeSentGroupLeave groupG 1000 true true)) groupG true)) ∧
    (Event.transport (.processSentGroupSyncRequest groupG {2} 0 1000) ∈
      callsSince (connectedCenter false false dbKnown)
        (sendSyncRequest memoryEnv groupG (connectedCenter false false dbKnown)).2 ∧
      (TransportCall.processSentGroupSyncRequest groupG {2} 0 1000).recipients? =
      some {groupG.getOwner}) :=
  ⟨⟨by decide,
    (group_send_recipients memoryEnv (connectedCenter false false dbKnown) groupG "hi" [1, 2] ""
      ⟨4⟩ (.processSentGroupMessageText groupG (memoryEnv.getGroupMembers dbKnown groupG true) 0
        1000 "hi")).1 (by decide)⟩,
   ⟨by decide,
    (group_send_recipients memoryEnv (connectedCenter false false dbKnown) groupG "hi" [1, 2] ""
      ⟨4⟩ (.processSentGroupLeave groupG (memoryEnv.getGroupMembers dbKnown groupG true) 0 1000
        1)).2.2.2.1 (by decide)⟩,
   ⟨by decide,
    (group_send_recipients memoryEnv (connectedCenter false false dbKnown) groupG "hi" [1, 2] ""
      ⟨4⟩ (.processSentGroupSyncRequest groupG {2} 0 1000)).2.2.2.2 (by decide)⟩⟩

/-- C19: `sendGroupCreation`, `sendGroupTitle` and `sendGroupImage`, in both
overloads, called when self is not the owner of the group, and `sendLeave`
and `sendSyncRequest` called when self is the owner, return false, make no
mutating storage call and no call on the transport acceptor, and leave
storage and the deferred queue as they were. -/
theorem policy_violations_have_no_effect {σ : Type} (env : Env σ) (mc : SimpleMessageCenter σ)
    (group : GroupId) (members recipients : Finset ContactId) (title : QString)
    (image : QByteArray) (applyOperationInDatabase : Bool) :
    (env.getSelfContact mc.db ≠ group.getOwner →
      ∀ op ∈ [OutboundSend.sendGroupCreationPublic group members,
          .sendGroupTitlePublic group title, .sendGroupImagePublic group image,
          .sendGroupCreation group members recipients applyOperationInDatabase,
          .sendGroupTitle group title recipients applyOperationInDatabase,
          .sendGroupImage group image recipients applyOperationInDatabase],
        (op.run env mc).1 = false ∧
        (callsSince mc (op.run env mc).2).countP Event.isStorageCall = 0 ∧
        (callsSince mc (op.run env mc).2).countP Event.isTransportCall = 0 ∧
        (op.run env mc).2.m_storage = mc.m_storage ∧
        (op.run env mc).2.m_messageQueue = mc.m_messageQueue) ∧
    (env.getSelfContact mc.db = group.getOwner →
      ∀ op ∈ [OutboundSend.sendLeave group, .sendSyncRequest group],
        (op.run env mc).1 = false ∧
        (callsSince mc (op.run env mc).2).countP Event.isStorageCall = 0 ∧
        (callsSince mc (op.run env mc).2).countP Event.isTransportCall = 0 ∧
        (op.run env mc).2.m_storage = mc.m_storage ∧
        (op.run env mc).2.m_messageQueue = mc.m_messageQueue) := by
  refine ⟨fun h op hOp => ?_, fun h op hOp => ?_⟩
  · simp only [List.mem_cons, List.mem_singleton, List.not_mem_nil, or_false] at hOp
    rcases hOp with rfl | rfl | rfl | rfl | rfl | rfl <;>
      cases hdb : mc.m_storage.hasDatabase <;>
      simp_all [OutboundSend.run, SimpleMessageCenter.sendGroupCreationPublic,
        SimpleMessageCenter.sendGroupTitlePublic, SimpleMessageCenter.sendGroupImagePublic,
        SimpleMessageCenter.sendGroupCreation, SimpleMessageCenter.sendGroupTitle,
        SimpleMessageCenter.sendGroupImage, SimpleMessageCenter.ask, SimpleMessageCenter.log,
        SimpleMessageCenter.db, callsSince, Event.isStorageCall, Event.isTransportCall]
  · simp only [List.mem_cons, List.mem_singleton, List.not_mem_nil, or_false] at hOp
    rcases hOp with rfl | rfl <;>
      cases hdb : mc.m_storage.hasDatabase <;>
      simp_all [OutboundSend.run, SimpleMessageCenter.sendLeave,
        SimpleMessageCenter.sendSyncRequest, SimpleMessageCenter.ask, SimpleMessageCenter.log,
        SimpleMessageCenter.db, callsSince, Event.isStorageCall, Event.isTransportCall]

/-- C19, at inputs: self (`1`) is not the owner of `groupG` and is the owner
of `groupOwn`. -/
theorem policy_violations_have_no_effect_witness :
    (∀ op ∈ [OutboundSend.sendGroupCreationPublic groupG {1, 2},
          .sendGroupTitlePublic groupG "t", .sendGroupImagePublic groupG [1],
          .sendGroupCreation groupG {1, 2} {2} true,
          .sendGroupTitle groupG "t" {2} true,
          .sendGroupImage groupG [1] {2} true],
        (op.run memoryEnv (connectedCenter false false dbKnown)).1 = false ∧
        (callsSince (connectedCenter false false dbKnown)
          (op.run memoryEnv (connectedCenter false false dbKnown)).2).countP
            Event.isStorageCall = 0 ∧
        (callsSince (connectedCenter false false dbKnown)
          (op.run memoryEnv (connectedCenter false false dbKnown)).2).countP
            Event.isTransportCall = 0 ∧
        (op.run memoryEnv (connectedCenter false false dbKnown)).2.m_storage =
          (connectedCenter false false dbKnown).m_storage ∧
        (op.run memoryEnv (connectedCenter false false dbKnown)).2.m_messageQueue =
          (connectedCenter false false dbKnown).m_messageQueue) ∧
    (∀ op ∈ [OutboundSend.sendLeave groupOwn, .sendSyncRequest groupOwn],
        (op.run memoryEnv (connectedCenter false false dbOwner)).1 = false ∧
        (callsSince (connectedCenter false false dbOwner)
          (op.run memoryEnv (connectedCenter false false dbOwner)).2).countP
            Event.isStorageCall = 0 ∧
        (callsSince (connectedCenter false false dbOwner)
          (op.run memoryEnv (connectedCenter false false dbOwner)).2).countP
            Event.isTransportCall = 0 ∧
        (op.run memoryEnv (connectedCenter false false dbOwner)).2.m_storage =
          (connectedCenter false false dbOwner).m_storage ∧
        (op.run memoryEnv (connectedCenter false false dbOwner)).2.m_messageQueue =
          (connectedCenter false false dbOwner).m_messageQueue) :=
  ⟨(policy_violations_have_no_effect memoryEnv (connectedCenter false false dbKnown) groupG {1, 2}
      {2} "t" [1] true).1 (by decide),
   (policy_violations_have_no_effect memoryEnv (connectedCenter false false dbOwner) groupOwn ∅
      ∅ "" [] true).2 rfl⟩

/-- C20: a SYNC_REQUEST whose sender is the owner of the group, or for a
group that self does not own, is discarded whatever the storage state, the
queue and the options: storage and the deferred queue stay as they were, and
the only call that can be recorded is the `getSelfContact` query (no
`storeReceivedGroupSyncRequest`, no `storeNewGroup`, no acknowledgement, no
`resendGroupSetup`). -/
theorem sync_request_from_owner_or_for_foreign_group_discarded {σ : Type} (env : Env σ)
    (mc : SimpleMessageCenter σ) (group : GroupId) (sender : ContactId) (messageId : MessageId)
    (timeSent timeReceived : MessageTime)
    (h : sender = group.getOwner ∨ env.getSelfContact mc.db ≠ group.getOwner) :
    (processReceivedGroupSyncRequest env group sender messageId timeSent timeReceived
      mc).m_messageQueue = mc.m_messageQueue ∧
    (processReceivedGroupSyncRequest env group sender messageId timeSent timeReceived
      mc).m_storage = mc.m_storage ∧
    ∀ e ∈ callsSince mc
        (processReceivedGroupSyncRequest env group sender messageId timeSent timeReceived mc),
      e = .query .getSelfContact := by
  simp only [SimpleMessageCenter.processReceivedGroupSyncRequest]
  by_cases hdb : mc.m_storage.hasDatabase = true
  · rw [if_pos hdb]
    simp [callsSince]
  · rw [if_neg hdb]
    by_cases hs : sender = group.getOwner
    · rw [if_pos hs]
      simp [callsSince]
    · have ho : group.getOwner ≠ env.getSelfContact (mc.ask .getSelfContact).db := by
        rcases h with h | h
        · exact absurd h hs
        · exact fun e => h e.symm
      rw [if_neg hs, if_pos ho]
      simp [callsSince, SimpleMessageCenter.ask, SimpleMessageCenter.log]

/-- C20, at inputs: a SYNC_REQUEST for `groupG` from its owner `2`, and one
from contact `3` for `groupG`, which self (`1`) does not own. -/
theorem sync_request_from_owner_or_for_foreign_group_discarded_witness :
    ((processReceivedGroupSyncRequest memoryEnv groupG 2 55 10 11
        (connectedCenter false true dbKnown)).m_messageQueue =
        (connectedCenter false true dbKnown).m_messageQueue ∧
      (processReceivedGroupSyncRequest memoryEnv groupG 2 55 10 11
        (connectedCenter false true dbKnown)).m_storage =
        (connectedCenter false true dbKnown).m_storage ∧
      ∀ e ∈ callsSince (connectedCenter false true dbKnown)
          (processReceivedGroupSyncRequest memoryEnv groupG 2 55 10 11
            (connectedCenter false true dbKnown)),
        e = .query .getSelfContact) ∧
    ((processReceivedGroupSyncRequest memoryEnv groupG 3 55 10 11
        (connectedCenter false true dbKnown)).m_messageQueue =
        (connectedCenter false true dbKnown).m_messageQueue ∧
      (processReceivedGroupSyncRequest memoryEnv groupG 3 55 10 11
        (connectedCenter false true dbKnown)).m_storage =
        (connectedCenter false true dbKnown).m_storage ∧
      ∀ e ∈ callsSince (connectedCenter false true dbKnown)
          (processReceivedGroupSyncRequest memoryEnv groupG 3 55 10 11
            (connectedCenter false true dbKnown)),
        e = .query .getSelfContact) :=
  ⟨sync_request_from_owner_or_for_foreign_group_discarded memoryEnv
      (connectedCenter false true dbKnown) groupG 2 55 10 11 (Or.inl rfl),
   sync_request_from_owner_or_for_foreign_group_discarded memoryEnv
      (connectedCenter false true dbKnown) groupG 3 55 10 11 (Or.inr (by decide))⟩

/-! ### Side work of the handlers -/

section aside

variable {σ : Type} {mc0 mc : SimpleMessageCenter σ}

theorem Aside.start (mc : SimpleMessageCenter σ) : Aside mc mc :=
  ⟨[], (List.append_nil _).symm, rfl, rfl, rfl, fun e he => absurd he (List.not_mem_nil e)⟩

theorem Aside.queue_eq {a b : SimpleMessageCenter σ} (h : Aside a b) :
    b.m_messageQueue = a.m_messageQueue := by
  obtain ⟨_, _, hq, _⟩ := h
  exact hq

theorem Aside.andThen {a b c : SimpleMessageCenter σ} (hab : Aside a b) (hbc : Aside b c) :
    Aside a c := by
  obtain ⟨e1, t1, q1, a1, d1, p1⟩ := hab
  obtain ⟨e2, t2, q2, a2, d2, p2⟩ := hbc
  refine ⟨e1 ++ e2, by rw [t2, t1, List.append_assoc], q2.trans q1, a2.trans a1, d2.trans d1, ?_⟩
  intro e he
  rcases List.mem_append.mp he with h | h
  · exact p1 e h
  · exact p2 e h

/-- One more recorded call. -/
theorem Aside.thenCall {mc' : SimpleMessageCenter σ} (e : Event) (h : Aside mc0 mc)
    (ht : mc'.trace = mc.trace ++ [e]) (hp : e.plain = true)
    (hq : mc'.m_messageQueue = mc.m_messageQueue)
    (ha : mc'.m_networkSentMessageAcceptor = mc.m_networkSentMessageAcceptor)
    (hd : mc'.m_storage.hasDatabase = mc.m_storage.hasDatabase) : Aside mc0 mc' :=
  Aside.andThen h ⟨[e], ht, hq, ha, hd, fun e' he' => by rw [List.mem_singleton.mp he']; exact hp⟩

theorem Aside.thenAsk (q : StorageQuery) (h : Aside mc0 mc) : Aside mc0 (mc.ask q) :=
  h.thenCall (.query q) rfl rfl rfl rfl rfl

theorem Aside.thenEmit (s : Signal) (h : Aside mc0 mc) : Aside mc0 (mc.emit s) :=
  h.thenCall (.signal s) rfl rfl rfl rfl rfl

theorem Aside.thenTick (h : Aside mc0 mc) : Aside mc0 mc.tick :=
  Aside.andThen h ⟨[], (List.append_nil _).symm, rfl, rfl, rfl,
    fun e he => absurd he (List.not_mem_nil e)⟩

/-- A recorded method call that is not the call of an inbound handler. -/
theorem Aside.thenEnter (c : MethodCall) (h : Aside mc0 mc) (hc : (Event.call c).plain = true) :
    Aside mc0 (mc.enter c) :=
  h.thenCall (.call c) rfl hc rfl rfl rfl

/-- A mutating storage call other than the application of an inbound group
message. -/
theorem Aside.thenStore (env : Env σ) (c : StorageCall) (h : Aside mc0 mc)
    (hc : (Event.storage c).plain = true) : Aside mc0 (mc.store env c) :=
  h.thenCall (.storage c) rfl hc rfl rfl rfl

/-- A call on the transport other than an acknowledgement. -/
theorem Aside.thenSend (c : TransportCall) (h : Aside mc0 mc)
    (hc : (Event.transport c).plain = true) : Aside mc0 (mc.send c) :=
  h.thenCall (.transport c) rfl hc rfl rfl rfl

theorem Aside.thenHasMessageForGroup (g : GroupId) (h : Aside mc0 mc) :
    Aside mc0 (mc.log (.queue (.hasMessageForGroup g))) :=
  h.thenCall _ rfl rfl rfl rfl rfl

theorem Aside.thenSendSyncRequest (env : Env σ) (g : GroupId) (h : Aside mc0 mc) :
    Aside mc0 (sendSyncRequest env g mc).2 := by
  simp only [SimpleMessageCenter.sendSyncRequest]
  split_ifs <;>
    repeat' first
      | exact h
      | rfl
      | apply Aside.thenAsk
      | apply Aside.thenTick
      | refine Aside.thenStore _ _ ?_ ?_
      | refine Aside.thenSend _ ?_ ?_

theorem Aside.thenRequestSyncForGroupIfApplicable (env : Env σ) (g : GroupId) (h : Aside mc0 mc) :
    Aside mc0 (requestSyncForGroupIfApplicable env g mc) := by
  simp only [SimpleMessageCenter.requestSyncForGroupIfApplicable]
  split_ifs
  · exact Aside.thenSendSyncRequest env g ((h.thenHasMessageForGroup g).thenEnter _ rfl)
  · exact h.thenHasMessageForGroup g

theorem Aside.thenCheckAndFixGroupMembership (env : Env σ) (g : GroupId) (sender : ContactId)
    (h : Aside mc0 mc) : Aside mc0 (checkAndFixGroupMembership env g sender mc).2 := by
  simp only [SimpleMessageCenter.checkAndFixGroupMembership]
  split_ifs <;>
    repeat' first
      | exact h
      | rfl
      | apply Aside.thenAsk
      | apply Aside.thenRequestSyncForGroupIfApplicable
      | refine Aside.thenStore _ _ ?_ ?_
      | refine Aside.thenEnter _ ?_ ?_

theorem Aside.thenSendGroupCreation (env : Env σ) (g : GroupId) (members recipients : Finset ContactId)
    (applyOperationInDatabase : Bool) (h : Aside mc0 mc) :
    Aside mc0 (sendGroupCreation env g members recipients applyOperationInDatabase mc).2 := by
  simp only [SimpleMessageCenter.sendGroupCreation]
  split_ifs <;>
    repeat' first
      | exact h
      | rfl
      | apply Aside.thenAsk
      | apply Aside.thenTick
      | refine Aside.thenStore _ _ ?_ ?_
      | refine Aside.thenSend _ ?_ ?_

theorem Aside.thenSendGroupTitle (env : Env σ) (g : GroupId) (title : QString)
    (recipients : Finset ContactId) (applyOperationInDatabase : Bool) (h : Aside mc0 mc) :
    Aside mc0 (sendGroupTitle env g title recipients applyOperationInDatabase mc).2 := by
  simp only [SimpleMessageCenter.sendGroupTitle]
  split_ifs <;>
    repeat' first
      | exact h
      | rfl
      | apply Aside.thenAsk
      | apply Aside.thenTick
      | refine Aside.thenStore _ _ ?_ ?_
      | refine Aside.thenSend _ ?_ ?_

theorem Aside.thenSendGroupImage (env : Env σ) (g : GroupId) (image : QByteArray)
    (recipients : Finset ContactId) (applyOperationInDatabase : Bool) (h : Aside mc0 mc) :
    Aside mc0 (sendGroupImage env g image recipients applyOperationInDatabase mc).2 := by
  simp only [SimpleMessageCenter.sendGroupImage]
  split_ifs <;>
    repeat' first
      | exact h
      | rfl
      | apply Aside.thenAsk
      | apply Aside.thenTick
      | refine Aside.thenStore _ _ ?_ ?_
      | refine Aside.thenSend _ ?_ ?_

theorem Aside.thenResendGroupSetup (env : Env σ) (g : GroupId) (recipients : Finset ContactId)
    (h : Aside mc0 mc) : Aside mc0 (resendGroupSetup env g recipients mc) := by
  simp only [SimpleMessageCenter.resendGroupSetup]
  split_ifs <;>
    repeat' first
      | exact h
      | rfl
      | apply Aside.thenAsk
      | apply Aside.thenSendGroupCreation
      | apply Aside.thenSendGroupTitle
      | apply Aside.thenSendGroupImage
      | refine Aside.thenEnter _ ?_ ?_

end aside

/-! ### The outcomes of an inbound group handler -/

section outcome

variable {σ : Type} (env : Env σ)

@[simp] theorem trace_defer (mc : SimpleMessageCenter σ) (entry : ReceivedGroupMessage) :
    (mc.defer entry).trace = mc.trace ++ [.queue (.storeGroupMessage entry)] := rfl

@[simp] theorem queue_defer (mc : SimpleMessageCenter σ) (entry : ReceivedGroupMessage) :
    (mc.defer entry).m_messageQueue = mc.m_messageQueue ++ [entry] := rfl

@[simp] theorem trace_openTabForIncomingMessage (mc : SimpleMessageCenter σ) (g : GroupId) :
    (mc.openTabForIncomingMessage g).trace = mc.trace ++ [.signal (.newUnreadMessageAvailableGroup g)] :=
  rfl

@[simp] theorem queue_openTabForIncomingMessage (mc : SimpleMessageCenter σ) (g : GroupId) :
    (mc.openTabForIncomingMessage g).m_messageQueue = mc.m_messageQueue := rfl

@[simp] theorem acceptor_openTabForIncomingMessage (mc : SimpleMessageCenter σ) (g : GroupId) :
    (mc.openTabForIncomingMessage g).m_networkSentMessageAcceptor =
      mc.m_networkSentMessageAcceptor := rfl

theorem plain_append {l₁ l₂ : List Event} (h₁ : ∀ e ∈ l₁, e.plain = true)
    (h₂ : ∀ e ∈ l₂, e.plain = true) : ∀ e ∈ l₁ ++ l₂, e.plain = true := by
  intro e he
  rcases List.mem_append.mp he with h | h
  · exact h₁ e h
  · exact h₂ e h

theorem plain_nil : ∀ e ∈ ([] : List Event), e.plain = true :=
  fun e he => absurd he (List.not_mem_nil e)

/-- The three ways a call of an inbound group handler other than the one for
CREATION ends: the message is discarded, it is deferred, or it is applied. -/
theorem deliver_outcome (m : InboundGroupMessage) (hm : m.isCreation = false)
    (mc : SimpleMessageCenter σ) :
    (∃ evs, (deliver env m mc).trace = mc.trace ++ evs ∧ (∀ e ∈ evs, e.plain = true) ∧
        (deliver env m mc).m_messageQueue = mc.m_messageQueue) ∨
    (∃ evs entry,
        (deliver env m mc).trace = mc.trace ++ evs ++ [.queue (.storeGroupMessage entry)] ∧
        (∀ e ∈ evs, e.plain = true) ∧
        (deliver env m mc).m_messageQueue = mc.m_messageQueue ++ [entry] ∧
        entry.group = m.group ∧ entry.asQueuedByHandlers = true ∧
        entry.replayedAs = some m) ∨
    (∃ pre post,
        (deliver env m mc).trace = mc.trace ++ pre ++ [.storage (m.storeCall env)] ++
          (if mc.m_networkSentMessageAcceptor.isSome then
            [Event.transport (.sendMessageReceivedAcknowledgement m.sender m.messageId)]
          else []) ++ post ∧
        (∀ e ∈ pre, e.plain = true) ∧ (∀ e ∈ post, e.plain = true) ∧
        (deliver env m mc).m_messageQueue = mc.m_messageQueue) := by
  cases m with
  | creation g s i ts tr members => cases hm
  | text g s i ts tr msg =>
    obtain ⟨evs, ht, hq, ha, hd, hp⟩ := Aside.thenCheckAndFixGroupMembership env g s
      ((Aside.start mc).thenEnter (.checkAndFixGroupMembership g s) rfl)
    simp only [deliver, processReceivedGroupMessageText]
    by_cases hdb : mc.m_storage.hasDatabase = true
    · rw [if_pos hdb]
      exact Or.inl ⟨[], (List.append_nil _).symm, plain_nil, rfl⟩
    rw [if_neg hdb]
    cases hc : (checkAndFixGroupMembership env g s
      (mc.enter (.checkAndFixGroupMembership g s))).1
    · simp only [Bool.not_false, if_true]
      refine Or.inr (Or.inl ⟨evs, ⟨g, s, i, ts, tr, .TEXT, .string msg⟩, ?_, hp, ?_, rfl, rfl, rfl⟩)
      · rw [trace_defer, ht]
      · rw [queue_defer, hq]
    · simp only [Bool.not_true, Bool.false_eq_true, if_false]
      refine Or.inr (Or.inr ⟨evs ++ [.signal (.newUnreadMessageAvailableGroup g)], [], ?_,
        plain_append hp (by simp [Event.plain, Event.replayed?]), plain_nil, ?_⟩)
      · simp only [trace_acknowledge, trace_store, trace_openTabForIncomingMessage, ht,
          acceptor_store, acceptor_openTabForIncomingMessage, ha, List.append_assoc,
          List.append_nil, InboundGroupMessage.storeCall, InboundGroupMessage.sender,
          InboundGroupMessage.messageId]
      · simp only [queue_acknowledge, queue_store, queue_openTabForIncomingMessage, hq]
  | image g s i ts tr img =>
    obtain ⟨evs, ht, hq, ha, hd, hp⟩ := Aside.thenCheckAndFixGroupMembership env g s
      ((Aside.start mc).thenEnter (.checkAndFixGroupMembership g s) rfl)
    simp only [deliver, processReceivedGroupMessageImage]
    by_cases hdb : mc.m_storage.hasDatabase = true
    · rw [if_pos hdb]
      exact Or.inl ⟨[], (List.append_nil _).symm, plain_nil, rfl⟩
    rw [if_neg hdb]
    cases hc : (checkAndFixGroupMembership env g s
      (mc.enter (.checkAndFixGroupMembership g s))).1
    · simp only [Bool.not_false, if_true]
      refine Or.inr (Or.inl ⟨evs, ⟨g, s, i, ts, tr, .IMAGE, .byteArray img⟩, ?_, hp, ?_, rfl,
        rfl, rfl⟩)
      · rw [trace_defer, ht]
      · rw [queue_defer, hq]
    · simp only [Bool.not_true, Bool.false_eq_true, if_false]
      refine Or.inr (Or.inr ⟨evs ++ [.signal (.newUnreadMessageAvailableGroup g)], [], ?_,
        plain_append hp (by simp [Event.plain, Event.replayed?]), plain_nil, ?_⟩)
      · simp only [trace_acknowledge, trace_store, trace_openTabForIncomingMessage, ht,
          acceptor_store, acceptor_openTabForIncomingMessage, ha, List.append_assoc,
          List.append_nil, InboundGroupMessage.storeCall, InboundGroupMessage.sender,
          InboundGroupMessage.messageId]
      · simp only [queue_acknowledge, queue_store, queue_openTabForIncomingMessage, hq]
  | location g s i ts tr loc =>
    obtain ⟨evs, ht, hq, ha, hd, hp⟩ := Aside.thenCheckAndFixGroupMembership env g s
      ((Aside.start mc).thenEnter (.checkAndFixGroupMembership g s) rfl)
    simp only [deliver, processReceivedGroupMessageLocation]
    by_cases hdb : mc.m_storage.hasDatabase = true
    · rw [if_pos hdb]
      exact Or.inl ⟨[], (List.append_nil _).symm, plain_nil, rfl⟩
    rw [if_neg hdb]
    cases hc : (checkAndFixGroupMembership env g s
      (mc.enter (.checkAndFixGroupMembership g s))).1
    · simp only [Bool.not_false, if_true]
      refine Or.inr (Or.inl ⟨evs, ⟨g, s, i, ts, tr, .LOCATION, .location loc⟩, ?_, hp, ?_, rfl,
        rfl, rfl⟩)
      · rw [trace_defer, ht]
      · rw [queue_defer, hq]
    · simp only [Bool.not_true, Bool.false_eq_true, if_false]
      refine Or.inr (Or.inr ⟨evs ++ [.signal (.newUnreadMessageAvailableGroup g)], [], ?_,
        plain_append hp (by simp [Event.plain, Event.replayed?]), plain_nil, ?_⟩)
      · simp only [trace_acknowledge, trace_store, trace_openTabForIncomingMessage, ht,
          acceptor_store, acceptor_openTabForIncomingMessage, ha, List.append_assoc,
          List.append_nil, InboundGroupMessage.storeCall, InboundGroupMessage.sender,
          InboundGroupMessage.messageId]
      · simp only [queue_acknowledge, queue_store, queue_openTabForIncomingMessage, hq]
  | setImage g s i ts tr img =>
    obtain ⟨evs, ht, hq, ha, hd, hp⟩ := Aside.thenCheckAndFixGroupMembership env g s
      ((Aside.start mc).thenEnter (.checkAndFixGroupMembership g s) rfl)
    simp only [deliver, processReceivedGroupSetImage]
    by_cases hdb : mc.m_storage.hasDatabase = true
    · rw [if_pos hdb]
      exact Or.inl ⟨[], (List.append_nil _).symm, plain_nil, rfl⟩
    rw [if_neg hdb]
    by_cases hs : s ≠ g.getOwner
    · rw [if_pos hs]
      exact Or.inl ⟨[], (List.append_nil _).symm, plain_nil, rfl⟩
    rw [if_neg hs]
    have hs' : s = g.getOwner := not_not.mp hs
    cases hc : (checkAndFixGroupMembership env g s
      (mc.enter (.checkAndFixGroupMembership g s))).1
    · simp only [Bool.not_false, if_true]
      refine Or.inr (Or.inl ⟨evs, ⟨g, s, i, ts, tr, .SET_IMAGE, .byteArray img⟩, ?_, hp, ?_, rfl,
        by simp [ReceivedGroupMessage.asQueuedByHandlers, ReceivedGroupMessage.handlerCall, ReceivedGroupMessage.ownerOnly, hs'], rfl⟩)
      · rw [trace_defer, ht]
      · rw [queue_defer, hq]
    · simp only [Bool.not_true, Bool.false_eq_true, if_false]
      refine Or.inr (Or.inr ⟨evs, [], ?_,
        hp, plain_nil, ?_⟩)
      · simp only [trace_acknowledge, trace_store, trace_openTabForIncomingMessage, ht,
          acceptor_store, acceptor_openTabForIncomingMessage, ha, List.append_assoc,
          List.append_nil, InboundGroupMessage.storeCall, InboundGroupMessage.sender,
          InboundGroupMessage.messageId]
      · simp only [queue_acknowledge, queue_store, queue_openTabForIncomingMessage, hq]
  | setTitle g s i ts tr title =>
    obtain ⟨evs, ht, hq, ha, hd, hp⟩ := Aside.thenCheckAndFixGroupMembership env g s
      ((Aside.start mc).thenEnter (.checkAndFixGroupMembership g s) rfl)
    simp only [deliver, processReceivedGroupSetTitle]
    by_cases hdb : mc.m_storage.hasDatabase = true
    · rw [if_pos hdb]
      exact Or.inl ⟨[], (List.append_nil _).symm, plain_nil, rfl⟩
    rw [if_neg hdb]
    by_cases hs : s ≠ g.getOwner
    · rw [if_pos hs]
      exact Or.inl ⟨[], (List.append_nil _).symm, plain_nil, rfl⟩
    rw [if_neg hs]
    have hs' : s = g.getOwner := not_not.mp hs
    cases hc : (checkAndFixGroupMembership env g s
      (mc.enter (.checkAndFixGroupMembership g s))).1
    · simp only [Bool.not_false, if_true]
      refine Or.inr (Or.inl ⟨evs, ⟨g, s, i, ts, tr, .SET_TITLE, .string title⟩, ?_, hp, ?_, rfl,
        by simp [ReceivedGroupMessage.asQueuedByHandlers, ReceivedGroupMessage.handlerCall, ReceivedGroupMessage.ownerOnly, hs'], rfl⟩)
      · rw [trace_defer, ht]
      · rw [queue_defer, hq]
    · simp only [Bool.not_true, Bool.false_eq_true, if_false]
      refine Or.inr (Or.inr ⟨evs, [], ?_,
        hp, plain_nil, ?_⟩)
      · simp only [trace_acknowledge, trace_store, trace_openTabForIncomingMessage, ht,
          acceptor_store, acceptor_openTabForIncomingMessage, ha, List.append_assoc,
          List.append_nil, InboundGroupMessage.storeCall, InboundGroupMessage.sender,
          InboundGroupMessage.messageId]
      · simp only [queue_acknowledge, queue_store, queue_openTabForIncomingMessage, hq]
  | leave g s i ts tr  =>
    obtain ⟨evs, ht, hq, ha, hd, hp⟩ := Aside.thenCheckAndFixGroupMembership env g s
      ((Aside.start mc).thenEnter (.checkAndFixGroupMembership g s) rfl)
    simp only [deliver, processReceivedGroupLeave]
    by_cases hdb : mc.m_storage.hasDatabase = true
    · rw [if_pos hdb]
      exact Or.inl ⟨[], (List.append_nil _).symm, plain_nil, rfl⟩
    rw [if_neg hdb]
    cases hc : (checkAndFixGroupMembership env g s
      (mc.enter (.checkAndFixGroupMembership g s))).1
    · simp only [Bool.not_false, if_true]
      refine Or.inr (Or.inl ⟨evs, ⟨g, s, i, ts, tr, .LEAVE, .null⟩, ?_, hp, ?_, rfl,
        rfl, rfl⟩)
      · rw [trace_defer, ht]
      · rw [queue_defer, hq]
    · simp only [Bool.not_true, Bool.false_eq_true, if_false]
      refine Or.inr (Or.inr ⟨evs, [], ?_,
        hp, plain_nil, ?_⟩)
      · simp only [trace_acknowledge, trace_store, trace_openTabForIncomingMessage, ht,
          acceptor_store, acceptor_openTabForIncomingMessage, ha, List.append_assoc,
          List.append_nil, InboundGroupMessage.storeCall, InboundGroupMessage.sender,
          InboundGroupMessage.messageId]
      · simp only [queue_acknowledge, queue_store, queue_openTabForIncomingMessage, hq]
  | syncRequest g s i ts tr =>
    obtain ⟨evs, ht, hq, ha, hd, hp⟩ := Aside.thenCheckAndFixGroupMembership env g s
      (((Aside.start mc).thenAsk .getSelfContact).thenEnter (.checkAndFixGroupMembership g s) rfl)
    simp only [deliver, processReceivedGroupSyncRequest]
    by_cases hdb : mc.m_storage.hasDatabase = true
    · rw [if_pos hdb]
      exact Or.inl ⟨[], (List.append_nil _).symm, plain_nil, rfl⟩
    rw [if_neg hdb]
    by_cases hs : s = g.getOwner
    · rw [if_pos hs]
      exact Or.inl ⟨[], (List.append_nil _).symm, plain_nil, rfl⟩
    rw [if_neg hs]
    by_cases ho : g.getOwner ≠ env.getSelfContact (mc.ask .getSelfContact).db
    · rw [if_pos ho]
      exact Or.inl ⟨[.query .getSelfContact], rfl, by simp [Event.plain, Event.replayed?], rfl⟩
    rw [if_neg ho]
    cases hc : (checkAndFixGroupMembership env g s
      ((mc.ask .getSelfContact).enter (.checkAndFixGroupMembership g s))).1
    · simp only [Bool.not_false, if_true]
      refine Or.inr (Or.inl ⟨evs, ⟨g, s, i, ts, tr, .SYNC_REQUEST, .null⟩, ?_, hp, ?_, rfl,
        by simp [ReceivedGroupMessage.asQueuedByHandlers, ReceivedGroupMessage.handlerCall,
          ReceivedGroupMessage.ownerOnly, hs], rfl⟩)
      · rw [trace_defer, ht]
      · rw [queue_defer, hq]
    · simp only [Bool.not_true, Bool.false_eq_true, if_false]
      obtain ⟨post, pt, pq, pa, pd, pp⟩ := Aside.thenResendGroupSetup env g {s}
        ((Aside.start (((checkAndFixGroupMembership env g s
          ((mc.ask .getSelfContact).enter (.checkAndFixGroupMembership g s))).2.store env
            (.storeReceivedGroupSyncRequest g s i ts tr)).acknowledge s i)).thenEnter
          (.resendGroupSetup g {s}) rfl)
      refine Or.inr (Or.inr ⟨evs, post, ?_, hp, pp, ?_⟩)
      · rw [pt]
        simp only [trace_acknowledge, trace_store, ht,
          acceptor_store, ha, List.append_assoc,
          List.append_nil, InboundGroupMessage.storeCall, InboundGroupMessage.sender,
          InboundGroupMessage.messageId]
      · rw [pq]
        simp only [queue_acknowledge, queue_store, hq]

end outcome

section acks

variable {σ : Type} (env : Env σ)

theorem filterMap_applied_of_plain {l : List Event} (h : ∀ e ∈ l, e.plain = true) :
    l.filterMap Event.applied? = [] := by
  rw [List.filterMap_eq_nil_iff]
  intro e he
  have hp := h e he
  cases e with
  | storage c =>
    cases hc : c.isReceivedGroup
    · simp [Event.applied?, hc]
    · simp [Event.plain, hc] at hp
  | _ => rfl

theorem filterMap_acknowledged_of_plain {l : List Event} (h : ∀ e ∈ l, e.plain = true) :
    l.filterMap Event.acknowledged? = [] := by
  rw [List.filterMap_eq_nil_iff]
  intro e he
  have hp := h e he
  cases e with
  | transport c => cases c <;> first | rfl | simp [Event.plain] at hp
  | _ => rfl

theorem filterMap_deferred_of_plain {l : List Event} (h : ∀ e ∈ l, e.plain = true) :
    l.filterMap Event.deferred? = [] := by
  rw [List.filterMap_eq_nil_iff]
  intro e he
  have hp := h e he
  cases e with
  | queue c => cases c <;> first | rfl | simp [Event.plain] at hp
  | _ => rfl

theorem filterMap_replayed_of_plain {l : List Event} (h : ∀ e ∈ l, e.plain = true) :
    l.filterMap Event.replayed? = [] := by
  rw [List.filterMap_eq_nil_iff]
  intro e he
  have hp := h e he
  cases e with
  | call c => simpa [Event.plain] using hp
  | _ => rfl

theorem countP_isDrain_of_plain {l : List Event} (h : ∀ e ∈ l, e.plain = true) :
    l.countP Event.isDrain = 0 := by
  rw [List.countP_eq_zero]
  intro e he
  have hp := h e he
  cases e with
  | queue c => cases c <;> first | (simp [Event.plain] at hp; done) | simp [Event.isDrain]
  | _ => simp [Event.isDrain]

theorem storeCall_isReceivedGroup (m : InboundGroupMessage) :
    (m.storeCall env).isReceivedGroup = true := by
  cases m <;> rfl

theorem applied_storeCall (m : InboundGroupMessage) :
    (Event.storage (m.storeCall env)).applied? = some (m.storeCall env) := by
  simp [Event.applied?, storeCall_isReceivedGroup]

/-- What a call of an inbound group handler other than the one for CREATION
records: at most one application to storage, that of the message; the
acknowledgement of the message once if it was applied and an acceptor is
set, and none otherwise; and if the message was deferred, it was not applied
and the entry queued is replayed as the message. -/
theorem deliver_acknowledges (m : InboundGroupMessage) (hm : m.isCreation = false)
    (mc : SimpleMessageCenter σ) :
    ((callsSince mc (deliver env m mc)).filterMap Event.applied? = [] ∨
      (callsSince mc (deliver env m mc)).filterMap Event.applied? = [m.storeCall env]) ∧
    ((callsSince mc (deliver env m mc)).filterMap Event.acknowledged? =
      if (callsSince mc (deliver env m mc)).filterMap Event.applied? = [m.storeCall env] ∧
          mc.m_networkSentMessageAcceptor.isSome = true then [(m.sender, m.messageId)]
      else []) ∧
    (∀ entry, Event.queue (.storeGroupMessage entry) ∈ callsSince mc (deliver env m mc) →
      (callsSince mc (deliver env m mc)).filterMap Event.applied? = [] ∧
      entry.replayedAs = some m) := by
  rcases deliver_outcome env m hm mc with ⟨evs, ht, hp, -⟩ | ⟨evs, entry, ht, hp, -, -, -, hr⟩ |
    ⟨pre, post, ht, hpre, hpost, -⟩
  · have hc : callsSince mc (deliver env m mc) = evs := by
      simp only [callsSince, ht, List.drop_left']
    rw [hc, filterMap_applied_of_plain hp, filterMap_acknowledged_of_plain hp]
    refine ⟨Or.inl rfl, by simp, fun entry he => ?_⟩
    have := filterMap_deferred_of_plain hp
    rw [List.filterMap_eq_nil_iff] at this
    exact absurd (this _ he) (by simp [Event.deferred?])
  · have hc : callsSince mc (deliver env m mc) = evs ++ [.queue (.storeGroupMessage entry)] := by
      simp only [callsSince, ht, List.append_assoc, List.drop_left']
    rw [hc]
    simp only [List.filterMap_append, filterMap_applied_of_plain hp,
      filterMap_acknowledged_of_plain hp, List.nil_append]
    refine ⟨Or.inl rfl, by simp [Event.applied?, Event.acknowledged?], fun entry' he => ?_⟩
    refine ⟨rfl, ?_⟩
    rcases List.mem_append.mp he with h | h
    · have := filterMap_deferred_of_plain hp
      rw [List.filterMap_eq_nil_iff] at this
      exact absurd (this _ h) (by simp [Event.deferred?])
    · simp only [List.mem_singleton, Event.queue.injEq, QueueCall.storeGroupMessage.injEq] at h
      rw [h]; exact hr
  · have hc : callsSince mc (deliver env m mc) = pre ++ [.storage (m.storeCall env)] ++
          (if mc.m_networkSentMessageAcceptor.isSome then
            [Event.transport (.sendMessageReceivedAcknowledgement m.sender m.messageId)]
          else []) ++ post := by
      simp only [callsSince, ht, List.append_assoc, List.drop_left']
    rw [hc]
    have happ : (pre ++ [Event.storage (m.storeCall env)] ++
          (if mc.m_networkSentMessageAcceptor.isSome then
            [Event.transport (.sendMessageReceivedAcknowledgement m.sender m.messageId)]
          else []) ++ post).filterMap Event.applied? = [m.storeCall env] := by
      simp only [List.filterMap_append, filterMap_applied_of_plain hpre,
        filterMap_applied_of_plain hpost, List.nil_append, List.append_nil]
      split_ifs <;> simp [Event.applied?, storeCall_isReceivedGroup]
    rw [happ]
    refine ⟨Or.inr rfl, ?_, fun entry he => ?_⟩
    · simp only [List.filterMap_append, filterMap_acknowledged_of_plain hpre,
        filterMap_acknowledged_of_plain hpost, List.nil_append, List.append_nil]
      split_ifs <;> simp_all [Event.acknowledged?]
    · exfalso
      simp only [List.mem_append, List.mem_singleton] at he
      rcases he with ((h | h) | h) | h
      · have := filterMap_deferred_of_plain hpre
        rw [List.filterMap_eq_nil_iff] at this
        exact absurd (this _ h) (by simp [Event.deferred?])
      · cases h
      · split_ifs at h
        · simp at h
        · simp at h
      · have := filterMap_deferred_of_plain hpost
        rw [List.filterMap_eq_nil_iff] at this
        exact absurd (this _ h) (by simp [Event.deferred?])

/-- The replay of a queued entry calls the handler of the message the entry
is replayed as. -/
theorem replayEntry_replayedAs (it : ReceivedGroupMessage) (m : InboundGroupMessage)
    (h : it.replayedAs = some m) (mc : SimpleMessageCenter σ) :
    m.isCreation = false ∧ m.group = it.group ∧
    ∃ c, (Event.call c).replayed? = some c ∧
      replayEntry env it mc = some (deliver env m (mc.enter c)) := by
  unfold ReceivedGroupMessage.replayedAs at h
  unfold replayEntry
  cases hty : it.messageType <;> rw [hty] at h <;>
    simp only [Option.some.injEq, reduceCtorEq] at h <;> subst h <;>
    (refine ⟨rfl, rfl, _, ?_, rfl⟩; rfl)

end acks

/-! ### The replay loop, turn by turn -/

section replayLoop

variable {σ : Type} (env : Env σ)

/-- The work of an inbound group handler other than the one for CREATION: it
calls no inbound group handler and drains nothing, and the queue grows by the
entries it defers, at most one, which is an entry of the message's group as
the handlers queue them and is replayed as the message. -/
theorem deliver_work (m : InboundGroupMessage) (hm : m.isCreation = false)
    (mc : SimpleMessageCenter σ) :
    ∃ evs added, (deliver env m mc).trace = mc.trace ++ evs ∧
      (deliver env m mc).m_messageQueue = mc.m_messageQueue ++ added ∧
      evs.filterMap Event.deferred? = added ∧
      evs.filterMap Event.replayed? = [] ∧
      evs.countP Event.isDrain = 0 ∧
      added.length ≤ 1 ∧
      ∀ entry ∈ added, entry.group = m.group ∧ entry.asQueuedByHandlers = true ∧
        entry.replayedAs = some m := by
  rcases deliver_outcome env m hm mc with ⟨evs, ht, hp, hq⟩ | ⟨evs, entry, ht, hp, hq, hg, ha, hr⟩ |
    ⟨pre, post, ht, hpre, hpost, hq⟩
  · exact ⟨evs, [], ht, by rw [hq, List.append_nil], filterMap_deferred_of_plain hp,
      filterMap_replayed_of_plain hp, countP_isDrain_of_plain hp, Nat.zero_le _,
      fun e he => absurd he (List.not_mem_nil e)⟩
  · refine ⟨evs ++ [.queue (.storeGroupMessage entry)], [entry], by rw [ht, List.append_assoc],
      hq, ?_, ?_, ?_, Nat.le_refl _, ?_⟩
    · rw [List.filterMap_append, filterMap_deferred_of_plain hp]; rfl
    · rw [List.filterMap_append, filterMap_replayed_of_plain hp]; rfl
    · rw [List.countP_append, countP_isDrain_of_plain hp]; rfl
    · intro e he
      rw [List.mem_singleton.mp he]
      exact ⟨hg, ha, hr⟩
  · refine ⟨pre ++ [.storage (m.storeCall env)] ++
          (if mc.m_networkSentMessageAcceptor.isSome then
            [Event.transport (.sendMessageReceivedAcknowledgement m.sender m.messageId)]
          else []) ++ post, [], by rw [ht]; simp only [List.append_assoc],
      by rw [hq, List.append_nil], ?_, ?_, ?_, Nat.zero_le _,
      fun e he => absurd he (List.not_mem_nil e)⟩
    · simp only [List.filterMap_append, filterMap_deferred_of_plain hpre,
        filterMap_deferred_of_plain hpost, List.nil_append, List.append_nil]
      cases mc.m_networkSentMessageAcceptor.isSome <;> simp [Event.deferred?]
    · simp only [List.filterMap_append, filterMap_replayed_of_plain hpre,
        filterMap_replayed_of_plain hpost, List.nil_append, List.append_nil]
      cases mc.m_networkSentMessageAcceptor.isSome <;> simp [Event.replayed?]
    · simp only [List.countP_append, countP_isDrain_of_plain hpre,
        countP_isDrain_of_plain hpost]
      cases mc.m_networkSentMessageAcceptor.isSome <;> simp [Event.isDrain]

/-- The `default` branch of the replay loop is taken exactly for an entry
whose type is none of the seven deferred types. -/
theorem replayEntry_eq_none_iff (it : ReceivedGroupMessage) (mc : SimpleMessageCenter σ) :
    replayEntry env it mc = none ↔ it.replayedAs = none := by
  unfold replayEntry ReceivedGroupMessage.replayedAs
  cases it.messageType <;> simp

theorem asQueuedByHandlers_replayedAs {it : ReceivedGroupMessage}
    (h : it.asQueuedByHandlers = true) : (it.replayedAs).isSome = true := by
  obtain ⟨g, s, i, ts, tr, ty, content⟩ := it
  cases ty <;> first
    | rfl
    | (cases content <;>
        simp [ReceivedGroupMessage.asQueuedByHandlers, ReceivedGroupMessage.handlerCall] at h)

/-- The replay loop over a snapshot of entries of `g`: no drain; at most one
handler call per entry of the snapshot, and exactly one per entry when the
loop is not left by the exception; the queue grows by the entries deferred
again, which are entries of `g` as the handlers queue them. -/
theorem replayQueuedMessages_work (g : GroupId) (L : List ReceivedGroupMessage) :
    ∀ mc : SimpleMessageCenter σ, (∀ it ∈ L, it.group = g) →
      ∃ evs added, (replayQueuedMessages env L mc).1.trace = mc.trace ++ evs ∧
        (replayQueuedMessages env L mc).1.m_messageQueue = mc.m_messageQueue ++ added ∧
        evs.filterMap Event.deferred? = added ∧
        evs.countP Event.isDrain = 0 ∧
        (evs.filterMap Event.replayed?).length ≤ L.length ∧
        added.length ≤ (evs.filterMap Event.replayed?).length ∧
        ((replayQueuedMessages env L mc).2 = false →
          (evs.filterMap Event.replayed?).length = L.length) ∧
        ((∀ it ∈ L, (it.replayedAs).isSome = true) →
          (replayQueuedMessages env L mc).2 = false) ∧
        ∀ entry ∈ added, entry.group = g ∧ entry.asQueuedByHandlers = true := by
  induction L with
  | nil =>
    intro mc _
    exact ⟨[], [], (List.append_nil _).symm, (List.append_nil _).symm, rfl, rfl, Nat.le_refl _,
      Nat.le_refl _, fun _ => rfl, fun _ => rfl, fun e he => absurd he (List.not_mem_nil e)⟩
  | cons it rest ih =>
    intro mc hL
    have hit : it.group = g := hL it (List.mem_cons_self _ _)
    have hrest : ∀ it' ∈ rest, it'.group = g := fun it' h' => hL it' (List.mem_cons_of_mem _ h')
    cases hm : it.replayedAs with
    | none =>
      have hre := (replayEntry_eq_none_iff env it mc).mpr hm
      have hrun : replayQueuedMessages env (it :: rest) mc = (mc, true) := by
        simp only [replayQueuedMessages, hre]
      rw [hrun]
      refine ⟨[], [], (List.append_nil _).symm, (List.append_nil _).symm, rfl, rfl,
        Nat.zero_le _, Nat.le_refl _, (fun h => by cases h), fun h => ?_,
        fun e he => absurd he (List.not_mem_nil e)⟩
      have := h it (List.mem_cons_self _ _)
      rw [hm] at this
      cases this
    | some m =>
      obtain ⟨hcr, hmg, c, hc, hre⟩ := replayEntry_replayedAs env it m hm mc
      have hrun : replayQueuedMessages env (it :: rest) mc =
          replayQueuedMessages env rest (deliver env m (mc.enter c)) := by
        simp only [replayQueuedMessages, hre]
      rw [hrun]
      obtain ⟨evs1, added1, ht1, hq1, hd1, hr1, hn1, hl1, ha1⟩ := deliver_work env m hcr (mc.enter c)
      obtain ⟨evs2, added2, ht2, hq2, hd2, hn2, hr2, hl2, hf2, hall2, ha2⟩ :=
        ih (deliver env m (mc.enter c)) hrest
      have hcd : (Event.call c).deferred? = none := rfl
      have hcn : (Event.call c).isDrain = false := rfl
      have hrep : (Event.call c :: evs1 ++ evs2).filterMap Event.replayed? =
          c :: evs2.filterMap Event.replayed? := by
        rw [List.cons_append, List.filterMap_cons_some hc, List.filterMap_append, hr1,
          List.nil_append]
      refine ⟨Event.call c :: evs1 ++ evs2, added1 ++ added2, ?_, ?_, ?_, ?_, ?_, ?_, ?_, ?_, ?_⟩
      · rw [ht2, ht1, trace_enter]
        simp only [List.append_assoc, List.singleton_append, List.cons_append, List.nil_append]
      · rw [hq2, hq1, queue_enter, List.append_assoc]
      · rw [List.cons_append, List.filterMap_cons_none hcd, List.filterMap_append, hd1, hd2]
      · rw [List.cons_append, List.countP_cons_of_neg, List.countP_append, hn1, hn2]
        simp [hcn]
      · rw [hrep]
        exact Nat.succ_le_succ hr2
      · rw [hrep, List.length_append, List.length_cons]
        omega
      · intro hflag
        rw [hrep, List.length_cons, List.length_cons, hf2 hflag]
      · intro hall
        exact hall2 (fun it' h' => hall it' (List.mem_cons_of_mem _ h'))
      · intro e he
        rcases List.mem_append.mp he with h | h
        · obtain ⟨h1, h2, -⟩ := ha1 e h
          exact ⟨by rw [h1, hmg, hit], h2⟩
        · exact ha2 e h

/-- A call of `processReceivedGroupCreation`: either it returns at one of its
two guards with the state untouched, or it stores the creation, acknowledges
it if an acceptor is set, drains the entries of the group once and replays
the snapshot. -/
theorem processReceivedGroupCreation_work (group : GroupId) (sender : ContactId)
    (messageId : MessageId) (timeSent timeReceived : MessageTime) (members : Finset ContactId)
    (mc : SimpleMessageCenter σ) :
    processReceivedGroupCreation env group sender messageId timeSent timeReceived members mc =
        (mc, false) ∨
    ∃ evs added,
      (processReceivedGroupCreation env group sender messageId timeSent timeReceived members
        mc).1.trace = mc.trace ++
          ([Event.storage (.storeReceivedGroupCreation group sender messageId timeSent
              timeReceived members)] ++
            (if mc.m_networkSentMessageAcceptor.isSome then
              [Event.transport (.sendMessageReceivedAcknowledgement sender messageId)] else []) ++
            [Event.queue (.getAndRemoveQueuedMessages group)] ++ evs) ∧
      (processReceivedGroupCreation env group sender messageId timeSent timeReceived members
        mc).1.m_messageQueue =
          mc.m_messageQueue.filter (fun m => !decide (m.group = group)) ++ added ∧
      evs.filterMap Event.deferred? = added ∧
      evs.countP Event.isDrain = 0 ∧
      (evs.filterMap Event.replayed?).length ≤ (mc.m_messageQueue.entriesOf group).length ∧
      added.length ≤ (evs.filterMap Event.replayed?).length ∧
      ((processReceivedGroupCreation env group sender messageId timeSent timeReceived members
          mc).2 = false →
        (evs.filterMap Event.replayed?).length = (mc.m_messageQueue.entriesOf group).length) ∧
      ((∀ it ∈ mc.m_messageQueue.entriesOf group, (it.replayedAs).isSome = true) →
        (processReceivedGroupCreation env group sender messageId timeSent timeReceived members
          mc).2 = false) ∧
      ∀ entry ∈ added, entry.group = group ∧ entry.asQueuedByHandlers = true := by
  by_cases hdb : mc.m_storage.hasDatabase = true
  · left
    simp only [processReceivedGroupCreation, hdb, if_true]
  by_cases hs : sender ≠ group.getOwner
  · left
    simp [processReceivedGroupCreation, hs]
  right
  have hs' : sender = group.getOwner := not_not.mp hs
  subst hs'
  rw [processReceivedGroupCreation_eq env group messageId timeSent timeReceived members mc
    (by simpa using hdb)]
  obtain ⟨evs, added, ht, hq, hd, hn, hr, hl, hf, hall, ha⟩ := replayQueuedMessages_work env group
    (mc.m_messageQueue.getAndRemoveQueuedMessages group).1
    (((mc.store env (.storeReceivedGroupCreation group group.getOwner messageId timeSent
      timeReceived members)).acknowledge group.getOwner messageId).drain group)
    (fun it hit => by simpa using (List.mem_filter.mp hit).2)
  refine ⟨evs, added, ?_, ?_, hd, hn, hr, hl, hf, hall, ha⟩
  · rw [ht]
    simp only [SimpleMessageCenter.drain, trace_acknowledge, trace_store, acceptor_store,
      List.append_assoc]
  · rw [hq]
    simp only [SimpleMessageCenter.drain, queue_acknowledge, queue_store,
      MessageQueue.getAndRemoveQueuedMessages]

end replayLoop

/-! ### The deferred queue under every operation -/

section queueOfOperations

variable {σ : Type} (env : Env σ) (mc : SimpleMessageCenter σ)

/-- The outbound sends leave the deferred queue as it is. -/
theorem OutboundSend.run_keeps_queue (op : OutboundSend) :
    (op.run env mc).2.m_messageQueue = mc.m_messageQueue := by
  cases op with
  | sendReceipt receiver receiptedMessageId receiptType =>
    cases receiptType <;> simp only [OutboundSend.run, SimpleMessageCenter.sendReceipt] <;>
      split_ifs <;> simp only [queue_send, queue_store, queue_tick, queue_ask, queue_enter]
  | sendGroupCreationPublic g ms =>
    simp only [OutboundSend.run, SimpleMessageCenter.sendGroupCreationPublic]
    split_ifs <;> first
      | rfl
      | (refine (Aside.thenSendGroupCreation env g ms _ true
          ((((Aside.start mc).thenAsk _).thenAsk _).thenEnter _ ?_)).queue_eq
         rfl)
  | sendGroupTitlePublic g t =>
    simp only [OutboundSend.run, SimpleMessageCenter.sendGroupTitlePublic]
    split_ifs <;> first
      | rfl
      | (refine (Aside.thenSendGroupTitle env g t _ true
          ((((Aside.start mc).thenAsk _).thenAsk _).thenEnter _ ?_)).queue_eq
         rfl)
  | sendGroupImagePublic g i =>
    simp only [OutboundSend.run, SimpleMessageCenter.sendGroupImagePublic]
    split_ifs <;> first
      | rfl
      | (refine (Aside.thenSendGroupImage env g i _ true
          ((((Aside.start mc).thenAsk _).thenAsk _).thenEnter _ ?_)).queue_eq
         rfl)
  | sendGroupCreation g ms r a =>
    exact (Aside.thenSendGroupCreation env g ms r a (Aside.start mc)).queue_eq
  | sendGroupTitle g t r a =>
    exact (Aside.thenSendGroupTitle env g t r a (Aside.start mc)).queue_eq
  | sendGroupImage g i r a =>
    exact (Aside.thenSendGroupImage env g i r a (Aside.start mc)).queue_eq
  | sendSyncRequest g =>
    exact (Aside.thenSendSyncRequest env g (Aside.start mc)).queue_eq
  | sendText r t =>
    simp only [OutboundSend.run, SimpleMessageCenter.sendText]
    split_ifs <;> simp only [queue_send, queue_store, queue_tick, queue_ask, queue_enter]
  | sendImage r i c =>
    simp only [OutboundSend.run, SimpleMessageCenter.sendImage]
    split_ifs <;> simp only [queue_send, queue_store, queue_tick, queue_ask, queue_enter]
  | sendLocation r l =>
    simp only [OutboundSend.run, SimpleMessageCenter.sendLocation]
    split_ifs <;> simp only [queue_send, queue_store, queue_tick, queue_ask, queue_enter]
  | sendTextGroup r t =>
    simp only [OutboundSend.run, SimpleMessageCenter.sendTextGroup]
    split_ifs <;> simp only [queue_send, queue_store, queue_tick, queue_ask, queue_enter]
  | sendImageGroup r i c =>
    simp only [OutboundSend.run, SimpleMessageCenter.sendImageGroup]
    split_ifs <;> simp only [queue_send, queue_store, queue_tick, queue_ask, queue_enter]
  | sendLocationGroup r l =>
    simp only [OutboundSend.run, SimpleMessageCenter.sendLocationGroup]
    split_ifs <;> simp only [queue_send, queue_store, queue_tick, queue_ask, queue_enter]
  | sendLeave g =>
    simp only [OutboundSend.run, SimpleMessageCenter.sendLeave]
    split_ifs <;> simp only [queue_send, queue_store, queue_tick, queue_ask, queue_enter]

theorem queue_sendReceipt (receiver : ContactId) (receiptedMessageId : MessageId)
    (receiptType : ReceiptType) :
    (sendReceipt env receiver receiptedMessageId receiptType mc).2.m_messageQueue =
      mc.m_messageQueue :=
  OutboundSend.run_keeps_queue env mc (.sendReceipt receiver receiptedMessageId receiptType)

theorem queue_drawFreshGroupId (selfContactId : ContactId) (randomGroupIds : Nat → Nat)
    (fuel : Nat) : ∀ (n : Nat) (mc : SimpleMessageCenter σ),
      (drawFreshGroupId env selfContactId randomGroupIds fuel n mc).2.m_messageQueue =
        mc.m_messageQueue := by
  induction fuel with
  | zero => exact fun n mc => rfl
  | succ fuel ih =>
    intro n mc
    simp only [drawFreshGroupId]
    split_ifs
    · rw [ih]; rfl
    · rfl

theorem queue_createNewGroupAndInformMembers (randomGroupIds : Nat → Nat) (fuel : Nat)
    (members : Finset ContactId) (addSelfContact : Bool) (groupTitle groupImage : QVariant) :
    (createNewGroupAndInformMembers env randomGroupIds fuel members addSelfContact groupTitle
      groupImage mc).2.m_messageQueue = mc.m_messageQueue := by
  have hC := fun g ms s => OutboundSend.run_keeps_queue env s (.sendGroupCreationPublic g ms)
  have hT := fun g t s => OutboundSend.run_keeps_queue env s (.sendGroupTitlePublic g t)
  have hI := fun g i s => OutboundSend.run_keeps_queue env s (.sendGroupImagePublic g i)
  simp only [OutboundSend.run] at hC hT hI
  have hD := queue_drawFreshGroupId env (env.getSelfContact (mc.ask .getSelfContact).db)
    randomGroupIds fuel 0 (mc.ask .getSelfContact)
  simp only [createNewGroupAndInformMembers]
  split_ifs <;> first
    | rfl
    | (split <;> simp only [hC, hT, hI, queue_enter, queue_store, hD, queue_ask])

/-- Every operation other than the inbound group handlers leaves the deferred
queue as it is. -/
theorem Operation.run_queue (op : Operation) (h : ∀ m, op ≠ .inbound m) :
    (op.run env mc).m_messageQueue = mc.m_messageQueue := by
  have hR := queue_sendReceipt env
  cases op with
  | inbound m => exact absurd rfl (h m)
  | send op => exact OutboundSend.run_keeps_queue env mc op
  | createNewGroupAndInformMembers r f ms a t i =>
    exact queue_createNewGroupAndInformMembers env mc r f ms a t i
  | resendGroupSetup g r =>
    exact (Aside.thenResendGroupSetup env g r (Aside.start mc)).queue_eq
  | resendGroupSetupAll g =>
    simp only [Operation.run, SimpleMessageCenter.resendGroupSetupAll]
    split_ifs
    · rfl
    · refine (Aside.thenResendGroupSetup env g _
        (((Aside.start mc).thenAsk _).thenEnter _ ?_)).queue_eq
      rfl
  | requestSyncForGroupIfApplicable g =>
    exact (Aside.thenRequestSyncForGroupIfApplicable env g (Aside.start mc)).queue_eq
  | checkAndFixGroupMembership g s =>
    exact (Aside.thenCheckAndFixGroupMembership env g s (Aside.start mc)).queue_eq
  | sendUserTypingStatus r t =>
    cases t <;> simp only [Operation.run, SimpleMessageCenter.sendUserTypingStatus] <;>
      split_ifs <;> rfl
  | sendReceiptGroup g i t =>
    cases t <;> simp only [Operation.run, SimpleMessageCenter.sendReceiptGroup] <;>
      split_ifs <;> rfl
  | setNetworkSentMessageAcceptor a =>
    rcases a with _ | a
    · rfl
    · simp only [Operation.run, SimpleMessageCenter.setNetworkSentMessageAcceptor,
        SimpleMessageCenter.tryResendingMessagesToNetwork, SimpleMessageCenter.enter,
        SimpleMessageCenter.log]
      split_ifs <;> rfl
  | tryResendingMessagesToNetwork =>
    simp only [Operation.run, SimpleMessageCenter.tryResendingMessagesToNetwork]
    split
    · rfl
    · split_ifs <;> rfl
  | _ =>
    simp only [Operation.run, SimpleMessageCenter.processReceivedContactMessageText,
      SimpleMessageCenter.processReceivedContactMessageImage,
      SimpleMessageCenter.processReceivedContactMessageLocation,
      SimpleMessageCenter.processReceivedContactMessageReceiptReceived,
      SimpleMessageCenter.processReceivedContactMessageReceiptSeen,
      SimpleMessageCenter.processReceivedContactMessageReceiptAgree,
      SimpleMessageCenter.processReceivedContactMessageReceiptDisagree,
      SimpleMessageCenter.processReceivedContactTypingNotificationTyping,
      SimpleMessageCenter.processReceivedContactTypingNotificationStopped,
      SimpleMessageCenter.onMessageSendFailedContact, SimpleMessageCenter.onMessageSendDoneContact,
      SimpleMessageCenter.onMessageSendFailedGroup, SimpleMessageCenter.onMessageSendDoneGroup,
      SimpleMessageCenter.onFoundNewContact, SimpleMessageCenter.onFoundNewGroup,
      SimpleMessageCenter.databaseOnMessageChanged]
    first
      | rfl
      | (split_ifs <;>
          simp only [hR, queue_enter, queue_acknowledge, queue_store, queue_ask, queue_emit,
            SimpleMessageCenter.openTabForIncomingMessageContact])

end queueOfOperations

section invariant

variable {σ : Type} (env : Env σ) (mc : SimpleMessageCenter σ)

/-- What a call of any operation does to the deferred queue: a call other
than `processReceivedGroupCreation` appends to it; a call of
`processReceivedGroupCreation` for `G` removes entries of `G` only and appends
entries of `G` only.  The entries appended are as the handlers queue them. -/
theorem Operation.run_queue_effect (op : Operation) :
    ∃ added, (∀ entry ∈ added, entry.asQueuedByHandlers = true) ∧
      ((op.creationGroup? = none ∧
          (op.run env mc).m_messageQueue = mc.m_messageQueue ++ added) ∨
        ∃ G, op.creationGroup? = some G ∧ (∀ entry ∈ added, entry.group = G) ∧
          ((op.run env mc).m_messageQueue = mc.m_messageQueue ∧ added = [] ∨
            (op.run env mc).m_messageQueue =
              mc.m_messageQueue.filter (fun m => !decide (m.group = G)) ++ added)) := by
  by_cases hin : ∀ m, op ≠ .inbound m
  · refine ⟨[], fun e he => absurd he (List.not_mem_nil e), Or.inl ⟨?_, ?_⟩⟩
    · cases op <;> first | rfl | exact absurd rfl (hin _)
    · rw [Operation.run_queue env mc op hin, List.append_nil]
  · obtain ⟨m, rfl⟩ : ∃ m, op = .inbound m := by
      by_contra hne
      exact hin (fun m hm => hne ⟨m, hm⟩)
    cases hcr : m.isCreation
    · obtain ⟨evs, added, -, hq, -, -, -, -, ha⟩ := deliver_work env m hcr mc
      refine ⟨added, fun e he => (ha e he).2.1, Or.inl ⟨?_, hq⟩⟩
      cases m <;> first | rfl | cases hcr
    · cases m with
      | creation g s i ts tr members =>
        rcases processReceivedGroupCreation_work env g s i ts tr members mc with h |
          ⟨evs, added, -, hq, -, -, -, -, -, -, ha⟩
        · refine ⟨[], fun e he => absurd he (List.not_mem_nil e),
            Or.inr ⟨g, rfl, fun e he => absurd he (List.not_mem_nil e), Or.inl ⟨?_, rfl⟩⟩⟩
          simp only [Operation.run, deliver, h]
        · exact ⟨added, fun e he => (ha e he).2,
            Or.inr ⟨g, rfl, fun e he => (ha e he).1, Or.inr hq⟩⟩
      | _ => cases hcr

/-- Every operation keeps the queue one of entries as the handlers queue
them. -/
theorem Operation.run_asQueuedByHandlers (op : Operation)
    (h : ∀ it ∈ mc.m_messageQueue, it.asQueuedByHandlers = true) :
    ∀ it ∈ (op.run env mc).m_messageQueue, it.asQueuedByHandlers = true := by
  obtain ⟨added, ha, ⟨-, hq⟩ | ⟨G, -, -, ⟨hq, -⟩ | hq⟩⟩ := Operation.run_queue_effect env mc op
  · intro it hit
    rw [hq] at hit
    rcases List.mem_append.mp hit with h1 | h1
    · exact h it h1
    · exact ha it h1
  · rw [hq]; exact h
  · intro it hit
    rw [hq] at hit
    rcases List.mem_append.mp hit with h1 | h1
    · exact h it (List.mem_filter.mp h1).1
    · exact ha it h1

/-- Along any sequence of operations the queue stays one of entries as the
handlers queue them. -/
theorem Operation.runAll_asQueuedByHandlers (ops : List Operation) :
    ∀ mc : SimpleMessageCenter σ, (∀ it ∈ mc.m_messageQueue, it.asQueuedByHandlers = true) →
      ∀ it ∈ (Operation.runAll env ops mc).m_messageQueue, it.asQueuedByHandlers = true := by
  induction ops with
  | nil => exact fun mc h => h
  | cons op rest ih =>
    intro mc h
    exact ih (op.run env mc) (Operation.run_asQueuedByHandlers env mc op h)

/-- What `asQueuedByHandlers` says of an entry, spelled out. -/
theorem asQueuedByHandlers_spelled_out {it : ReceivedGroupMessage}
    (h : it.asQueuedByHandlers = true) :
    it.messageType ∈ [GroupMessageType.TEXT, .IMAGE, .LOCATION, .SET_IMAGE, .SET_TITLE,
      .SYNC_REQUEST, .LEAVE] ∧
    (it.messageType = .SET_IMAGE ∨ it.messageType = .SET_TITLE →
      it.sender = it.group.getOwner) ∧
    (it.messageType = .SYNC_REQUEST → it.sender ≠ it.group.getOwner) := by
  obtain ⟨g, s, i, ts, tr, ty, content⟩ := it
  cases ty <;> cases content <;>
    simp_all [ReceivedGroupMessage.asQueuedByHandlers, ReceivedGroupMessage.handlerCall,
      ReceivedGroupMessage.ownerOnly]

end invariant

/-! ### Calls recorded by the helper methods -/

section syncCalls

theorem sendSyncRequest_calls {σ : Type} (env : Env σ) (g : GroupId) (s : SimpleMessageCenter σ) :
    ∃ evs, (sendSyncRequest env g s).2.trace = s.trace ++ evs ∧
      evs.countP Event.isRequestSync = 0 ∧ evs.countP Event.isStoreNewGroup = 0 ∧
      ((sendSyncRequest env g s).2.db = s.db ∨
        ∃ t q, (sendSyncRequest env g s).2.db = env.perform s.db (.storeSentGroupSyncRequest g t q)) ∧
      (sendSyncRequest env g s).2.m_optionMaster = s.m_optionMaster := by
  simp only [sendSyncRequest]
  split_ifs with h1 h2 h3
  · exact ⟨[], (List.append_nil _).symm, rfl, rfl, Or.inl rfl, rfl⟩
  · exact ⟨[.query .getSelfContact], rfl, rfl, rfl, Or.inl rfl, rfl⟩
  · exact ⟨[.query .getSelfContact,
        .storage (.storeSentGroupSyncRequest g (env.timeAt s.ticks) s.willQueue),
        .transport (.processSentGroupSyncRequest g {g.getOwner}
          (env.messageIdOf s.db (.storeSentGroupSyncRequest g (env.timeAt s.ticks) s.willQueue))
          (env.timeAt s.ticks))],
      by simp, rfl, rfl, Or.inr ⟨_, _, rfl⟩, rfl⟩
  · exact ⟨[.query .getSelfContact,
        .storage (.storeSentGroupSyncRequest g (env.timeAt s.ticks) s.willQueue)],
      by simp, rfl, rfl, Or.inr ⟨_, _, rfl⟩, rfl⟩

theorem requestSync_calls {σ : Type} (env : Env σ) (g : GroupId) (s : SimpleMessageCenter σ) :
    ∃ evs, (requestSyncForGroupIfApplicable env g s).trace = s.trace ++ evs ∧
      evs.countP Event.isRequestSync = 0 ∧ evs.countP Event.isStoreNewGroup = 0 ∧
      ((requestSyncForGroupIfApplicable env g s).db = s.db ∨
        ∃ t q, (requestSyncForGroupIfApplicable env g s).db =
          env.perform s.db (.storeSentGroupSyncRequest g t q)) ∧
      (requestSyncForGroupIfApplicable env g s).m_optionMaster = s.m_optionMaster := by
  simp only [requestSyncForGroupIfApplicable]
  split_ifs
  · obtain ⟨evs, ht, h1, h2, hd, ho⟩ := sendSyncRequest_calls env g
      ((s.log (.queue (.hasMessageForGroup g))).enter (.sendSyncRequest g))
    refine ⟨[.queue (.hasMessageForGroup g), .call (.sendSyncRequest g)] ++ evs, ?_, ?_, ?_, ?_, ?_⟩
    · simp [ht]
    · simpa [Event.isRequestSync] using h1
    · simpa [Event.isStoreNewGroup] using h2
    · simpa using hd
    · simpa using ho
  · exact ⟨_, rfl, rfl, rfl, Or.inl rfl, rfl⟩

theorem dropWhile_until_storeNewGroup (l rest : List Event)
    (h : l.countP Event.isStoreNewGroup = 0) :
    (l ++ rest).dropWhile (fun e => !e.isStoreNewGroup) =
      rest.dropWhile (fun e => !e.isStoreNewGroup) := by
  apply List.dropWhile_append_of_pos
  intro a ha
  have := List.countP_eq_zero.mp h a ha
  simpa using this

end syncCalls

section resendCalls

variable {σ : Type} (env : Env σ) (s : SimpleMessageCenter σ) (group : GroupId)
  (recipients : Finset ContactId) (applyOperationInDatabase : Bool)

/-- The calls `sendGroupCreation` can record. -/
theorem sendGroupCreation_calls (members : Finset ContactId) :
    ∃ evs, (sendGroupCreation env group members recipients applyOperationInDatabase s).2.trace =
        s.trace ++ evs ∧
      (sendGroupCreation env group members recipients
        applyOperationInDatabase s).2.m_storage.hasDatabase = s.m_storage.hasDatabase ∧
      ∀ e ∈ evs, e = .query .getSelfContact ∨
        (∃ t q, e = .storage (.storeSentGroupCreation group t q members applyOperationInDatabase)) ∨
        ∃ i t, e = .transport (.processSentGroupCreation group recipients i t members) := by
  simp only [sendGroupCreation]
  split_ifs
  · exact ⟨[], (List.append_nil _).symm, rfl, fun e he => absurd he (List.not_mem_nil e)⟩
  · exact ⟨[.query .getSelfContact], rfl, rfl, fun e he => Or.inl (List.mem_singleton.mp he)⟩
  · exact ⟨[.query .getSelfContact,
        .storage (.storeSentGroupCreation group (env.timeAt s.ticks) s.willQueue members
          applyOperationInDatabase),
        .transport (.processSentGroupCreation group recipients
          (env.messageIdOf s.db (.storeSentGroupCreation group (env.timeAt s.ticks) s.willQueue
            members applyOperationInDatabase)) (env.timeAt s.ticks) members)],
      by simp, rfl, fun e he => by
        simp only [List.mem_cons, List.mem_singleton, List.not_mem_nil, or_false] at he
        rcases he with rfl | rfl | rfl
        · exact Or.inl rfl
        · exact Or.inr (Or.inl ⟨_, _, rfl⟩)
        · exact Or.inr (Or.inr ⟨_, _, rfl⟩)⟩
  · exact ⟨[.query .getSelfContact,
        .storage (.storeSentGroupCreation group (env.timeAt s.ticks) s.willQueue members
          applyOperationInDatabase)],
      by simp, rfl, fun e he => by
        simp only [List.mem_cons, List.mem_singleton, List.not_mem_nil, or_false] at he
        rcases he with rfl | rfl
        · exact Or.inl rfl
        · exact Or.inr (Or.inl ⟨_, _, rfl⟩)⟩

/-- The calls `sendGroupTitle` can record. -/
theorem sendGroupTitle_calls (title : QString) :
    ∃ evs, (sendGroupTitle env group title recipients applyOperationInDatabase s).2.trace =
        s.trace ++ evs ∧
      (sendGroupTitle env group title recipients
        applyOperationInDatabase s).2.m_storage.hasDatabase = s.m_storage.hasDatabase ∧
      ∀ e ∈ evs, e = .query .getSelfContact ∨
        (∃ t q, e = .storage (.storeSentGroupSetTitle group t q title applyOperationInDatabase)) ∨
        ∃ i t, e = .transport (.processSentGroupSetTitle group recipients i t title) := by
  simp only [sendGroupTitle]
  split_ifs
  · exact ⟨[], (List.append_nil _).symm, rfl, fun e he => absurd he (List.not_mem_nil e)⟩
  · exact ⟨[.query .getSelfContact], rfl, rfl, fun e he => Or.inl (List.mem_singleton.mp he)⟩
  · exact ⟨[.query .getSelfContact,
        .storage (.storeSentGroupSetTitle group (env.timeAt s.ticks) s.willQueue title
          applyOperationInDatabase),
        .transport (.processSentGroupSetTitle group recipients
          (env.messageIdOf s.db (.storeSentGroupSetTitle group (env.timeAt s.ticks) s.willQueue
            title applyOperationInDatabase)) (env.timeAt s.ticks) title)],
      by simp, rfl, fun e he => by
        simp only [List.mem_cons, List.mem_singleton, List.not_mem_nil, or_false] at he
        rcases he with rfl | rfl | rfl
        · exact Or.inl rfl
        · exact Or.inr (Or.inl ⟨_, _, rfl⟩)
        · exact Or.inr (Or.inr ⟨_, _, rfl⟩)⟩
  · exact ⟨[.query .getSelfContact,
        .storage (.storeSentGroupSetTitle group (env.timeAt s.ticks) s.willQueue title
          applyOperationInDatabase)],
      by simp, rfl, fun e he => by
        simp only [List.mem_cons, List.mem_singleton, List.not_mem_nil, or_false] at he
        rcases he with rfl | rfl
        · exact Or.inl rfl
        · exact Or.inr (Or.inl ⟨_, _, rfl⟩)⟩

/-- The calls `sendGroupImage` can record. -/
theorem sendGroupImage_calls (image : QByteArray) :
    ∃ evs, (sendGroupImage env group image recipients applyOperationInDatabase s).2.trace =
        s.trace ++ evs ∧
      (sendGroupImage env group image recipients
        applyOperationInDatabase s).2.m_storage.hasDatabase = s.m_storage.hasDatabase ∧
      ∀ e ∈ evs, e = .query .getSelfContact ∨
        (∃ t q, e = .storage (.storeSentGroupSetImage group t q image applyOperationInDatabase)) ∨
        ∃ i t, e = .transport (.processSentGroupSetImage group recipients i t image) := by
  simp only [sendGroupImage]
  split_ifs
  · exact ⟨[], (List.append_nil _).symm, rfl, fun e he => absurd he (List.not_mem_nil e)⟩
  · exact ⟨[.query .getSelfContact], rfl, rfl, fun e he => Or.inl (List.mem_singleton.mp he)⟩
  · exact ⟨[.query .getSelfContact,
        .storage (.storeSentGroupSetImage group (env.timeAt s.ticks) s.willQueue image
          applyOperationInDatabase),
        .transport (.processSentGroupSetImage group recipients
          (env.messageIdOf s.db (.storeSentGroupSetImage group (env.timeAt s.ticks) s.willQueue
            image applyOperationInDatabase)) (env.timeAt s.ticks) image)],
      by simp, rfl, fun e he => by
        simp only [List.mem_cons, List.mem_singleton, List.not_mem_nil, or_false] at he
        rcases he with rfl | rfl | rfl
        · exact Or.inl rfl
        · exact Or.inr (Or.inl ⟨_, _, rfl⟩)
        · exact Or.inr (Or.inr ⟨_, _, rfl⟩)⟩
  · exact ⟨[.query .getSelfContact,
        .storage (.storeSentGroupSetImage group (env.timeAt s.ticks) s.willQueue image
          applyOperationInDatabase)],
      by simp, rfl, fun e he => by
        simp only [List.mem_cons, List.mem_singleton, List.not_mem_nil, or_false] at he
        rcases he with rfl | rfl
        · exact Or.inl rfl
        · exact Or.inr (Or.inl ⟨_, _, rfl⟩)⟩

end resendCalls

/-- C21: every `storeSentGroupCreation`, `storeSentGroupSetTitle` and
`storeSentGroupSetImage` call recorded by `resendGroupSetup(group, recipients)`
is for `group` and passes `applyOperationInDatabase = false`; the members of
the CREATION, the title of the SET_TITLE and the image of the SET_IMAGE are
those of `getGroupData(group)` as read at the start of the call; and every
call on the transport acceptor it records is a `processSentGroup*` call that
passes exactly `recipients`. -/
theorem resendGroupSetup_passes_no_reapply_and_recipients {σ : Type} (env : Env σ) (mc : SimpleMessageCenter σ) (group : GroupId)
    (recipients : Finset ContactId) :
    (∀ g t q m a, Event.storage (.storeSentGroupCreation g t q m a) ∈
        callsSince mc (resendGroupSetup env group recipients mc) →
      g = group ∧ m = (env.getGroupData mc.db group true).members ∧ a = false) ∧
    (∀ g t q x a, Event.storage (.storeSentGroupSetTitle g t q x a) ∈
        callsSince mc (resendGroupSetup env group recipients mc) →
      g = group ∧ x = (env.getGroupData mc.db group true).title ∧ a = false) ∧
    (∀ g t q x a, Event.storage (.storeSentGroupSetImage g t q x a) ∈
        callsSince mc (resendGroupSetup env group recipients mc) →
      g = group ∧ x = (env.getGroupData mc.db group true).image.getData ∧ a = false) ∧
    (∀ t, Event.transport t ∈ callsSince mc (resendGroupSetup env group recipients mc) →
      t.recipients? = some recipients) := by
  generalize hgd : env.getGroupData mc.db group true = gd
  simp only [resendGroupSetup]
  split_ifs with hdb hi ha
  · simp [callsSince]
  all_goals
    simp only [db_ask, hgd]
    obtain ⟨e1, t1, -, h1⟩ := sendGroupCreation_calls env
      ((mc.ask (.getGroupData group true)).enter
        (.sendGroupCreation group gd.members recipients false))
      group recipients false gd.members
    generalize (sendGroupCreation env group gd.members recipients false
      ((mc.ask (.getGroupData group true)).enter
        (.sendGroupCreation group gd.members recipients false))).2 = a1 at t1 ⊢
    obtain ⟨e2, t2, -, h2⟩ := sendGroupTitle_calls env
      (a1.enter (.sendGroupTitle group gd.title recipients false)) group recipients false gd.title
    generalize (sendGroupTitle env group gd.title recipients false
      (a1.enter (.sendGroupTitle group gd.title recipients false))).2 = a2 at t2 ⊢
    obtain ⟨e3, t3, -, h3⟩ := sendGroupImage_calls env
      (a2.enter (.sendGroupImage group gd.image.getData recipients false)) group recipients false
      gd.image.getData
    generalize (sendGroupImage env group gd.image.getData recipients false
      (a2.enter (.sendGroupImage group gd.image.getData recipients false))).2 = a3 at t3 ⊢
    simp only [trace_enter, trace_ask, List.append_assoc] at t1 t2 t3
    simp only [callsSince, t3, t2, t1, List.append_assoc, List.drop_left']
    have hall : ∀ e, e ∈ [Event.query (.getGroupData group true)] ++
        ([Event.call (.sendGroupCreation group gd.members recipients false)] ++ (e1 ++
          ([Event.call (.sendGroupTitle group gd.title recipients false)] ++ (e2 ++
            ([Event.call (.sendGroupImage group gd.image.getData recipients false)] ++ e3))))) →
        (∃ q, e = .query q) ∨ (∃ c, e = .call c) ∨
        (∃ t q, e = .storage (.storeSentGroupCreation group t q gd.members false)) ∨
        (∃ t q, e = .storage (.storeSentGroupSetTitle group t q gd.title false)) ∨
        (∃ t q, e = .storage (.storeSentGroupSetImage group t q gd.image.getData false)) ∨
        (∃ t, e = .transport t ∧ t.recipients? = some recipients) := by
      intro e he
      simp only [List.mem_append, List.mem_singleton] at he
      rcases he with rfl | rfl | he | rfl | he | rfl | he
      · exact Or.inl ⟨_, rfl⟩
      · exact Or.inr (Or.inl ⟨_, rfl⟩)
      · rcases h1 e he with rfl | ⟨t, q, rfl⟩ | ⟨i, t, rfl⟩
        · exact Or.inl ⟨_, rfl⟩
        · exact Or.inr (Or.inr (Or.inl ⟨_, _, rfl⟩))
        · exact Or.inr (Or.inr (Or.inr (Or.inr (Or.inr ⟨_, rfl, rfl⟩))))
      · exact Or.inr (Or.inl ⟨_, rfl⟩)
      · rcases h2 e he with rfl | ⟨t, q, rfl⟩ | ⟨i, t, rfl⟩
        · exact Or.inl ⟨_, rfl⟩
        · exact Or.inr (Or.inr (Or.inr (Or.inl ⟨_, _, rfl⟩)))
        · exact Or.inr (Or.inr (Or.inr (Or.inr (Or.inr ⟨_, rfl, rfl⟩))))
      · exact Or.inr (Or.inl ⟨_, rfl⟩)
      · rcases h3 e he with rfl | ⟨t, q, rfl⟩ | ⟨i, t, rfl⟩
        · exact Or.inl ⟨_, rfl⟩
        · exact Or.inr (Or.inr (Or.inr (Or.inr (Or.inl ⟨_, _, rfl⟩))))
        · exact Or.inr (Or.inr (Or.inr (Or.inr (Or.inr ⟨_, rfl, rfl⟩))))
    refine ⟨fun g t q m a hm => ?_, fun g t q x a hm => ?_, fun g t q x a hm => ?_,
      fun t hm => ?_⟩
    · have hcase := hall (.storage (.storeSentGroupCreation g t q m a)) (by
        simp only [List.mem_append, List.mem_singleton, List.mem_cons] at hm ⊢
        tauto)
      simp only [reduceCtorEq, exists_false, false_or, or_false, Event.storage.injEq,
        StorageCall.storeSentGroupCreation.injEq, false_and, and_false] at hcase
      obtain ⟨_, _, hg, -, -, hm', ha'⟩ := hcase
      exact ⟨hg, hm', ha'⟩
    · have hcase := hall (.storage (.storeSentGroupSetTitle g t q x a)) (by
        simp only [List.mem_append, List.mem_singleton, List.mem_cons] at hm ⊢
        tauto)
      simp only [reduceCtorEq, exists_false, false_or, or_false, Event.storage.injEq,
        StorageCall.storeSentGroupSetTitle.injEq, false_and, and_false] at hcase
      obtain ⟨_, _, hg, -, -, hm', ha'⟩ := hcase
      exact ⟨hg, hm', ha'⟩
    · have hcase := hall (.storage (.storeSentGroupSetImage g t q x a)) (by
        simp only [List.mem_append, List.mem_singleton, List.mem_cons] at hm ⊢
        tauto)
      simp only [reduceCtorEq, exists_false, false_or, or_false, Event.storage.injEq,
        StorageCall.storeSentGroupSetImage.injEq, false_and, and_false] at hcase
      obtain ⟨_, _, hg, -, -, hm', ha'⟩ := hcase
      exact ⟨hg, hm', ha'⟩
    · have hcase := hall (.transport t) (by
        simp only [List.mem_append, List.mem_singleton, List.mem_cons] at hm ⊢
        tauto)
      simp only [reduceCtorEq, exists_false, false_or, or_false, Event.transport.injEq,
        false_and, and_false] at hcase
      obtain ⟨_, rfl, h⟩ := hcase
      exact h

/-- C21, at inputs: self (`1`) owns `groupOwn`, the acceptor is connected and
the group data carry an image; the setup is resent to `{3}`. -/
theorem resendGroupSetup_passes_no_reapply_and_recipients_witness :
    (Event.storage (.storeSentGroupCreation groupOwn 1000 true {1, 2, 3} false) ∈
        callsSince (connectedCenter false false dbOwner)
          (resendGroupSetup memoryEnvWithImage groupOwn {3} (connectedCenter false false dbOwner)) ∧
      (groupOwn = groupOwn ∧
        ({1, 2, 3} : Finset ContactId) =
          (memoryEnvWithImage.getGroupData (connectedCenter false false dbOwner).db groupOwn
            true).members ∧
        false = false)) ∧
    (Event.storage (.storeSentGroupSetImage groupOwn 1002 true [7, 7] false) ∈
        callsSince (connectedCenter false false dbOwner)
          (resendGroupSetup memoryEnvWithImage groupOwn {3} (connectedCenter false false dbOwner)) ∧
      (groupOwn = groupOwn ∧
        [7, 7] = (memoryEnvWithImage.getGroupData (connectedCenter false false dbOwner).db groupOwn
            true).image.getData ∧
        false = false)) ∧
    (Event.transport (.processSentGroupSetTitle groupOwn {3} 1 1001 "own") ∈
        callsSince (connectedCenter false false dbOwner)
          (resendGroupSetup memoryEnvWithImage groupOwn {3} (connectedCenter false false dbOwner)) ∧
      (TransportCall.processSentGroupSetTitle groupOwn {3} 1 1001 "own").recipients? =
        some {3}) :=
  ⟨⟨by decide,
      (resendGroupSetup_passes_no_reapply_and_recipients memoryEnvWithImage
        (connectedCenter false false dbOwner) groupOwn {3}).1 groupOwn 1000 true {1, 2, 3} false
        (by decide)⟩,
    ⟨by decide,
      (resendGroupSetup_passes_no_reapply_and_recipients memoryEnvWithImage
        (connectedCenter false false dbOwner) groupOwn {3}).2.2.1 groupOwn 1002 true [7, 7] false
        (by decide)⟩,
    ⟨by decide,
      (resendGroupSetup_passes_no_reapply_and_recipients memoryEnvWithImage
        (connectedCenter false false dbOwner) groupOwn {3}).2.2.2
        (.processSentGroupSetTitle groupOwn {3} 1 1001 "own") (by decide)⟩⟩

/-- C22: every `storeNewGroup(g, m, a)` call recorded by
`checkAndFixGroupMembership(group, sender)` is for `group`, passes
`isAwaitingSync = true`, and is the last mutation of storage; with `db'` the
storage state it is made in (the state at the start of the call, or that
state after the sent sync request was stored), the member set is `base ∪
{getSelfContact(), sender}`, where `base` is `getGroupMembers(group, false)`
if the group was known to storage or is marked deleted, and empty otherwise;
so where there are stored members, all of them are among the new ones. -/
theorem checkAndFixGroupMembership_repair_keeps_members {σ : Type} (env : Env σ) (mc : SimpleMessageCenter σ) (group : GroupId)
    (sender : ContactId) (g : GroupId) (m : Finset ContactId) (a : Bool)
    (h : Event.storage (.storeNewGroup g m a) ∈
      callsSince mc (checkAndFixGroupMembership env group sender mc).2) :
    g = group ∧ a = true ∧
    ∃ db', (db' = mc.db ∨ ∃ t q, db' = env.perform mc.db (.storeSentGroupSyncRequest group t q)) ∧
      (checkAndFixGroupMembership env group sender mc).2.db =
        env.perform db' (.storeNewGroup g m a) ∧
      m = (if env.hasGroup mc.db group = true ∨ env.isDeleteted db' group = true then
          env.getGroupMembers db' group false else ∅) ∪ {env.getSelfContact db', sender} ∧
      (env.hasGroup mc.db group = true ∨ env.isDeleteted db' group = true →
        env.getGroupMembers db' group false ⊆ m) := by
  revert h
  simp only [checkAndFixGroupMembership]
  obtain ⟨eU, htU, -, hU2, hdbU, -⟩ := requestSync_calls env group
    (((mc.ask (.hasGroup group)).ask .getSelfContact).enter
      (.requestSyncForGroupIfApplicable group))
  obtain ⟨eK, htK, -, hK2, hdbK, -⟩ := requestSync_calls env group
    ((((mc.ask (.hasGroup group)).ask (.getGroupMembers group false)).ask .getSelfContact).enter
      (.requestSyncForGroupIfApplicable group))
  generalize requestSyncForGroupIfApplicable env group
    (((mc.ask (.hasGroup group)).ask .getSelfContact).enter
      (.requestSyncForGroupIfApplicable group)) = rU at htU hdbU ⊢
  generalize requestSyncForGroupIfApplicable env group
    ((((mc.ask (.hasGroup group)).ask (.getGroupMembers group false)).ask .getSelfContact).enter
      (.requestSyncForGroupIfApplicable group)) = rK at htK hdbK ⊢
  simp only [trace_ask, trace_enter, List.append_assoc, db_ask, db_enter] at htU htK hdbU hdbK
  have hU3 : ∀ g m a, Event.storage (.storeNewGroup g m a) ∉ eU := fun g m a hmem => by
    have := List.countP_eq_zero.mp hU2 _ hmem
    simp [Event.isStoreNewGroup] at this
  have hK3 : ∀ g m a, Event.storage (.storeNewGroup g m a) ∉ eK := fun g m a hmem => by
    have := List.countP_eq_zero.mp hK2 _ hmem
    simp [Event.isStoreNewGroup] at this
  split_ifs <;>
    simp only [callsSince, trace_ask, trace_store, trace_enter, htU, htK, List.append_assoc,
      List.drop_left', List.drop_length, db_ask, db_store] <;>
    intro h <;>
    simp [hU3, hK3] at h
  all_goals
    obtain ⟨rfl, rfl, rfl⟩ := h
    clear htU htK hU2 hK2 hU3 hK3
    simp only [db_ask, Bool.not_eq_true', ne_eq, not_not, Bool.not_eq_true,
      Decidable.not_not] at *
    first
      | (refine ⟨trivial, trivial, rU.db, hdbU, ?_, ?_, ?_⟩
         · rfl
         · ext x
           simp [*]
           try tauto
         · intro hc x hx
           first
             | (simp [*] at hc; done)
             | (simp [*]; try tauto))
      | (refine ⟨trivial, trivial, mc.db, Or.inl rfl, ?_, ?_, ?_⟩
         · rfl
         · ext x
           simp [*]
           try tauto
         · intro hc x hx
           first
             | (simp [*] at hc; done)
             | (simp [*]; try tauto))
      | (refine ⟨trivial, trivial, rK.db, hdbK, ?_, ?_, ?_⟩
         · rfl
         · ext x
           simp [*]
           try tauto
         · intro hc x hx
           first
             | (simp [*] at hc; done)
             | (simp [*]; try tauto))

/-- C22, at inputs: `groupG` is unknown and not deleted, `TRUST_OTHERS` is on,
self is `1` and the sender `3`; the group is created with the members `1` and
`3`. -/
theorem checkAndFixGroupMembership_repair_keeps_members_witness :
    Event.storage (.storeNewGroup groupG (insert 3 (insert 1 ∅)) true) ∈
      callsSince (freshCenter false true dbEmpty)
        (checkAndFixGroupMembership memoryEnv groupG 3 (freshCenter false true dbEmpty)).2 ∧
    (groupG = groupG ∧ true = true ∧
      ∃ db', (db' = (freshCenter false true dbEmpty).db ∨
          ∃ t q, db' = memoryEnv.perform (freshCenter false true dbEmpty).db
            (.storeSentGroupSyncRequest groupG t q)) ∧
        (checkAndFixGroupMembership memoryEnv groupG 3 (freshCenter false true dbEmpty)).2.db =
          memoryEnv.perform db' (.storeNewGroup groupG (insert 3 (insert 1 ∅)) true) ∧
        (insert 3 (insert 1 ∅) : Finset ContactId) =
          (if memoryEnv.hasGroup (freshCenter false true dbEmpty).db groupG = true ∨
              memoryEnv.isDeleteted db' groupG = true then
            memoryEnv.getGroupMembers db' groupG false else ∅) ∪
            {memoryEnv.getSelfContact db', 3} ∧
        (memoryEnv.hasGroup (freshCenter false true dbEmpty).db groupG = true ∨
            memoryEnv.isDeleteted db' groupG = true →
          memoryEnv.getGroupMembers db' groupG false ⊆ insert 3 (insert 1 ∅))) :=
  ⟨by decide,
    checkAndFixGroupMembership_repair_keeps_members memoryEnv (freshCenter false true dbEmpty)
      groupG 3 groupG (insert 3 (insert 1 ∅)) true (by decide)⟩

/-- C23: no deferred entry is dropped implicitly.  A call of any operation
other than `processReceivedGroupCreation` leaves the queue it found as a
prefix of the queue it leaves, and so, for every group, the entries of the
group before the call as a prefix of those after it; a call of
`processReceivedGroupCreation` for `G` leaves the entries of every group other
than `G` exactly as they were. -/
theorem deferred_entries_only_removed_by_creation {σ : Type} (env : Env σ)
    (mc : SimpleMessageCenter σ) (op : Operation) :
    (op.creationGroup? = none →
      mc.m_messageQueue <+: (op.run env mc).m_messageQueue ∧
      ∀ group, mc.m_messageQueue.entriesOf group <+:
        (op.run env mc).m_messageQueue.entriesOf group) ∧
    (∀ G, op.creationGroup? = some G → ∀ H, H ≠ G →
      (op.run env mc).m_messageQueue.entriesOf H = mc.m_messageQueue.entriesOf H) := by
  obtain ⟨added, ha, ⟨hn, hq⟩ | ⟨G, hG, hg, ⟨hq, -⟩ | hq⟩⟩ := Operation.run_queue_effect env mc op
  · refine ⟨fun _ => ⟨⟨added, hq.symm⟩, fun group => ?_⟩, fun G hG => ?_⟩
    · rw [hq, MessageQueue.entriesOf, MessageQueue.entriesOf, List.filter_append]
      exact List.prefix_append _ _
    · rw [hn] at hG; cases hG
  · refine ⟨fun hn => ?_, fun G' _ H _ => by rw [hq]⟩
    rw [hG] at hn; cases hn
  · refine ⟨fun hn => ?_, fun G' hG' H hH => ?_⟩
    · rw [hG] at hn; cases hn
    · rw [hG] at hG'
      cases hG'
      rw [hq, MessageQueue.entriesOf, MessageQueue.entriesOf, List.filter_append,
        List.filter_filter]
      have h1 : added.filter (fun m => decide (m.group = H)) = [] := by
        rw [List.filter_eq_nil_iff]
        intro e he
        simp only [decide_eq_true_eq]
        exact fun h => hH (h ▸ hg e he)
      rw [h1, List.append_nil]
      congr 1
      funext m
      by_cases hm : m.group = H
      · have : ¬ m.group = G := fun h => hH (hm ▸ h)
        simp [hm, hH]
      · simp [hm]

/-- C23, at inputs: in the state `centerWithDeferred` (three entries queued
for `groupG`, one for `groupH`), a text for `groupG` leaves the queue as a
prefix, and a CREATION for `groupG` leaves the entries of `groupH` as they
were. -/
theorem deferred_entries_only_removed_by_creation_witness :
    (centerWithDeferred.m_messageQueue <+:
        ((Operation.inbound (.text groupG 3 59 10 11 "again")).run memoryEnv
          centerWithDeferred).m_messageQueue ∧
      ∀ group, centerWithDeferred.m_messageQueue.entriesOf group <+:
        ((Operation.inbound (.text groupG 3 59 10 11 "again")).run memoryEnv
          centerWithDeferred).m_messageQueue.entriesOf group) ∧
    ((Operation.inbound (.creation groupG 2 60 12 13 {1, 2})).run memoryEnv
        centerWithDeferred).m_messageQueue.entriesOf groupH =
      centerWithDeferred.m_messageQueue.entriesOf groupH :=
  ⟨(deferred_entries_only_removed_by_creation memoryEnv centerWithDeferred
      (.inbound (.text groupG 3 59 10 11 "again"))).1 rfl,
   (deferred_entries_only_removed_by_creation memoryEnv centerWithDeferred
      (.inbound (.creation groupG 2 60 12 13 {1, 2}))).2 groupG rfl groupH (by decide)⟩

/-- C24: when the option `BOOLEAN_SEND_TYPING_NOTIFICATION` is false,
`sendUserTypingStatus` leaves the state as it is and records no call (no
storage query or mutation, no transport call); and whatever the option, every
mutating storage call it records is `storeSentContactMessageNotificationTypingStarted`
for the receiver if `isTyping` is true and `...TypingStopped` if it is false,
and every transport call it records is `processSentContactMessageTypingStarted`
if `isTyping` is true and `...TypingStopped` if it is false. -/
theorem sendUserTypingStatus_follows_option_and_flag {σ : Type} (env : Env σ) (mc : SimpleMessageCenter σ) (receiver : ContactId)
    (isTyping : Bool) :
    (mc.m_optionMaster.BOOLEAN_SEND_TYPING_NOTIFICATION = false →
      sendUserTypingStatus env receiver isTyping mc = mc) ∧
    (∀ c, Event.storage c ∈ callsSince mc (sendUserTypingStatus env receiver isTyping mc) →
      ∃ t q, c = if isTyping = true then
          .storeSentContactMessageNotificationTypingStarted receiver t q
        else .storeSentContactMessageNotificationTypingStopped receiver t q) ∧
    (∀ c, Event.transport c ∈ callsSince mc (sendUserTypingStatus env receiver isTyping mc) →
      ∃ i t, c = if isTyping = true then
          .processSentContactMessageTypingStarted receiver i t
        else .processSentContactMessageTypingStopped receiver i t) := by
  simp only [sendUserTypingStatus]
  cases isTyping <;>
    split_ifs <;>
    simp only [callsSince, trace_ask, trace_store, trace_send, trace_tick,
      List.append_assoc, List.drop_left', List.cons_append, List.nil_append, List.drop_length] <;>
    simp_all

/-- C24, at inputs: with the option off nothing happens; with the option on,
contact `2` known and the acceptor connected, `isTyping = false` stores and
sends the typing-stopped notification. -/
theorem sendUserTypingStatus_follows_option_and_flag_witness :
    sendUserTypingStatus memoryEnv 2 true (connectedCenter false false dbKnown) =
      connectedCenter false false dbKnown ∧
    (Event.storage (.storeSentContactMessageNotificationTypingStopped 2 1000 true) ∈
        callsSince
          { connectedCenter false false dbKnown with m_optionMaster := ⟨true, false⟩ }
          (sendUserTypingStatus memoryEnv 2 false
            { connectedCenter false false dbKnown with m_optionMaster := ⟨true, false⟩ }) ∧
      ∃ t q, StorageCall.storeSentContactMessageNotificationTypingStopped 2 1000 true =
        if false = true then .storeSentContactMessageNotificationTypingStarted 2 t q
        else .storeSentContactMessageNotificationTypingStopped 2 t q) ∧
    (Event.transport (.processSentContactMessageTypingStopped 2 0 1000) ∈
        callsSince
          { connectedCenter false false dbKnown with m_optionMaster := ⟨true, false⟩ }
          (sendUserTypingStatus memoryEnv 2 false
            { connectedCenter false false dbKnown with m_optionMaster := ⟨true, false⟩ }) ∧
      ∃ i t, TransportCall.processSentContactMessageTypingStopped 2 0 1000 =
        if false = true then .processSentContactMessageTypingStarted 2 i t
        else .processSentContactMessageTypingStopped 2 i t) :=
  ⟨(sendUserTypingStatus_follows_option_and_flag memoryEnv (connectedCenter false false dbKnown)
      2 true).1 rfl,
    ⟨by decide,
      (sendUserTypingStatus_follows_option_and_flag memoryEnv
        { connectedCenter false false dbKnown with m_optionMaster := ⟨true, false⟩ } 2
        false).2.1 _ (by decide)⟩,
    ⟨by decide,
      (sendUserTypingStatus_follows_option_and_flag memoryEnv
        { connectedCenter false false dbKnown with m_optionMaster := ⟨true, false⟩ } 2
        false).2.2 _ (by decide)⟩⟩

/-- C25: for a call of an inbound group handler for TEXT, IMAGE, LOCATION,
SET_IMAGE, SET_TITLE, SYNC_REQUEST or LEAVE, with the message `m` it is called
for: the call applies at most the message to storage; the acknowledgements it
sends are `sendMessageReceivedAcknowledgement(sender, messageId)` exactly once
if the message was applied and an acceptor is set, and none at all otherwise
(message deferred, discarded, or no acceptor); and if the message was deferred,
it was not applied and not acknowledged by this call, and the replay of the
queued entry, in whatever state it comes, calls the handler again with the
same message and acknowledges it once exactly if that replay applies it with
an acceptor set. -/
theorem inbound_group_message_acknowledged_iff_applied {σ : Type} (env : Env σ)
    (mc : SimpleMessageCenter σ) (m : InboundGroupMessage) (hm : m.isCreation = false) :
    ((callsSince mc (deliver env m mc)).filterMap Event.applied? = [] ∨
      (callsSince mc (deliver env m mc)).filterMap Event.applied? = [m.storeCall env]) ∧
    ((callsSince mc (deliver env m mc)).filterMap Event.acknowledged? =
      if (callsSince mc (deliver env m mc)).filterMap Event.applied? = [m.storeCall env] ∧
          mc.m_networkSentMessageAcceptor.isSome = true then [(m.sender, m.messageId)]
      else []) ∧
    (∀ entry, Event.queue (.storeGroupMessage entry) ∈ callsSince mc (deliver env m mc) →
      (callsSince mc (deliver env m mc)).filterMap Event.applied? = [] ∧
      (callsSince mc (deliver env m mc)).filterMap Event.acknowledged? = [] ∧
      ∀ later : SimpleMessageCenter σ, ∃ replayed,
        replayEntry env entry later = some replayed ∧
        (callsSince later replayed).filterMap Event.acknowledged? =
          if (callsSince later replayed).filterMap Event.applied? = [m.storeCall env] ∧
              later.m_networkSentMessageAcceptor.isSome = true then [(m.sender, m.messageId)]
          else []) := by
  obtain ⟨h1, h2, h3⟩ := deliver_acknowledges env m hm mc
  refine ⟨h1, h2, fun entry he => ?_⟩
  obtain ⟨h4, h5⟩ := h3 entry he
  refine ⟨h4, ?_, fun later => ?_⟩
  · rw [h2, h4]
    cases m <;> simp [InboundGroupMessage.storeCall]
  · obtain ⟨-, -, c, hc, hr⟩ := replayEntry_replayedAs env entry m h5 later
    refine ⟨_, hr, ?_⟩
    obtain ⟨evs, hrec⟩ := deliver_recorded env m (later.enter c)
    have hcalls : callsSince later (deliver env m (later.enter c)) =
        Event.call c :: callsSince (later.enter c) (deliver env m (later.enter c)) := by
      rw [hrec.callsSince]
      simp only [callsSince, hrec.1, trace_enter, List.append_assoc, List.drop_left',
        List.singleton_append]
    have h6 := (deliver_acknowledges env m hm (later.enter c)).2.1
    rw [hcalls]
    simpa [Event.acknowledged?, Event.applied?] using h6

/-- C25, at inputs: a text for the unknown group `groupG` arrives with
`TRUST_OTHERS` off and is deferred; the replay of the queued entry in a state
where the group is known and the sender a member acknowledges it. -/
theorem inbound_group_message_acknowledged_iff_applied_witness :
    (InboundGroupMessage.text groupG 3 55 10 11 "hi").isCreation = false ∧
    Event.queue (.storeGroupMessage ⟨groupG, 3, 55, 10, 11, .TEXT, .string "hi"⟩) ∈
      callsSince (connectedCenter false false dbEmpty)
        (deliver memoryEnv (.text groupG 3 55 10 11 "hi") (connectedCenter false false dbEmpty)) ∧
    (callsSince (connectedCenter false false dbEmpty)
      (deliver memoryEnv (.text groupG 3 55 10 11 "hi")
        (connectedCenter false false dbEmpty))).filterMap Event.acknowledged? = [] ∧
    ∃ replayed,
      replayEntry memoryEnv ⟨groupG, 3, 55, 10, 11, .TEXT, .string "hi"⟩
        (connectedCenter false false dbKnown) = some replayed ∧
      (callsSince (connectedCenter false false dbKnown) replayed).filterMap Event.acknowledged? =
        if (callsSince (connectedCenter false false dbKnown) replayed).filterMap Event.applied? =
              [(InboundGroupMessage.text groupG 3 55 10 11 "hi").storeCall memoryEnv] ∧
            (connectedCenter false false dbKnown).m_networkSentMessageAcceptor.isSome = true then
          [((InboundGroupMessage.text groupG 3 55 10 11 "hi").sender,
            (InboundGroupMessage.text groupG 3 55 10 11 "hi").messageId)]
        else [] :=
  ⟨rfl, by decide,
    ((inbound_group_message_acknowledged_iff_applied memoryEnv (connectedCenter false false dbEmpty)
      (.text groupG 3 55 10 11 "hi") rfl).2.2 ⟨groupG, 3, 55, 10, 11, .TEXT, .string "hi"⟩
        (by decide)).2.1,
    ((inbound_group_message_acknowledged_iff_applied memoryEnv (connectedCenter false false dbEmpty)
      (.text groupG 3 55 10 11 "hi") rfl).2.2 ⟨groupG, 3, 55, 10, 11, .TEXT, .string "hi"⟩
        (by decide)).2.2
      (connectedCenter false false dbKnown)⟩

/-- C26: a call of `checkAndFixGroupMembership(group, sender)` records at most
one call of `requestSyncForGroupIfApplicable`; it records none when self is
the group's owner or when the group is known to storage and the sender is one
of its members; and from its first `storeNewGroup` call on it records none, so
the sync request comes before any repair. -/
theorem checkAndFixGroupMembership_requests_sync_at_most_once {σ : Type} (env : Env σ) (mc : SimpleMessageCenter σ) (group : GroupId)
    (sender : ContactId) :
    (callsSince mc (checkAndFixGroupMembership env group sender mc).2).countP
      Event.isRequestSync ≤ 1 ∧
    (env.getSelfContact mc.db = group.getOwner ∨
        (env.hasGroup mc.db group = true ∧ sender ∈ env.getGroupMembers mc.db group false) →
      (callsSince mc (checkAndFixGroupMembership env group sender mc).2).countP
        Event.isRequestSync = 0) ∧
    ((callsSince mc (checkAndFixGroupMembership env group sender mc).2).dropWhile
      (fun e => !e.isStoreNewGroup)).countP Event.isRequestSync = 0 := by
  simp only [checkAndFixGroupMembership]
  obtain ⟨eU, htU, hU1, hU2, -, -⟩ := requestSync_calls env group
    (((mc.ask (.hasGroup group)).ask .getSelfContact).enter
      (.requestSyncForGroupIfApplicable group))
  obtain ⟨eK, htK, hK1, hK2, -, -⟩ := requestSync_calls env group
    ((((mc.ask (.hasGroup group)).ask (.getGroupMembers group false)).ask .getSelfContact).enter
      (.requestSyncForGroupIfApplicable group))
  generalize requestSyncForGroupIfApplicable env group
    (((mc.ask (.hasGroup group)).ask .getSelfContact).enter
      (.requestSyncForGroupIfApplicable group)) = rU at htU ⊢
  generalize requestSyncForGroupIfApplicable env group
    ((((mc.ask (.hasGroup group)).ask (.getGroupMembers group false)).ask .getSelfContact).enter
      (.requestSyncForGroupIfApplicable group)) = rK at htK ⊢
  simp only [trace_ask, trace_enter, List.append_assoc] at htU htK
  have hdU := dropWhile_until_storeNewGroup eU
  have hdK := dropWhile_until_storeNewGroup eK
  refine ⟨?_, ?_, ?_⟩
  · split_ifs <;>
      simp only [callsSince, trace_ask, trace_store, trace_enter, htU, htK, List.append_assoc,
        List.drop_left', List.drop_length, db_ask] <;>
      simp [Event.isRequestSync, hU1, hK1, List.countP_cons, List.countP_append]
  · split_ifs <;>
      simp only [callsSince, trace_ask, trace_store, trace_enter, htU, htK, List.append_assoc,
        List.drop_left', List.drop_length, db_ask] <;>
      simp_all [Event.isRequestSync, List.countP_cons, List.countP_append,
        @eq_comm _ group.getOwner]
  · have q1 : ∀ q, (Event.query q).isStoreNewGroup = false := fun _ => rfl
    have q2 : ∀ c, (Event.call c).isStoreNewGroup = false := fun _ => rfl
    have q3 : ∀ g m a, (Event.storage (.storeNewGroup g m a)).isStoreNewGroup = true :=
      fun _ _ _ => rfl
    split_ifs <;>
      simp only [callsSince, trace_ask, trace_store, trace_enter, htU, htK, List.append_assoc,
        List.drop_left', List.drop_length, db_ask, List.cons_append, List.nil_append,
        List.dropWhile_cons, List.dropWhile_nil, q1, q2, q3, Bool.not_false,
        Bool.not_true, if_true, if_false, hdU _ hU2, hdK _ hK2, Bool.false_eq_true] <;>
      first
        | rfl
        | exact Nat.le_zero.mp (hU1 ▸ (List.dropWhile_sublist _).countP_le _)
        | exact Nat.le_zero.mp (hK1 ▸ (List.dropWhile_sublist _).countP_le _)

/-- C26, at inputs: self (`1`) owns `groupOwn`, and for `groupG` (known, with
member `3`) the sender `3` is a member: no sync is requested. -/
theorem checkAndFixGroupMembership_requests_sync_at_most_once_witness :
    (callsSince (freshCenter false true dbOwner)
      (checkAndFixGroupMembership memoryEnv groupOwn 5 (freshCenter false true dbOwner)).2).countP
        Event.isRequestSync = 0 ∧
    (callsSince (freshCenter false true dbKnown)
      (checkAndFixGroupMembership memoryEnv groupG 3 (freshCenter false true dbKnown)).2).countP
        Event.isRequestSync = 0 :=
  ⟨(checkAndFixGroupMembership_requests_sync_at_most_once memoryEnv
      (freshCenter false true dbOwner) groupOwn 5).2.1 (Or.inl rfl),
    (checkAndFixGroupMembership_requests_sync_at_most_once memoryEnv
      (freshCenter false true dbKnown) groupG 3).2.1 (Or.inr ⟨rfl, by decide⟩)⟩

/-- C27: `tryResendingMessagesToNetwork` records exactly the one call
`sendAllWaitingMessages` on storage when an acceptor is set, it is connected
and `hasDatabase()` is true, and otherwise leaves the state as it is and
records no call; `setNetworkSentMessageAcceptor` sets the acceptor and records
the call of `tryResendingMessagesToNetwork` once if the new acceptor is
non-null and not at all if it is null. -/
theorem tryResendingMessagesToNetwork_flushes_iff_ready {σ : Type} (env : Env σ) (mc : SimpleMessageCenter σ)
    (newNetworkSentMessageAcceptor : Option NetworkSentMessageAcceptor) :
    ((∃ a, mc.m_networkSentMessageAcceptor = some a ∧ a.isConnected = true) ∧
        mc.m_storage.hasDatabase = true →
      callsSince mc (tryResendingMessagesToNetwork env mc) = [.storage .sendAllWaitingMessages]) ∧
    (¬ ((∃ a, mc.m_networkSentMessageAcceptor = some a ∧ a.isConnected = true) ∧
        mc.m_storage.hasDatabase = true) →
      tryResendingMessagesToNetwork env mc = mc) ∧
    (callsSince mc (setNetworkSentMessageAcceptor env newNetworkSentMessageAcceptor mc)).filter
        (fun e => decide (e = .call .tryResendingMessagesToNetwork)) =
      (if newNetworkSentMessageAcceptor.isSome = true then
        [.call .tryResendingMessagesToNetwork] else []) ∧
    (setNetworkSentMessageAcceptor env newNetworkSentMessageAcceptor mc).m_networkSentMessageAcceptor
      = newNetworkSentMessageAcceptor := by
  refine ⟨?_, ?_, ?_, ?_⟩
  · rintro ⟨⟨a, ha, hc⟩, hdb⟩
    simp [tryResendingMessagesToNetwork, ha, hc, hdb, callsSince]
  · intro h
    unfold tryResendingMessagesToNetwork
    rcases hacc : mc.m_networkSentMessageAcceptor with _ | a
    · rfl
    · simp only
      split_ifs with h2
      · exfalso
        simp only [Bool.and_eq_true] at h2
        exact h ⟨⟨a, hacc, h2.1⟩, h2.2⟩
      · rfl
  · rcases newNetworkSentMessageAcceptor with _ | ⟨_ | _⟩ <;>
      cases hdb : mc.m_storage.hasDatabase <;>
      simp [setNetworkSentMessageAcceptor, tryResendingMessagesToNetwork, callsSince, enter, log,
        store, hdb, NetworkSentMessageAcceptor.isConnected]
  · rcases newNetworkSentMessageAcceptor with _ | ⟨_ | _⟩ <;>
      cases hdb : mc.m_storage.hasDatabase <;>
      simp [setNetworkSentMessageAcceptor, tryResendingMessagesToNetwork, enter, log,
        store, hdb, NetworkSentMessageAcceptor.isConnected]

/-- C27, at inputs: a connected acceptor with `hasDatabase()` true flushes;
without an acceptor nothing is recorded. -/
theorem tryResendingMessagesToNetwork_flushes_iff_ready_witness :
    callsSince (connectedCenter true false dbKnown)
        (tryResendingMessagesToNetwork memoryEnv (connectedCenter true false dbKnown)) =
      [.storage .sendAllWaitingMessages] ∧
    tryResendingMessagesToNetwork memoryEnv (freshCenter true false dbKnown) =
      freshCenter true false dbKnown :=
  ⟨(tryResendingMessagesToNetwork_flushes_iff_ready memoryEnv (connectedCenter true false dbKnown)
      none).1 ⟨⟨⟨true⟩, rfl, rfl⟩, rfl⟩,
    (tryResendingMessagesToNetwork_flushes_iff_ready memoryEnv (freshCenter true false dbKnown)
      none).2.1 (fun h => by
        obtain ⟨⟨a, ha, -⟩, -⟩ := h
        cases ha)⟩

/-- C28: starting from an empty deferred queue, after any sequence of
operations every queued entry has one of the seven deferred types (a CREATION
is never queued), every queued SET_IMAGE or SET_TITLE entry has its group's
owner as sender, and every queued SYNC_REQUEST entry has a sender other than
the owner; and a call of `processReceivedGroupCreation` made then, whatever
its arguments, does not end with the `InternalErrorException` of the replay
switch. -/
theorem queued_entries_are_replayable {σ : Type} (env : Env σ) (mc : SimpleMessageCenter σ)
    (ops : List Operation) (h : mc.m_messageQueue = []) :
    (∀ it ∈ (Operation.runAll env ops mc).m_messageQueue,
      it.messageType ∈ [GroupMessageType.TEXT, .IMAGE, .LOCATION, .SET_IMAGE, .SET_TITLE,
        .SYNC_REQUEST, .LEAVE] ∧
      (it.messageType = .SET_IMAGE ∨ it.messageType = .SET_TITLE →
        it.sender = it.group.getOwner) ∧
      (it.messageType = .SYNC_REQUEST → it.sender ≠ it.group.getOwner)) ∧
    ∀ (group : GroupId) (sender : ContactId) (messageId : MessageId)
      (timeSent timeReceived : MessageTime) (members : Finset ContactId),
      (processReceivedGroupCreation env group sender messageId timeSent timeReceived members
        (Operation.runAll env ops mc)).2 = false := by
  have hinv := Operation.runAll_asQueuedByHandlers env ops mc
    (fun it hit => by rw [h] at hit; exact absurd hit (List.not_mem_nil it))
  refine ⟨fun it hit => asQueuedByHandlers_spelled_out (hinv it hit), ?_⟩
  intro group sender messageId timeSent timeReceived members
  rcases processReceivedGroupCreation_work env group sender messageId timeSent timeReceived
    members (Operation.runAll env ops mc) with h1 | ⟨evs, added, -, -, -, -, -, -, -, hall, -⟩
  · rw [h1]
  · exact hall (fun it hit =>
      asQueuedByHandlers_replayedAs (hinv it (List.mem_filter.mp hit).1))

/-- C28, at inputs: from the empty queue, with `TRUST_OTHERS` off and no group
known, a text, a title set by the owner and a sync request for `groupG` arrive
and are queued. -/
theorem queued_entries_are_replayable_witness :
    (freshCenter false false dbEmpty).m_messageQueue = [] ∧
    (Operation.runAll memoryEnv
        [.inbound (.text groupG 3 55 10 11 "hi"), .inbound (.setTitle groupG 2 56 10 11 "t"),
          .send (.sendText 2 "x"), .inbound (.leave groupG 3 57 10 11)]
        (freshCenter false false dbEmpty)).m_messageQueue =
      [⟨groupG, 3, 55, 10, 11, .TEXT, .string "hi"⟩,
        ⟨groupG, 2, 56, 10, 11, .SET_TITLE, .string "t"⟩,
        ⟨groupG, 3, 57, 10, 11, .LEAVE, .null⟩] ∧
    (∀ it ∈ (Operation.runAll memoryEnv
        [.inbound (.text groupG 3 55 10 11 "hi"), .inbound (.setTitle groupG 2 56 10 11 "t"),
          .send (.sendText 2 "x"), .inbound (.leave groupG 3 57 10 11)]
        (freshCenter false false dbEmpty)).m_messageQueue,
      it.messageType ∈ [GroupMessageType.TEXT, .IMAGE, .LOCATION, .SET_IMAGE, .SET_TITLE,
        .SYNC_REQUEST, .LEAVE] ∧
      (it.messageType = .SET_IMAGE ∨ it.messageType = .SET_TITLE →
        it.sender = it.group.getOwner) ∧
      (it.messageType = .SYNC_REQUEST → it.sender ≠ it.group.getOwner)) ∧
    ∀ (group : GroupId) (sender : ContactId) (messageId : MessageId)
      (timeSent timeReceived : MessageTime) (members : Finset ContactId),
      (processReceivedGroupCreation memoryEnv group sender messageId timeSent timeReceived members
        (Operation.runAll memoryEnv
          [.inbound (.text groupG 3 55 10 11 "hi"), .inbound (.setTitle groupG 2 56 10 11 "t"),
            .send (.sendText 2 "x"), .inbound (.leave groupG 3 57 10 11)]
          (freshCenter false false dbEmpty))).2 = false :=
  ⟨rfl, by decide,
    queued_entries_are_replayable memoryEnv (freshCenter false false dbEmpty)
      [.inbound (.text groupG 3 55 10 11 "hi"), .inbound (.setTitle groupG 2 56 10 11 "t"),
        .send (.sendText 2 "x"), .inbound (.leave groupG 3 57 10 11)] rfl⟩

/-- C29: a call of `processReceivedGroupCreation` is a bounded computation.
It drains the queue at most once; the inbound group handlers it calls are at
most as many as the entries of the group in the queue it found (the snapshot
of the drain), and exactly as many when it drained and does not end with the
exception; the entries deferred again during the replay are appended to the
queue, where they are the entries of the group the call leaves, and they are
no more than the handler calls made, so none of them is processed within the
call; and a handler called by the replay calls no inbound group handler and
drains nothing, so the nesting of inbound handlers ends there. -/
theorem creation_replay_is_bounded {σ : Type} (env : Env σ) (mc : SimpleMessageCenter σ)
    (group : GroupId) (sender : ContactId) (messageId : MessageId)
    (timeSent timeReceived : MessageTime) (members : Finset ContactId) :
    (callsSince mc (processReceivedGroupCreation env group sender messageId timeSent timeReceived
      members mc).1).countP Event.isDrain ≤ 1 ∧
    ((callsSince mc (processReceivedGroupCreation env group sender messageId timeSent
      timeReceived members mc).1).filterMap Event.replayed?).length ≤
        (mc.m_messageQueue.entriesOf group).length ∧
    (Event.queue (.getAndRemoveQueuedMessages group) ∈
        callsSince mc (processReceivedGroupCreation env group sender messageId timeSent
          timeReceived members mc).1 →
      ((processReceivedGroupCreation env group sender messageId timeSent timeReceived members
          mc).2 = false →
        ((callsSince mc (processReceivedGroupCreation env group sender messageId timeSent
          timeReceived members mc).1).filterMap Event.replayed?).length =
            (mc.m_messageQueue.entriesOf group).length) ∧
      (processReceivedGroupCreation env group sender messageId timeSent timeReceived members
          mc).1.m_messageQueue.entriesOf group =
        (callsSince mc (processReceivedGroupCreation env group sender messageId timeSent
          timeReceived members mc).1).filterMap Event.deferred? ∧
      ((callsSince mc (processReceivedGroupCreation env group sender messageId timeSent
          timeReceived members mc).1).filterMap Event.deferred?).length ≤
        ((callsSince mc (processReceivedGroupCreation env group sender messageId timeSent
          timeReceived members mc).1).filterMap Event.replayed?).length) ∧
    (∀ (it : ReceivedGroupMessage) (during replayed : SimpleMessageCenter σ),
      replayEntry env it during = some replayed →
        ((callsSince during replayed).filterMap Event.replayed?).length = 1 ∧
        (callsSince during replayed).countP Event.isDrain = 0) := by
  refine ⟨?_, ?_, ?_, ?_⟩
  · rcases processReceivedGroupCreation_work env group sender messageId timeSent timeReceived
      members mc with h | ⟨evs, added, ht, -, -, hn, -⟩
    · rw [h, callsSince_self]; exact Nat.zero_le _
    · rw [callsSince_append _ _ _ ht]
      simp only [List.countP_append, hn]
      cases mc.m_networkSentMessageAcceptor.isSome <;> simp [Event.isDrain]
  · rcases processReceivedGroupCreation_work env group sender messageId timeSent timeReceived
      members mc with h | ⟨evs, added, ht, -, -, -, hr, -⟩
    · rw [h, callsSince_self]; exact Nat.zero_le _
    · rw [callsSince_append _ _ _ ht]
      have : ([Event.storage (.storeReceivedGroupCreation group sender messageId timeSent
              timeReceived members)] ++
            (if mc.m_networkSentMessageAcceptor.isSome then
              [Event.transport (.sendMessageReceivedAcknowledgement sender messageId)] else []) ++
            [Event.queue (.getAndRemoveQueuedMessages group)] ++ evs).filterMap Event.replayed? =
          evs.filterMap Event.replayed? := by
        simp only [List.filterMap_append]
        cases mc.m_networkSentMessageAcceptor.isSome <;> simp [Event.replayed?]
      rw [this]; exact hr
  · rcases processReceivedGroupCreation_work env group sender messageId timeSent timeReceived
      members mc with h | ⟨evs, added, ht, hq, hd, -, -, hl, hf, -, ha⟩
    · rw [h, callsSince_self]
      exact fun hmem => absurd hmem (List.not_mem_nil _)
    · rw [callsSince_append _ _ _ ht]
      have hrep : ([Event.storage (.storeReceivedGroupCreation group sender messageId timeSent
              timeReceived members)] ++
            (if mc.m_networkSentMessageAcceptor.isSome then
              [Event.transport (.sendMessageReceivedAcknowledgement sender messageId)] else []) ++
            [Event.queue (.getAndRemoveQueuedMessages group)] ++ evs).filterMap Event.replayed? =
          evs.filterMap Event.replayed? := by
        simp only [List.filterMap_append]
        cases mc.m_networkSentMessageAcceptor.isSome <;> simp [Event.replayed?]
      have hdef : ([Event.storage (.storeReceivedGroupCreation group sender messageId timeSent
              timeReceived members)] ++
            (if mc.m_networkSentMessageAcceptor.isSome then
              [Event.transport (.sendMessageReceivedAcknowledgement sender messageId)] else []) ++
            [Event.queue (.getAndRemoveQueuedMessages group)] ++ evs).filterMap Event.deferred? =
          evs.filterMap Event.deferred? := by
        simp only [List.filterMap_append]
        cases mc.m_networkSentMessageAcceptor.isSome <;> simp [Event.deferred?]
      rw [hrep, hdef, hd]
      refine fun _ => ⟨hf, ?_, hl⟩
      rw [hq, MessageQueue.entriesOf, List.filter_append, List.filter_filter]
      have h1 : (mc.m_messageQueue.filter
          (fun a => decide (a.group = group) && !decide (a.group = group))) = [] := by
        rw [List.filter_eq_nil_iff]
        intro e _
        simp
      have h2 : added.filter (fun m => decide (m.group = group)) = added := by
        rw [List.filter_eq_self]
        intro e he
        simpa using (ha e he).1
      rw [h1, h2, List.nil_append]
  · intro it during replayed hre
    cases hm : it.replayedAs with
    | none =>
      rw [(replayEntry_eq_none_iff env it during).mpr hm] at hre
      cases hre
    | some m =>
      obtain ⟨hcr, -, c, hc, hre'⟩ := replayEntry_replayedAs env it m hm during
      rw [hre'] at hre
      cases hre
      obtain ⟨evs, added, ht, -, -, hr, hn, -⟩ := deliver_work env m hcr (during.enter c)
      have hcalls : callsSince during (deliver env m (during.enter c)) = Event.call c :: evs := by
        simp only [callsSince, ht, trace_enter, List.append_assoc, List.drop_left',
          List.singleton_append]
      rw [hcalls, List.filterMap_cons_some hc, hr, List.countP_cons_of_neg, hn]
      · exact ⟨rfl, rfl⟩
      · simp [Event.isDrain]

/-- C29, at inputs: in the state `centerWithDeferred` (three entries queued
for `groupG`), a CREATION for `groupG` from its owner drains the queue. -/
theorem creation_replay_is_bounded_witness :
    Event.queue (.getAndRemoveQueuedMessages groupG) ∈
      callsSince centerWithDeferred
        (processReceivedGroupCreation memoryEnv groupG 2 60 12 13 {1, 2} centerWithDeferred).1 ∧
    ((processReceivedGroupCreation memoryEnv groupG 2 60 12 13 {1, 2} centerWithDeferred).2 = false →
      ((callsSince centerWithDeferred (processReceivedGroupCreation memoryEnv groupG 2 60 12 13
        {1, 2} centerWithDeferred).1).filterMap Event.replayed?).length =
          (centerWithDeferred.m_messageQueue.entriesOf groupG).length) ∧
    (processReceivedGroupCreation memoryEnv groupG 2 60 12 13 {1, 2}
        centerWithDeferred).1.m_messageQueue.entriesOf groupG =
      (callsSince centerWithDeferred (processReceivedGroupCreation memoryEnv groupG 2 60 12 13
        {1, 2} centerWithDeferred).1).filterMap Event.deferred? ∧
    ((callsSince centerWithDeferred (processReceivedGroupCreation memoryEnv groupG 2 60 12 13
        {1, 2} centerWithDeferred).1).filterMap Event.deferred?).length ≤
      ((callsSince centerWithDeferred (processReceivedGroupCreation memoryEnv groupG 2 60 12 13
        {1, 2} centerWithDeferred).1).filterMap Event.replayed?).length :=
  ⟨by decide,
    (creation_replay_is_bounded memoryEnv centerWithDeferred groupG 2 60 12 13 {1, 2}).2.2.1
      (by decide)⟩

end openmittsu
